import Mathlib

/-!
# GrabCut segmentation engine (`cudaSegmentation.cpp`): a shallow embedding

The engine of `src/cudaSegmentation.cpp` is embedded as pure functions on an explicit
engine state.

* Device memory is a ledger of live allocations (`Ledger`); every `cudaMalloc`,
  `cudaMallocPitch` and `nppiGraphcutInitAlloc` hands out a fresh address, every
  `cudaFree` / `nppiGraphcutFree` either releases a live address or is recorded as an
  invalid release.
* A device buffer (`Buf`) is the pointer held by the member together with the logical
  contents last written through it.
* The CUDA kernels and NPP primitives that are only declared in the file
  (`EdgeCues`, `GMMDataTerm`, `downscale`, the graph cuts, ...) are the fields of `Ext`:
  deterministic functions of the operands the call site passes. The two GMM estimation
  kernels receive the alpha plane through a non-const pointer, so they return the plane
  together with the model; `Ext.estimatorKeepsAlpha` is the contract under which they
  leave it untouched, and `Ext.specEstimator` is the estimator of the specification
  (section 4.3), which consumes the plane and mutates the model only.
* The halvings `(int)ceil(x * 0.5f)` of the pyramid are modelled twice: `ceilHalf` is the
  exact ceiling of `x / 2`, `ceilHalf_f32` the value in single precision, with the
  conversion of the `int` to `float` rounding to a 24-bit significand. The two agree up to
  `2^24`; the definitions with the suffix `_f32` are the pyramid builder in single
  precision.
* Loops that the source does not bound (`createSmallImage`, `createSmallTrimap`) take
  fuel and return `none` when it runs out.
* Console output, the tick counters and the two CUDA timing events have no effect on the
  state and are left out.
* `int` members hold sizes and indices; they are natural numbers here. The index
  expressions `1 - i` and `i ^ 1` are only evaluated at `i = 0` and `i = 1`.
  `USE_HISTOGRAM_MODEL` and `PREFILTER` are not defined, `DOWNSAMPLE_FIRST` and
  `CLUSTER_ALWAYS` are, and the embedding follows the preprocessor branches that are
  compiled.
-/

set_option linter.dupNamespace false

namespace cudaSegmentation

/-! ## Constants (lines 52-56) -/

/-- The constant `COLOR_CLUSTER` (line 53). -/
def COLOR_CLUSTER : Nat := 2

/-- The constant `MAX_ITERATIONS` (line 55). -/
def MAX_ITERATIONS : Nat := 0

/-- The constant `EDGE_STRENGTH` (line 56), `50.0f`. -/
def EDGE_STRENGTH : Nat := 50

/-- The macro `MAX`. -/
def MAX (a b : Nat) : Nat := if a > b then a else b

/-! ## Data model -/

/-- Logical contents of a device plane. -/
abbrev Plane := List Nat

/-- The NPP size record `NppiSize`. -/
structure NppiSize where
  width : Nat
  height : Nat
deriving DecidableEq

/-- A device pointer member: `none` is a pointer that never received a value. -/
abbrev Ptr := Option Nat

/-- A device buffer: the pointer stored in the member and the contents last written. -/
structure Buf where
  ptr : Ptr
  data : Plane
deriving DecidableEq

/-- A buffer member that was never assigned. -/
def Buf.unset : Buf := ⟨none, []⟩

/-- Ledger of the device allocator.
`next` is the next fresh address, `live` the addresses allocated and not yet freed (in
allocation order), `staleFrees` the addresses passed to a free while not live although
they had been handed out before (a second free), `wildFrees` the number of frees issued
through a pointer that never received an allocation. -/
structure Ledger where
  next : Nat
  live : List Nat
  staleFrees : List Nat
  wildFrees : Nat
deriving DecidableEq

/-- Result of an allocation call. -/
structure Alloc where
  addr : Nat
  pitch : Nat
  dev : Ledger

/-- Device allocation `cudaMalloc` (also the state allocation of `nppiGraphcutInitAlloc`). -/
def cudaMalloc (L : Ledger) : Alloc :=
  { addr := L.next, pitch := 0, dev := { L with next := L.next + 1, live := L.live ++ [L.next] } }

/-- Device release `cudaFree` (also `nppiGraphcutFree`). The error macro around the call
belongs to the CUDA samples and is not modelled: the request is recorded. -/
def cudaFree (p : Ptr) (L : Ledger) : Ledger :=
  match p with
  | none => { L with wildFrees := L.wildFrees + 1 }
  | some a =>
    if a ∈ L.live then { L with live := L.live.erase a }
    else if a < L.next then { L with staleFrees := L.staleFrees ++ [a] }
    else { L with wildFrees := L.wildFrees + 1 }

/-- Comparison operators accepted by the NPP threshold primitive. -/
inductive NppCmpOp where
  | NPP_CMP_LESS
  | NPP_CMP_GREATER
deriving DecidableEq

/-- One pixel of the external NPP primitive `nppiThreshold_8u_C1IR` (not code of the
repository). NPP contract: a pixel for which `pixel OP nThreshold` holds is set to
`nThreshold`, any other pixel keeps its value. -/
def thresholdPixel (nThreshold : Nat) (op : NppCmpOp) (v : Nat) : Nat :=
  match op with
  | NppCmpOp.NPP_CMP_LESS => if v < nThreshold then nThreshold else v
  | NppCmpOp.NPP_CMP_GREATER => if v > nThreshold then nThreshold else v

/-- In-place threshold `nppiThreshold_8u_C1IR` over the region of interest. -/
def nppiThreshold_8u_C1IR (p : Plane) (nThreshold : Nat) (op : NppCmpOp) : Plane :=
  p.map (thresholdPixel nThreshold op)

/-- The eight capacity planes written by `EdgeCues`. -/
structure EdgePlanes where
  left_transposed : Plane
  right_transposed : Plane
  top : Plane
  bottom : Plane
  topleft : Plane
  topright : Plane
  bottomleft : Plane
  bottomright : Plane

/-- What a GMM estimation kernel leaves behind: the model, and the alpha plane, which the
prototypes of lines 61-62 take through a non-const pointer. -/
structure GmmOut where
  gmm : Plane
  alpha : Plane

/-- External capabilities: the allocator pitch and the kernels declared at lines 59-73
together with the NPP graph cuts. Their bodies are not part of the sources; each is a
deterministic function of the operands it is given (scratch memory is workspace and not an
operand). -/
structure Ext where
  /-- Pitch granted by `cudaMallocPitch` for a row of `widthBytes` bytes. -/
  grantedPitch : Nat → Nat → Nat
  /-- `downscale small_pitch small_width small_height image pitch width height`. -/
  downscale : Nat → Nat → Nat → Plane → Nat → Nat → Nat → Plane
  /-- `downscaleTrimap small_pitch small_width small_height image pitch width height`. -/
  downscaleTrimap : Nat → Nat → Nat → Plane → Nat → Nat → Nat → Plane
  /-- `upsampleAlpha small_alpha alpha_pitch width height small_width small_height`. -/
  upsampleAlpha : Plane → Nat → Nat → Nat → Nat → Nat → Plane
  /-- `GMMInitialize gmm_N gmm gmm_pitch image image_pitch alpha alpha_pitch width height`:
  the new model and the alpha plane as the kernel leaves it. -/
  GMMInitialize : Nat → Plane → Nat → Plane → Nat → Plane → Nat → Nat → Nat → GmmOut
  /-- `GMMUpdate gmm_N gmm gmm_pitch image image_pitch alpha alpha_pitch width height`:
  the new model and the alpha plane as the kernel leaves it. -/
  GMMUpdate : Nat → Plane → Nat → Plane → Nat → Plane → Nat → Nat → Nat → GmmOut
  /-- `GMMDataTerm terminal_pitch gmmN gmm gmm_pitch image image_pitch trimap trimap_pitch
  width height`: the terminal plane. -/
  GMMDataTerm : Nat → Nat → Plane → Nat → Plane → Nat → Plane → Nat → Nat → Nat → Plane
  /-- `EdgeCues alpha image image_pitch pitch transposed_pitch width height`. -/
  EdgeCues : Nat → Plane → Nat → Nat → Nat → Nat → Nat → EdgePlanes
  /-- `nppiGraphcut_32s8u terminals left right top bottom step transposedStep size
  labelStep`: the label plane. -/
  nppiGraphcut_32s8u : Plane → Plane → Plane → Plane → Plane → Nat → Nat → NppiSize → Nat → Plane
  /-- `nppiGraphcut8_32s8u terminals left right top topleft topright bottom bottomleft
  bottomright step transposedStep size labelStep`: the label plane. -/
  nppiGraphcut8_32s8u : Plane → Plane → Plane → Plane → Plane → Plane → Plane → Plane → Plane →
    Nat → Nat → NppiSize → Nat → Plane
  /-- `SegmentationChanged alpha_old alpha_new alpha_pitch width height`: the flag. -/
  SegmentationChanged : Plane → Plane → Nat → Nat → Nat → Bool

/-- The contract of the specification (section 4.3) for the appearance model estimator:
the kernels consume the alpha plane and mutate only the model. -/
def Ext.estimatorKeepsAlpha (K : Ext) : Prop :=
  ∀ (n : Nat) (gmm : Plane) (gp : Nat) (img : Plane) (ip : Nat) (alpha : Plane) (ap w h : Nat),
    (K.GMMInitialize n gmm gp img ip alpha ap w h).alpha = alpha ∧
    (K.GMMUpdate n gmm gp img ip alpha ap w h).alpha = alpha

/-- Pitched allocation `cudaMallocPitch`. -/
def cudaMallocPitch (K : Ext) (widthBytes height : Nat) (L : Ledger) : Alloc :=
  { cudaMalloc L with pitch := K.grantedPitch widthBytes height }

/-- The members of class `cudaSegmentation` and the device ledger they act on. -/
structure Engine where
  dev : Ledger
  size : NppiSize
  small_size : NppiSize
  crop_size : NppiSize
  gmms : Nat
  edge_strength : Nat
  m_neighborhood : Nat
  blocks : Nat
  crop_blocks : Nat
  current_alpha : Nat
  small_trimap_idx : Nat
  d_image : Buf
  image_pitch : Nat
  d_trimap : Plane
  trimap_pitch : Nat
  d_alpha_0 : Buf
  d_alpha_1 : Buf
  alpha_pitch : Nat
  d_terminals : Buf
  d_top : Buf
  d_topleft : Buf
  d_topright : Buf
  d_bottom : Buf
  d_bottomleft : Buf
  d_bottomright : Buf
  pitch : Nat
  d_left_transposed : Buf
  d_right_transposed : Buf
  transposed_pitch : Nat
  d_scratch_mem : Buf
  pState : Ptr
  d_gmm : Buf
  gmm_pitch : Nat
  d_histogram : Buf
  d_small_image : Buf
  small_pitch : Nat
  d_small_trimap_0 : Buf
  d_small_trimap_1 : Buf
  small_trimap_pitch_0 : Nat
  small_trimap_pitch_1 : Nat
  d_crop_image : Buf
  crop_image_pitch : Nat
  d_crop_trimap : Plane
  crop_trimap_pitch : Nat
  d_crop_alpha_0 : Buf
  d_crop_alpha_1 : Buf
  crop_alpha_pitch : Nat
  d_crop_terminals : Buf
  d_crop_top : Buf
  d_crop_topleft : Buf
  d_crop_topright : Buf
  d_crop_bottom : Buf
  d_crop_bottomleft : Buf
  d_crop_bottomright : Buf
  crop_pitch : Nat
  d_crop_left_transposed : Buf
  d_crop_right_transposed : Buf
  crop_transposed_pitch : Nat
  d_crop_scratch_mem : Buf
  crop_pState : Ptr

/-- An object whose members have not been assigned yet, on device ledger `dev`. -/
def Engine.unset (dev : Ledger) : Engine :=
  { dev := dev, size := ⟨0, 0⟩, small_size := ⟨0, 0⟩, crop_size := ⟨0, 0⟩, gmms := 0,
    edge_strength := 0, m_neighborhood := 0, blocks := 0, crop_blocks := 0,
    current_alpha := 0, small_trimap_idx := 0, d_image := Buf.unset, image_pitch := 0,
    d_trimap := [], trimap_pitch := 0, d_alpha_0 := Buf.unset, d_alpha_1 := Buf.unset,
    alpha_pitch := 0, d_terminals := Buf.unset, d_top := Buf.unset, d_topleft := Buf.unset,
    d_topright := Buf.unset, d_bottom := Buf.unset, d_bottomleft := Buf.unset,
    d_bottomright := Buf.unset, pitch := 0, d_left_transposed := Buf.unset,
    d_right_transposed := Buf.unset, transposed_pitch := 0, d_scratch_mem := Buf.unset,
    pState := none, d_gmm := Buf.unset, gmm_pitch := 0, d_histogram := Buf.unset,
    d_small_image := Buf.unset, small_pitch := 0, d_small_trimap_0 := Buf.unset,
    d_small_trimap_1 := Buf.unset, small_trimap_pitch_0 := 0, small_trimap_pitch_1 := 0,
    d_crop_image := Buf.unset, crop_image_pitch := 0, d_crop_trimap := [],
    crop_trimap_pitch := 0, d_crop_alpha_0 := Buf.unset, d_crop_alpha_1 := Buf.unset,
    crop_alpha_pitch := 0, d_crop_terminals := Buf.unset, d_crop_top := Buf.unset,
    d_crop_topleft := Buf.unset, d_crop_topright := Buf.unset, d_crop_bottom := Buf.unset,
    d_crop_bottomleft := Buf.unset, d_crop_bottomright := Buf.unset, crop_pitch := 0,
    d_crop_left_transposed := Buf.unset, d_crop_right_transposed := Buf.unset,
    crop_transposed_pitch := 0, d_crop_scratch_mem := Buf.unset, crop_pState := none }

/-- Read of `d_alpha[i]`. -/
def Engine.d_alpha (e : Engine) (i : Nat) : Buf :=
  if i = 0 then e.d_alpha_0 else e.d_alpha_1

/-- Write of the contents of `d_alpha[i]`. -/
def Engine.write_d_alpha (e : Engine) (i : Nat) (p : Plane) : Engine :=
  { e with d_alpha_0 := if i = 0 then { e.d_alpha_0 with data := p } else e.d_alpha_0,
           d_alpha_1 := if i = 0 then e.d_alpha_1 else { e.d_alpha_1 with data := p } }

/-- Read of `d_small_trimap[i]`. -/
def Engine.d_small_trimap (e : Engine) (i : Nat) : Buf :=
  if i = 0 then e.d_small_trimap_0 else e.d_small_trimap_1

/-- Read of `small_trimap_pitch[i]`. -/
def Engine.small_trimap_pitch (e : Engine) (i : Nat) : Nat :=
  if i = 0 then e.small_trimap_pitch_0 else e.small_trimap_pitch_1

/-! ## Pyramid builder (lines 475-514) -/

/-- The expression `(int)ceil(x * 0.5f)` read as the exact integer ceiling of `x / 2`, the
reading under which the halving chain of the specification is stated. The source
evaluates it in single precision (`ceilHalf_f32`); the two agree for every `x ≤ 2^24`
(`ceilHalf_f32_eq`). -/
def ceilHalf (x : Nat) : Nat := (x + 1) / 2

/-- A two-element local array. -/
structure Arr2 (α : Type) where
  a0 : α
  a1 : α

/-- Read of `a[i]`. -/
def Arr2.get {α : Type} (a : Arr2 α) (i : Nat) : α := if i = 0 then a.a0 else a.a1

/-- Write of `a[i] = v`. -/
def Arr2.set {α : Type} (a : Arr2 α) (i : Nat) (v : α) : Arr2 α :=
  if i = 0 then { a with a0 := v } else { a with a1 := v }

/-- Locals of `createSmallImage` that its loop updates. -/
structure SmallImageLocals where
  temp_width : Arr2 Nat
  temp_height : Arr2 Nat
  d_temp : Arr2 Buf
  temp_pitch : Arr2 Nat
  current : Nat

/-- Body of the loop of `createSmallImage` (lines 502-505). -/
def createSmallImage_body (K : Ext) (s : SmallImageLocals) : SmallImageLocals :=
  let dst := 1 - s.current
  let img := K.downscale (s.temp_pitch.get dst) (s.temp_width.get dst) (s.temp_height.get dst)
    (s.d_temp.get s.current).data (s.temp_pitch.get s.current) (s.temp_width.get s.current)
    (s.temp_height.get s.current)
  let d_temp := s.d_temp.set dst { s.d_temp.get dst with data := img }
  let current := s.current ^^^ 1
  { temp_width := s.temp_width.set (1 - current) (ceilHalf (s.temp_width.get current)),
    temp_height := s.temp_height.set (1 - current) (ceilHalf (s.temp_height.get current)),
    d_temp := d_temp, temp_pitch := s.temp_pitch, current := current }

/-- The loop `while (temp_width[current] > max_dim || temp_height[current] > max_dim)`
(lines 500-506); `none` when the fuel does not reach the exit. -/
def createSmallImage_loop (K : Ext) (max_dim : Nat) : Nat → SmallImageLocals → Option SmallImageLocals
  | 0, s =>
    if s.temp_width.get s.current > max_dim ∨ s.temp_height.get s.current > max_dim then none
    else some s
  | fuel + 1, s =>
    if s.temp_width.get s.current > max_dim ∨ s.temp_height.get s.current > max_dim then
      createSmallImage_loop K max_dim fuel (createSmallImage_body K s)
    else some s

/-- Locals of `createSmallImage` when its loop is entered (lines 483-498). -/
def createSmallImage_entry (K : Ext) (e : Engine) : SmallImageLocals × Engine :=
  let w0 := ceilHalf e.size.width
  let h0 := ceilHalf e.size.height
  let w1 := ceilHalf w0
  let h1 := ceilHalf h0
  let t0 := cudaMallocPitch K (w0 * 4) h0 e.dev
  let t1 := cudaMallocPitch K (w1 * 4) h1 t0.dev
  let m0 := cudaMallocPitch K w0 h0 t1.dev
  let m1 := cudaMallocPitch K w1 h1 m0.dev
  let img := K.downscale t0.pitch w0 h0 e.d_image.data e.image_pitch e.size.width e.size.height
  ({ temp_width := ⟨w0, w1⟩, temp_height := ⟨h0, h1⟩,
     d_temp := ⟨⟨some t0.addr, img⟩, ⟨some t1.addr, []⟩⟩,
     temp_pitch := ⟨t0.pitch, t1.pitch⟩, current := 0 },
   { e with dev := m1.dev,
            d_small_trimap_0 := ⟨some m0.addr, []⟩, d_small_trimap_1 := ⟨some m1.addr, []⟩,
            small_trimap_pitch_0 := m0.pitch, small_trimap_pitch_1 := m1.pitch })

/-- Lines 508-513 of `createSmallImage`: publish the coarse image, free the other buffer. -/
def createSmallImage_exit (s : SmallImageLocals) (e : Engine) : Engine :=
  { e with d_small_image := s.d_temp.get s.current,
           small_pitch := s.temp_pitch.get s.current,
           small_size := ⟨s.temp_width.get s.current, s.temp_height.get s.current⟩,
           dev := cudaFree (s.d_temp.get (1 - s.current)).ptr e.dev }

/-- The method `createSmallImage(max_dim)`. -/
def createSmallImage (K : Ext) (max_dim fuel : Nat) (e : Engine) : Option Engine :=
  let entry := createSmallImage_entry K e
  match createSmallImage_loop K max_dim fuel entry.1 with
  | none => none
  | some s => some (createSmallImage_exit s entry.2)

/-! ## The halving chain of the specification -/

/-- Level `k` of the ceiling-halving chain of the specification: level `0` is the full
size, level `k + 1` is the ceiling of half of level `k` in each dimension. -/
def chainLevel (width height : Nat) : Nat → Nat × Nat
  | 0 => (width, height)
  | k + 1 => (((chainLevel width height k).1 + 1) / 2, ((chainLevel width height k).2 + 1) / 2)

/-- A level fits when neither dimension exceeds the bound. -/
def levelFits (max_dim : Nat) (d : Nat × Nat) : Prop := d.1 ≤ max_dim ∧ d.2 ≤ max_dim

/-! ## Coarse trimap (lines 516-538) -/

/-- Write of the contents of `d_small_trimap[i]`. -/
def Engine.write_d_small_trimap (e : Engine) (i : Nat) (p : Plane) : Engine :=
  { e with
    d_small_trimap_0 :=
      if i = 0 then { e.d_small_trimap_0 with data := p } else e.d_small_trimap_0,
    d_small_trimap_1 :=
      if i = 0 then e.d_small_trimap_1 else { e.d_small_trimap_1 with data := p } }

/-- Locals of `createSmallTrimap` together with the members its loop updates. -/
structure SmallTrimapLocals where
  temp_width : Arr2 Nat
  temp_height : Arr2 Nat
  eng : Engine

/-- Body of the loop of `createSmallTrimap` (lines 533-536). -/
def createSmallTrimap_body (K : Ext) (s : SmallTrimapLocals) : SmallTrimapLocals :=
  let idx := s.eng.small_trimap_idx
  let dst := 1 - idx
  let img := K.downscaleTrimap (s.eng.small_trimap_pitch dst) (s.temp_width.get dst)
    (s.temp_height.get dst) (s.eng.d_small_trimap idx).data (s.eng.small_trimap_pitch idx)
    (s.temp_width.get idx) (s.temp_height.get idx)
  let e1 := s.eng.write_d_small_trimap dst img
  let idx1 := idx ^^^ 1
  { temp_width := s.temp_width.set (1 - idx1) (ceilHalf (s.temp_width.get idx1)),
    temp_height := s.temp_height.set (1 - idx1) (ceilHalf (s.temp_height.get idx1)),
    eng := { e1 with small_trimap_idx := idx1 } }

/-- The loop `while (temp_width[small_trimap_idx] != small_size.width)` (lines 531-537);
`none` when the fuel does not reach the exit. -/
def createSmallTrimap_loop (K : Ext) : Nat → SmallTrimapLocals → Option SmallTrimapLocals
  | 0, s =>
    if s.temp_width.get s.eng.small_trimap_idx ≠ s.eng.small_size.width then none else some s
  | fuel + 1, s =>
    if s.temp_width.get s.eng.small_trimap_idx ≠ s.eng.small_size.width then
      createSmallTrimap_loop K fuel (createSmallTrimap_body K s)
    else some s

/-- Locals and members of `createSmallTrimap` when its loop is entered (lines 521-529). -/
def createSmallTrimap_entry (K : Ext) (e : Engine) : SmallTrimapLocals :=
  let w0 := ceilHalf e.size.width
  let h0 := ceilHalf e.size.height
  let w1 := ceilHalf w0
  let h1 := ceilHalf h0
  let img := K.downscaleTrimap e.small_trimap_pitch_0 w0 h0 e.d_trimap e.trimap_pitch
    e.size.width e.size.height
  { temp_width := ⟨w0, w1⟩, temp_height := ⟨h0, h1⟩,
    eng := { e.write_d_small_trimap 0 img with small_trimap_idx := 0 } }

/-- The method `createSmallTrimap()`. -/
def createSmallTrimap (K : Ext) (fuel : Nat) (e : Engine) : Option Engine :=
  match createSmallTrimap_loop K fuel (createSmallTrimap_entry K e) with
  | none => none
  | some s => some s.eng

/-! ## Construction, destruction and in-place updates (lines 76-247) -/

/-- Lines 76-122 of the constructor: the member initialisers and the allocation of the
full-resolution buffer set on device ledger `dev`. -/
def cudaSegmentation_members (K : Ext) (image : Plane) (_image_pitch : Nat) (trimap : Plane)
    (_trimap_pitch width height : Nat) (dev : Ledger) : Engine :=
  let a_image := cudaMallocPitch K (width * 4) height dev
  let a_alpha_0 := cudaMallocPitch K width height a_image.dev
  let a_alpha_1 := cudaMallocPitch K width height a_alpha_0.dev
  let a_terminals := cudaMallocPitch K (width * 4) height a_alpha_1.dev
  let a_top := cudaMallocPitch K (width * 4) height a_terminals.dev
  let a_topleft := cudaMallocPitch K (width * 4) height a_top.dev
  let a_topright := cudaMallocPitch K (width * 4) height a_topleft.dev
  let a_bottom := cudaMallocPitch K (width * 4) height a_topright.dev
  let a_bottomleft := cudaMallocPitch K (width * 4) height a_bottom.dev
  let a_bottomright := cudaMallocPitch K (width * 4) height a_bottomleft.dev
  let a_left_transposed := cudaMallocPitch K (height * 4) width a_bottomright.dev
  let a_right_transposed := cudaMallocPitch K (height * 4) width a_left_transposed.dev
  let a_scratch_mem := cudaMalloc a_right_transposed.dev
  let a_pState := cudaMalloc a_scratch_mem.dev
  let a_gmm := cudaMalloc a_pState.dev
  let a_histogram := cudaMalloc a_gmm.dev
  { Engine.unset a_histogram.dev with
      d_trimap := trimap, trimap_pitch := _trimap_pitch,
      d_crop_trimap := trimap, crop_trimap_pitch := _trimap_pitch,
      size := ⟨width, height⟩, gmms := 2 * COLOR_CLUSTER, edge_strength := EDGE_STRENGTH,
      m_neighborhood := 8, blocks := ((width + 31) / 32) * ((height + 31) / 32),
      gmm_pitch := 11 * 4,
      d_image := ⟨some a_image.addr, image⟩, image_pitch := _image_pitch,
      d_alpha_0 := ⟨some a_alpha_0.addr, []⟩, d_alpha_1 := ⟨some a_alpha_1.addr, []⟩,
      alpha_pitch := a_alpha_1.pitch,
      d_terminals := ⟨some a_terminals.addr, []⟩, d_top := ⟨some a_top.addr, []⟩,
      d_topleft := ⟨some a_topleft.addr, []⟩, d_topright := ⟨some a_topright.addr, []⟩,
      d_bottom := ⟨some a_bottom.addr, []⟩, d_bottomleft := ⟨some a_bottomleft.addr, []⟩,
      d_bottomright := ⟨some a_bottomright.addr, []⟩, pitch := a_bottomright.pitch,
      d_left_transposed := ⟨some a_left_transposed.addr, []⟩,
      d_right_transposed := ⟨some a_right_transposed.addr, []⟩,
      transposed_pitch := a_right_transposed.pitch,
      d_scratch_mem := ⟨some a_scratch_mem.addr, []⟩, pState := some a_pState.addr,
      d_gmm := ⟨some a_gmm.addr, []⟩, d_histogram := ⟨some a_histogram.addr, []⟩ }

/-- The constructor `cudaSegmentation(image, _image_pitch, trimap, _trimap_pitch, width,
height)` on device ledger `dev`: the members, then `createSmallImage(MAX(width/4,
height/4))` (lines 125-128). The two timing events are not device planes and are left
out. `none` when the pyramid loop does not exit within the fuel. -/
def cudaSegmentation (K : Ext) (image : Plane) (_image_pitch : Nat) (trimap : Plane)
    (_trimap_pitch width height fuel : Nat) (dev : Ledger) : Option Engine :=
  createSmallImage K (MAX (width / 4) (height / 4)) fuel
    (cudaSegmentation_members K image _image_pitch trimap _trimap_pitch width height dev)

/-- The pointers the destructor releases, in the order of lines 136-169. -/
def destructor_frees (e : Engine) : List Ptr :=
  [e.d_image.ptr, e.d_alpha_0.ptr, e.d_alpha_1.ptr, e.d_terminals.ptr, e.d_top.ptr,
   e.d_bottom.ptr, e.d_topleft.ptr, e.d_topright.ptr, e.d_bottomleft.ptr,
   e.d_bottomright.ptr, e.d_left_transposed.ptr, e.d_right_transposed.ptr,
   e.d_scratch_mem.ptr, e.d_gmm.ptr, e.d_histogram.ptr, e.pState,
   e.d_crop_image.ptr, e.d_crop_alpha_0.ptr, e.d_crop_alpha_1.ptr, e.d_crop_terminals.ptr,
   e.d_crop_top.ptr, e.d_crop_bottom.ptr, e.d_crop_topleft.ptr, e.d_crop_topright.ptr,
   e.d_crop_bottomleft.ptr, e.d_crop_bottomright.ptr, e.d_crop_left_transposed.ptr,
   e.d_crop_right_transposed.ptr, e.d_crop_scratch_mem.ptr, e.crop_pState,
   e.d_small_image.ptr]

/-- Release of a list of pointers, first to last. -/
def freeAll (ps : List Ptr) (L : Ledger) : Ledger :=
  ps.foldl (fun acc p => cudaFree p acc) L

/-- The destructor `~cudaSegmentation()`: the device ledger it leaves behind. -/
def destructor (e : Engine) : Ledger :=
  freeAll (destructor_frees e) e.dev

/-- The method `updateImage(image)`. -/
def updateImage (image : Plane) (e : Engine) : Engine :=
  { e with d_image := { e.d_image with data := image } }

/-- The method `updateTrimap(trimap)`. -/
def updateTrimap (trimap : Plane) (e : Engine) : Engine :=
  { e with d_trimap := trimap }

/-- The method `updateTrimapCrop(trimap, crop_trimap, _crop_trimap_pitch)`. -/
def updateTrimapCrop (trimap crop_trimap : Plane) (_crop_trimap_pitch : Nat) (e : Engine) :
    Engine :=
  { e with d_trimap := trimap, d_crop_trimap := crop_trimap,
           crop_trimap_pitch := _crop_trimap_pitch }

/-- The method `updateImageCrop(crop_image, _crop_image_pitch, crop_width, crop_height)`. -/
def updateImageCrop (K : Ext) (crop_image : Plane) (_crop_image_pitch crop_width crop_height : Nat)
    (e : Engine) : Engine :=
  let a_image := cudaMallocPitch K (crop_width * 4) crop_height e.dev
  let a_alpha_0 := cudaMallocPitch K crop_width crop_height a_image.dev
  let a_alpha_1 := cudaMallocPitch K crop_width crop_height a_alpha_0.dev
  let a_terminals := cudaMallocPitch K (crop_width * 4) crop_height a_alpha_1.dev
  let a_top := cudaMallocPitch K (crop_width * 4) crop_height a_terminals.dev
  let a_topleft := cudaMallocPitch K (crop_width * 4) crop_height a_top.dev
  let a_topright := cudaMallocPitch K (crop_width * 4) crop_height a_topleft.dev
  let a_bottom := cudaMallocPitch K (crop_width * 4) crop_height a_topright.dev
  let a_bottomleft := cudaMallocPitch K (crop_width * 4) crop_height a_bottom.dev
  let a_bottomright := cudaMallocPitch K (crop_width * 4) crop_height a_bottomleft.dev
  let a_left_transposed := cudaMallocPitch K (crop_height * 4) crop_width a_bottomright.dev
  let a_right_transposed := cudaMallocPitch K (crop_height * 4) crop_width a_left_transposed.dev
  let a_scratch_mem := cudaMalloc a_right_transposed.dev
  let a_pState := cudaMalloc a_scratch_mem.dev
  { e with
    dev := a_pState.dev,
    crop_size := ⟨crop_width, crop_height⟩,
    crop_blocks := ((crop_width + 31) / 32) * ((crop_height + 31) / 32),
    d_crop_image := ⟨some a_image.addr, crop_image⟩, crop_image_pitch := _crop_image_pitch,
    d_crop_alpha_0 := ⟨some a_alpha_0.addr, []⟩, d_crop_alpha_1 := ⟨some a_alpha_1.addr, []⟩,
    crop_alpha_pitch := a_alpha_1.pitch,
    d_crop_terminals := ⟨some a_terminals.addr, []⟩, d_crop_top := ⟨some a_top.addr, []⟩,
    d_crop_topleft := ⟨some a_topleft.addr, []⟩, d_crop_topright := ⟨some a_topright.addr, []⟩,
    d_crop_bottom := ⟨some a_bottom.addr, []⟩,
    d_crop_bottomleft := ⟨some a_bottomleft.addr, []⟩,
    d_crop_bottomright := ⟨some a_bottomright.addr, []⟩, crop_pitch := a_bottomright.pitch,
    d_crop_left_transposed := ⟨some a_left_transposed.addr, []⟩,
    d_crop_right_transposed := ⟨some a_right_transposed.addr, []⟩,
    crop_transposed_pitch := a_right_transposed.pitch,
    d_crop_scratch_mem := ⟨some a_scratch_mem.addr, []⟩, crop_pState := some a_pState.addr }

/-! ## Segmentation (lines 250-473) -/

/-- Store of the eight planes written by `EdgeCues` into the full-resolution graph. -/
def Engine.writeEdges (e : Engine) (p : EdgePlanes) : Engine :=
  { e with d_left_transposed := { e.d_left_transposed with data := p.left_transposed },
           d_right_transposed := { e.d_right_transposed with data := p.right_transposed },
           d_top := { e.d_top with data := p.top },
           d_bottom := { e.d_bottom with data := p.bottom },
           d_topleft := { e.d_topleft with data := p.topleft },
           d_topright := { e.d_topright with data := p.topright },
           d_bottomleft := { e.d_bottomleft with data := p.bottomleft },
           d_bottomright := { e.d_bottomright with data := p.bottomright } }

/-- Store of the eight planes written by `EdgeCues` into the crop graph. -/
def Engine.writeCropEdges (e : Engine) (p : EdgePlanes) : Engine :=
  { e with d_crop_left_transposed := { e.d_crop_left_transposed with data := p.left_transposed },
           d_crop_right_transposed :=
             { e.d_crop_right_transposed with data := p.right_transposed },
           d_crop_top := { e.d_crop_top with data := p.top },
           d_crop_bottom := { e.d_crop_bottom with data := p.bottom },
           d_crop_topleft := { e.d_crop_topleft with data := p.topleft },
           d_crop_topright := { e.d_crop_topright with data := p.topright },
           d_crop_bottomleft := { e.d_crop_bottomleft with data := p.bottomleft },
           d_crop_bottomright := { e.d_crop_bottomright with data := p.bottomright } }

/-- Read of `d_crop_alpha[i]`. -/
def Engine.d_crop_alpha (e : Engine) (i : Nat) : Buf :=
  if i = 0 then e.d_crop_alpha_0 else e.d_crop_alpha_1

/-- Write of the contents of `d_crop_alpha[i]`. -/
def Engine.write_d_crop_alpha (e : Engine) (i : Nat) (p : Plane) : Engine :=
  { e with
    d_crop_alpha_0 := if i = 0 then { e.d_crop_alpha_0 with data := p } else e.d_crop_alpha_0,
    d_crop_alpha_1 := if i = 0 then e.d_crop_alpha_1 else { e.d_crop_alpha_1 with data := p } }

/-- Calls made by `computeSegmentationFromTrimap`, recorded in program order. The index
carried by an event is the alpha plane the call reads or writes. -/
inductive Event where
  /-- The copy of the coarse trimap into `d_alpha[0]` (line 263). -/
  | CopyTrimap
  /-- `GMMInitialize` on `d_alpha[i]`. -/
  | GMMInitialize (i : Nat)
  /-- `GMMUpdate` on `d_alpha[i]`. -/
  | GMMUpdate (i : Nat)
  /-- `GMMDataTerm`. -/
  | GMMDataTerm
  /-- `EdgeCues`. -/
  | EdgeCues
  /-- `nppiGraphcut_32s8u` writing `d_alpha[i]`. -/
  | Graphcut (i : Nat)
  /-- `nppiGraphcut8_32s8u` writing `d_alpha[i]`. -/
  | Graphcut8 (i : Nat)
  /-- `nppiThreshold_8u_C1IR` on `d_alpha[i]`. -/
  | Threshold (i : Nat)
  /-- An assignment that flips `current_alpha`; `i` is the new value. -/
  | Flip (i : Nat)
  /-- `upsampleAlpha` writing `d_alpha[dst]` from `d_alpha[src]`. -/
  | UpsampleAlpha (dst src : Nat)
  /-- `SegmentationChanged` comparing `d_alpha[old]` with `d_alpha[new]`. -/
  | SegmentationChanged (old new : Nat)
  /-- The diagnostic of line 353. -/
  | Warning
deriving DecidableEq

/-- How the loop of lines 304-377 is left. -/
inductive LoopExit where
  /-- The `break` of line 346: the comparison reports no change. -/
  | CONVERGED
  /-- The `break` of line 354: `iteration > MAX_ITERATIONS`. -/
  | ITERATION_LIMIT
  /-- The loop condition `iteration < 1` of line 304 is false. -/
  | CONDITION
deriving DecidableEq

/-- State of one call of `computeSegmentationFromTrimap`: the members, the local
`iteration` and the calls made so far. -/
structure Run where
  eng : Engine
  iteration : Nat
  trace : List Event

/-- The pair of calls `GMMInitialize(...)`, `GMMUpdate(...)` on `d_gmm` and
`d_alpha[current_alpha]` for the given image operand (lines 271-272, 297-298, 366-370). -/
def estimate_model (K : Ext) (e : Engine) (image : Plane) (image_pitch width height : Nat) :
    Engine :=
  let cur := e.current_alpha
  let g1 := K.GMMInitialize e.gmms e.d_gmm.data e.gmm_pitch image image_pitch
    (e.d_alpha cur).data e.alpha_pitch width height
  let e1 := { e.write_d_alpha cur g1.alpha with d_gmm := { e.d_gmm with data := g1.gmm } }
  let g2 := K.GMMUpdate e1.gmms e1.d_gmm.data e1.gmm_pitch image image_pitch
    (e1.d_alpha cur).data e1.alpha_pitch width height
  { e1.write_d_alpha cur g2.alpha with d_gmm := { e1.d_gmm with data := g2.gmm } }

/-- Body of the seeding loop `for (int i=0; i<2; ++i)` (lines 271-283). -/
def seed_body (K : Ext) (r : Run) : Run :=
  let e := estimate_model K r.eng r.eng.d_small_image.data r.eng.small_pitch
    r.eng.small_size.width r.eng.small_size.height
  let cur := e.current_alpha
  let terminals := K.GMMDataTerm e.pitch e.gmms e.d_gmm.data e.gmm_pitch e.d_small_image.data
    e.small_pitch (e.d_small_trimap e.small_trimap_idx).data
    (e.small_trimap_pitch e.small_trimap_idx) e.small_size.width e.small_size.height
  let edges := K.EdgeCues e.edge_strength e.d_small_image.data e.small_pitch e.pitch
    e.transposed_pitch e.small_size.width e.small_size.height
  let label := K.nppiGraphcut_32s8u terminals edges.left_transposed edges.right_transposed
    edges.top edges.bottom e.pitch e.transposed_pitch e.small_size e.alpha_pitch
  let e1 := { e.writeEdges edges with
              d_terminals := { e.d_terminals with data := terminals } }
  let e2 := e1.write_d_alpha (1 - cur) label
  let e3 := e2.write_d_alpha (1 - cur)
    (nppiThreshold_8u_C1IR (e2.d_alpha (1 - cur)).data 1 NppCmpOp.NPP_CMP_GREATER)
  { eng := { e3 with current_alpha := 1 - cur },
    iteration := r.iteration,
    trace := r.trace ++ [Event.GMMInitialize cur, Event.GMMUpdate cur, Event.GMMDataTerm,
      Event.EdgeCues, Event.Graphcut (1 - cur), Event.Threshold (1 - cur),
      Event.Flip (1 - cur)] }

/-- Lines 286-287: upsample the coarse alpha into the other plane and flip. -/
def seed_upsample (K : Ext) (r : Run) : Run :=
  let e := r.eng
  let cur := e.current_alpha
  let up := K.upsampleAlpha (e.d_alpha cur).data e.alpha_pitch e.size.width e.size.height
    e.small_size.width e.small_size.height
  { eng := { e.write_d_alpha (1 - cur) up with current_alpha := 1 - cur },
    iteration := r.iteration,
    trace := r.trace ++ [Event.UpsampleAlpha (1 - cur) cur, Event.Flip (1 - cur)] }

/-- Lines 297-298: the model estimated on the full-resolution image. -/
def full_model (K : Ext) (r : Run) : Run :=
  let e := r.eng
  { eng := estimate_model K e e.d_image.data e.image_pitch e.size.width e.size.height,
    iteration := r.iteration,
    trace := r.trace ++ [Event.GMMInitialize e.current_alpha,
      Event.GMMUpdate e.current_alpha] }

/-- The min cut selected by `m_neighborhood` on the full-resolution graph (lines 319-329
and 406-415). -/
def fullGraphcut (K : Ext) (e : Engine) : Plane :=
  if e.m_neighborhood = 8 then
    K.nppiGraphcut8_32s8u e.d_terminals.data e.d_left_transposed.data e.d_right_transposed.data
      e.d_top.data e.d_topleft.data e.d_topright.data e.d_bottom.data e.d_bottomleft.data
      e.d_bottomright.data e.pitch e.transposed_pitch e.size e.alpha_pitch
  else
    K.nppiGraphcut_32s8u e.d_terminals.data e.d_left_transposed.data e.d_right_transposed.data
      e.d_top.data e.d_bottom.data e.pitch e.transposed_pitch e.size e.alpha_pitch

/-- Lines 310-336, the first half of the body of the loop `while (iteration<1)`: data
term, edge cues, flip of `current_alpha`, min cut into `d_alpha[current_alpha]`, threshold. -/
def full_pass (K : Ext) (e : Engine) : Engine :=
  let terminals := K.GMMDataTerm e.pitch e.gmms e.d_gmm.data e.gmm_pitch e.d_image.data
    e.image_pitch e.d_trimap e.trimap_pitch e.size.width e.size.height
  let edges := K.EdgeCues e.edge_strength e.d_image.data e.image_pitch e.pitch
    e.transposed_pitch e.size.width e.size.height
  let cur := 1 ^^^ e.current_alpha
  let e1 := { e.writeEdges edges with
              d_terminals := { e.d_terminals with data := terminals },
              current_alpha := cur }
  let e2 := e1.write_d_alpha cur (fullGraphcut K e1)
  e2.write_d_alpha cur (nppiThreshold_8u_C1IR (e2.d_alpha cur).data 1 NppCmpOp.NPP_CMP_GREATER)

/-- Body of the loop `while (iteration<1)` (lines 310-376): the state after the body and,
when the body leaves through a `break`, which one. -/
def refine_body (K : Ext) (r : Run) : Run × Option LoopExit :=
  let e3 := full_pass K r.eng
  let cur := e3.current_alpha
  let t3 := r.trace ++ [Event.GMMDataTerm, Event.EdgeCues, Event.Flip cur,
    (if r.eng.m_neighborhood = 8 then Event.Graphcut8 cur else Event.Graphcut cur),
    Event.Threshold cur]
  let changed := K.SegmentationChanged (e3.d_alpha (1 - cur)).data (e3.d_alpha cur).data
    e3.alpha_pitch e3.size.width e3.size.height
  let t4 := if r.iteration > 0 then t3 ++ [Event.SegmentationChanged (1 - cur) cur] else t3
  if r.iteration > 0 ∧ changed = false then
    (⟨e3, r.iteration, t4⟩, some LoopExit.CONVERGED)
  else if r.iteration > MAX_ITERATIONS then
    (⟨e3, r.iteration, t4 ++ [Event.Warning]⟩, some LoopExit.ITERATION_LIMIT)
  else
    (⟨estimate_model K e3 e3.d_image.data e3.image_pitch e3.size.width e3.size.height,
      r.iteration + 1, t4 ++ [Event.GMMInitialize cur, Event.GMMUpdate cur]⟩, none)

/-- The loop `while (iteration<1)` of lines 304-377 with its two `break`s; `none` when the
fuel does not reach an exit. -/
def refine_loop (K : Ext) : Nat → Run → Option (Run × LoopExit)
  | 0, r => if r.iteration < 1 then none else some (r, LoopExit.CONDITION)
  | fuel + 1, r =>
    if r.iteration < 1 then
      match refine_body K r with
      | (r1, some x) => some (r1, x)
      | (r1, none) => refine_loop K fuel r1
    else some (r, LoopExit.CONDITION)

/-- Lines 263-298 of `computeSegmentationFromTrimap`, after the coarse trimap is built:
copy it into `d_alpha[0]`, run the seeding loop twice, upsample, estimate the model. -/
def seed_phase (K : Ext) (e1 : Engine) : Run :=
  let e2 := e1.write_d_alpha 0 (e1.d_small_trimap e1.small_trimap_idx).data
  full_model K (seed_upsample K ((seed_body K)^[2] ⟨e2, 0, [Event.CopyTrimap]⟩))

/-- Lines 252-298 of `computeSegmentationFromTrimap`: the seeding phase up to the entry of
the full-resolution loop. -/
def seeding (K : Ext) (fuel : Nat) (e : Engine) : Option Run :=
  match createSmallTrimap K fuel { e with current_alpha := 0 } with
  | none => none
  | some e1 => some (seed_phase K e1)

/-- The method `computeSegmentationFromTrimap()`: the final state and the exit taken by
the full-resolution loop. -/
def computeSegmentationFromTrimap (K : Ext) (fuel : Nat) (e : Engine) :
    Option (Run × LoopExit) :=
  match seeding K fuel e with
  | none => none
  | some r => refine_loop K fuel r

/-- The method `updateSegmentation()`. -/
def updateSegmentation (K : Ext) (e : Engine) : Engine :=
  let edges := K.EdgeCues e.edge_strength e.d_image.data e.image_pitch e.pitch
    e.transposed_pitch e.size.width e.size.height
  let terminals := K.GMMDataTerm e.pitch e.gmms e.d_gmm.data e.gmm_pitch e.d_image.data
    e.image_pitch e.d_trimap e.trimap_pitch e.size.width e.size.height
  let e1 := { e.writeEdges edges with d_terminals := { e.d_terminals with data := terminals } }
  let e2 := e1.write_d_alpha e1.current_alpha (fullGraphcut K e1)
  e2.write_d_alpha e2.current_alpha
    (nppiThreshold_8u_C1IR (e2.d_alpha e2.current_alpha).data 1 NppCmpOp.NPP_CMP_GREATER)

/-- The min cut selected by `m_neighborhood` on the crop graph (lines 444-453). -/
def cropGraphcut (K : Ext) (e : Engine) : Plane :=
  if e.m_neighborhood = 8 then
    K.nppiGraphcut8_32s8u e.d_crop_terminals.data e.d_crop_left_transposed.data
      e.d_crop_right_transposed.data e.d_crop_top.data e.d_crop_topleft.data
      e.d_crop_topright.data e.d_crop_bottom.data e.d_crop_bottomleft.data
      e.d_crop_bottomright.data e.crop_pitch e.crop_transposed_pitch e.crop_size
      e.crop_alpha_pitch
  else
    K.nppiGraphcut_32s8u e.d_crop_terminals.data e.d_crop_left_transposed.data
      e.d_crop_right_transposed.data e.d_crop_top.data e.d_crop_bottom.data e.crop_pitch
      e.crop_transposed_pitch e.crop_size e.crop_alpha_pitch

/-- The pointers `updateSegmentationCrop` releases, in the order of lines 461-471. -/
def crop_frees (e : Engine) : List Ptr :=
  [e.d_crop_image.ptr, e.d_crop_terminals.ptr, e.d_crop_top.ptr, e.d_crop_bottom.ptr,
   e.d_crop_topleft.ptr, e.d_crop_topright.ptr, e.d_crop_bottomleft.ptr,
   e.d_crop_bottomright.ptr, e.d_crop_left_transposed.ptr, e.d_crop_right_transposed.ptr,
   e.d_crop_scratch_mem.ptr]

/-- The method `updateSegmentationCrop()`. -/
def updateSegmentationCrop (K : Ext) (e : Engine) : Engine :=
  let e0 := e.write_d_crop_alpha 0 e.d_crop_trimap
  let edges := K.EdgeCues e0.edge_strength e0.d_crop_image.data e0.crop_image_pitch e0.crop_pitch
    e0.crop_transposed_pitch e0.crop_size.width e0.crop_size.height
  let terminals := K.GMMDataTerm e0.crop_pitch e0.gmms e0.d_gmm.data e0.gmm_pitch
    e0.d_crop_image.data e0.crop_image_pitch e0.d_crop_trimap e0.crop_trimap_pitch
    e0.crop_size.width e0.crop_size.height
  let e1 := { e0.writeCropEdges edges with
              d_crop_terminals := { e0.d_crop_terminals with data := terminals },
              current_alpha := 1 }
  let e2 := e1.write_d_crop_alpha e1.current_alpha (cropGraphcut K e1)
  let e3 := e2.write_d_crop_alpha e2.current_alpha
    (nppiThreshold_8u_C1IR (e2.d_crop_alpha e2.current_alpha).data 1 NppCmpOp.NPP_CMP_GREATER)
  { e3 with dev := freeAll (crop_frees e3) e3.dev }

/-! ## A concrete instance used to evaluate the embedding -/

/-- Sample kernels: small deterministic stand-ins for the external capabilities. -/
def sampleExt : Ext :=
  { grantedPitch := fun widthBytes _ => ((widthBytes + 511) / 512) * 512,
    downscale := fun _ sw sh img _ _ _ => sw :: sh :: img.take 2,
    downscaleTrimap := fun _ sw sh img _ _ _ => sw :: sh :: img.take 2,
    upsampleAlpha := fun small _ w h _ _ => w :: h :: small.take 2,
    GMMInitialize := fun n _ _ img _ alpha _ _ _ => ⟨n :: (img.take 1 ++ alpha.take 1), alpha⟩,
    GMMUpdate := fun _ gmm _ _ _ alpha _ _ _ => ⟨gmm ++ alpha.take 1, alpha⟩,
    GMMDataTerm := fun _ _ gmm _ img _ trimap _ _ _ => gmm.take 1 ++ img.take 1 ++ trimap.take 1,
    EdgeCues := fun a img _ _ _ w h => ⟨[a], [w], [h], img.take 1, [1], [2], [3], [4]⟩,
    nppiGraphcut_32s8u := fun t _ _ _ _ _ _ _ _ => [0, 255, 1] ++ t.take 1,
    nppiGraphcut8_32s8u := fun t _ _ _ _ _ _ _ _ _ _ _ _ => [255, 0, 1, 2] ++ t.take 1,
    SegmentationChanged := fun a b _ _ _ => a != b }

/-- An empty device. -/
def emptyLedger : Ledger := ⟨0, [], [], 0⟩

/-- A sample construction: an 8 x 8 frame on an empty device. -/
def sampleEngine : Option Engine :=
  cudaSegmentation sampleExt [10, 20, 30] 32 [0, 1, 2] 8 8 8 4 emptyLedger

/-- The engine returned by the sample construction. -/
def sampleBuilt : Engine := sampleEngine.getD (Engine.unset emptyLedger)

/-- The call `computeSegmentationFromTrimap()` on the sample engine. -/
def sampleRun : Option (Run × LoopExit) := computeSegmentationFromTrimap sampleExt 4 sampleBuilt

/-- The sample engine after `computeSegmentationFromTrimap()`. -/
def sampleResult : Engine :=
  (sampleRun.map (fun r => r.1.eng)).getD (Engine.unset emptyLedger)

/-- One crop call on engine `e`: `updateTrimapCrop`, `updateImageCrop`, then
`updateSegmentationCrop`, for a 4 x 4 crop. -/
def sampleCropCall (e : Engine) : Engine :=
  updateSegmentationCrop sampleExt
    (updateImageCrop sampleExt [5, 6] 16 4 4 (updateTrimapCrop [0, 1, 2] [1, 2] 4 e))

/-- An engine on a device that already holds two live allocations. -/
def sampleBusy : Engine := Engine.unset ⟨5, [1, 3], [], 0⟩

/-- The new index when the event is a flip of `current_alpha`. -/
def Event.flipTo : Event → Option Nat
  | Event.Flip i => some i
  | _ => none

/-- The alpha plane written when the event is a min cut or a threshold. -/
def Event.labelWrite : Event → Option Nat
  | Event.Graphcut i => some i
  | Event.Graphcut8 i => some i
  | Event.Threshold i => some i
  | _ => none

/-- Loop invariant of `createSmallTrimap`: slot `small_trimap_idx` holds the width of
level `n` of the chain of `(w, h)`, the other slot the width of level `n + 1`, and the
members read by the loop condition and by the caller are those of `e`. -/
structure TriInv (w h : Nat) (e : Engine) (s : SmallTrimapLocals) (n : Nat) : Prop where
  idx : s.eng.small_trimap_idx = 0 ∨ s.eng.small_trimap_idx = 1
  wc : s.temp_width.get s.eng.small_trimap_idx = (chainLevel w h n).1
  wn : s.temp_width.get (1 - s.eng.small_trimap_idx) = (chainLevel w h (n + 1)).1
  small : s.eng.small_size = e.small_size
  cur : s.eng.current_alpha = e.current_alpha

/-- Loop invariant of `createSmallImage`: slot `current` holds level `n` of the chain of
`(w, h)` and the other slot holds level `n + 1`. -/
structure PyrInv (w h : Nat) (s : SmallImageLocals) (n : Nat) : Prop where
  cur : s.current = 0 ∨ s.current = 1
  wc : s.temp_width.get s.current = (chainLevel w h n).1
  hc : s.temp_height.get s.current = (chainLevel w h n).2
  wn : s.temp_width.get (1 - s.current) = (chainLevel w h (n + 1)).1
  hn : s.temp_height.get (1 - s.current) = (chainLevel w h (n + 1)).2

/-! ## Ping-pong buffers of the pyramid and the pyramid of the specification -/

/-- Ping-pong invariant of both pyramid loops: level `n ≥ 1` of the chain of `(w, h)` is
held by slot `(n - 1) mod 2`, which is the current slot, and the other slot is prepared
with the dimensions of level `n + 1`. -/
structure PingPong (w h : Nat) (tw th : Arr2 Nat) (cur n : Nat) : Prop where
  slot : cur = (n + 1) % 2
  wc : tw.get cur = (chainLevel w h n).1
  hc : th.get cur = (chainLevel w h n).2
  wn : tw.get (1 - cur) = (chainLevel w h (n + 1)).1
  hn : th.get (1 - cur) = (chainLevel w h (n + 1)).2

/-- Pitch of the buffer that holds level `k ≥ 1` of the image pyramid: the pitch granted
for slot `(k - 1) mod 2` (lines 489-490). -/
def pyramidPitch (K : Ext) (w h k : Nat) : Nat :=
  if k % 2 = 1 then K.grantedPitch (ceilHalf w * 4) (ceilHalf h)
  else K.grantedPitch (ceilHalf (ceilHalf w) * 4) (ceilHalf (ceilHalf h))

/-- Level `k` of the image pyramid of the specification (section 4.2): level 0 is the
full-resolution image, level `k + 1` is the downscale of level `k` to the halved size. -/
def pyramidLevel (K : Ext) (image : Plane) (image_pitch w h : Nat) : Nat → Plane
  | 0 => image
  | k + 1 =>
    K.downscale (pyramidPitch K w h (k + 1)) (chainLevel w h (k + 1)).1 (chainLevel w h (k + 1)).2
      (pyramidLevel K image image_pitch w h k)
      (if k = 0 then image_pitch else pyramidPitch K w h k)
      (chainLevel w h k).1 (chainLevel w h k).2

/-- Invariant of the loop of `createSmallImage` on the contents: the current slot holds
level `n` of the pyramid of the image, and the pitches are those granted at entry. -/
structure PyrData (K : Ext) (image : Plane) (image_pitch w h : Nat) (s : SmallImageLocals)
    (n : Nat) : Prop where
  dims : PingPong w h s.temp_width s.temp_height s.current n
  pos : 1 ≤ n
  data : (s.d_temp.get s.current).data = pyramidLevel K image image_pitch w h n
  p0 : s.temp_pitch.a0 = K.grantedPitch (ceilHalf w * 4) (ceilHalf h)
  p1 : s.temp_pitch.a1 = K.grantedPitch (ceilHalf (ceilHalf w) * 4) (ceilHalf (ceilHalf h))

/-- Sample kernels whose downscale keeps the first pixel of its operand. -/
def sampleExtKeep : Ext :=
  { sampleExt with downscale := fun _ sw sh img _ _ _ => img.take 1 ++ [sw, sh] }

/-- An 8 x 8 frame constructed with `sampleExtKeep`. -/
def sampleKeepBuilt : Engine :=
  (cudaSegmentation sampleExtKeep [10, 20, 30] 32 [0, 1, 2] 8 8 8 4 emptyLedger).getD
    (Engine.unset emptyLedger)

/-- A thin frame, 1 x 16, constructed with `sampleExt`. -/
def sampleThin : Engine :=
  (cudaSegmentation sampleExt [10, 20, 30] 4 [0, 1, 2] 1 1 16 4 emptyLedger).getD
    (Engine.unset emptyLedger)

/-! ## What one coarse iteration, the upsample and the full-resolution pass compute -/

/-- The eight capacity planes of the full-resolution graph as they are stored in the
engine. -/
def Engine.readEdges (e : Engine) : EdgePlanes :=
  ⟨e.d_left_transposed.data, e.d_right_transposed.data, e.d_top.data, e.d_bottom.data,
   e.d_topleft.data, e.d_topright.data, e.d_bottomleft.data, e.d_bottomright.data⟩

/-- The kernel calls `GMMInitialize(gmms, d_gmm, ..., image, ..., alpha, ...)` and then
`GMMUpdate` on the same operands, for engine `b` and the contents `alpha` of the alpha
plane that is passed: the model and the contents of that plane after the two calls. -/
def estimateOn (K : Ext) (b : Engine) (image : Plane) (image_pitch width height : Nat)
    (alpha : Plane) : GmmOut :=
  K.GMMUpdate b.gmms
    (K.GMMInitialize b.gmms b.d_gmm.data b.gmm_pitch image image_pitch alpha b.alpha_pitch
      width height).gmm
    b.gmm_pitch image image_pitch
    (K.GMMInitialize b.gmms b.d_gmm.data b.gmm_pitch image image_pitch alpha b.alpha_pitch
      width height).alpha
    b.alpha_pitch width height

/-- Coarse iteration `i` of the seeding phase as the specification states it, from engine
`b` to engine `a`: the active index is `i`; the model is estimated on the coarse image and
alpha plane `i`, which afterwards holds what the two estimation kernels leave in it; the
data term is computed from that model, the coarse image and the coarse trimap; the edge
cues from the coarse image; the min cut of that graph, thresholded at 1 with the
comparison GREATER, is the content of plane `1 - i`; the index becomes `1 - i`. -/
structure CoarseIteration (K : Ext) (i : Nat) (b a : Engine) : Prop where
  index : b.current_alpha = i
  model : a.d_gmm.data = (estimateOn K b b.d_small_image.data b.small_pitch
    b.small_size.width b.small_size.height (b.d_alpha i).data).gmm
  read : (a.d_alpha i).data = (estimateOn K b b.d_small_image.data b.small_pitch
    b.small_size.width b.small_size.height (b.d_alpha i).data).alpha
  terminals : a.d_terminals.data = K.GMMDataTerm b.pitch b.gmms a.d_gmm.data b.gmm_pitch
    b.d_small_image.data b.small_pitch (b.d_small_trimap b.small_trimap_idx).data
    (b.small_trimap_pitch b.small_trimap_idx) b.small_size.width b.small_size.height
  edges : a.readEdges = K.EdgeCues b.edge_strength b.d_small_image.data b.small_pitch b.pitch
    b.transposed_pitch b.small_size.width b.small_size.height
  written : (a.d_alpha (1 - i)).data =
    nppiThreshold_8u_C1IR
      (K.nppiGraphcut_32s8u a.d_terminals.data a.d_left_transposed.data
        a.d_right_transposed.data a.d_top.data a.d_bottom.data b.pitch b.transposed_pitch
        b.small_size b.alpha_pitch)
      1 NppCmpOp.NPP_CMP_GREATER
  flip : a.current_alpha = 1 - i

/-- The upsample step of the seeding phase as the specification states it, from engine `b`
with active index `i` to engine `a`: plane `1 - i` holds the upsample of plane `i`, plane
`i` is as it was, and the index becomes `1 - i`. -/
structure UpsampleStep (K : Ext) (i : Nat) (b a : Engine) : Prop where
  index : b.current_alpha = i
  written : (a.d_alpha (1 - i)).data = K.upsampleAlpha (b.d_alpha i).data b.alpha_pitch
    b.size.width b.size.height b.small_size.width b.small_size.height
  read : a.d_alpha i = b.d_alpha i
  flip : a.current_alpha = 1 - i

/-- The estimation of the model on the full-resolution image that precedes the
full-resolution loop (lines 297-298), from engine `b` with active index `i` to engine
`a`: the model is estimated on the full-resolution image and alpha plane `i`, which
afterwards holds what the two estimation kernels leave in it; the other plane and the
index are as they were. -/
structure ModelEstimate (K : Ext) (i : Nat) (b a : Engine) : Prop where
  index : b.current_alpha = i
  model : a.d_gmm.data = (estimateOn K b b.d_image.data b.image_pitch b.size.width
    b.size.height (b.d_alpha i).data).gmm
  read : (a.d_alpha i).data = (estimateOn K b b.d_image.data b.image_pitch b.size.width
    b.size.height (b.d_alpha i).data).alpha
  kept : a.d_alpha (1 - i) = b.d_alpha (1 - i)
  same : a.current_alpha = i

/-- One full-resolution pass as the specification states it, from engine `b` to engine
`a`: the data term is computed from the model of `b`, the full-resolution image and the
trimap; the edge cues from the full-resolution image; the index flips; the min cut of that
graph (8-neighbourhood when `m_neighborhood` is 8, 4-neighbourhood otherwise), thresholded
at 1 with the comparison GREATER, is written to the plane the new index selects; the model is then estimated anew on the full-resolution
image and that plane, which holds on return what the two estimation kernels leave in it;
the other plane is as it was. -/
structure FullResolutionPass (K : Ext) (b a : Engine) : Prop where
  terminals : a.d_terminals.data = K.GMMDataTerm b.pitch b.gmms b.d_gmm.data b.gmm_pitch
    b.d_image.data b.image_pitch b.d_trimap b.trimap_pitch b.size.width b.size.height
  edges : a.readEdges = K.EdgeCues b.edge_strength b.d_image.data b.image_pitch b.pitch
    b.transposed_pitch b.size.width b.size.height
  flip : a.current_alpha = 1 ^^^ b.current_alpha
  cut : fullGraphcut K a =
    if b.m_neighborhood = 8 then
      K.nppiGraphcut8_32s8u a.d_terminals.data a.d_left_transposed.data
        a.d_right_transposed.data a.d_top.data a.d_topleft.data a.d_topright.data
        a.d_bottom.data a.d_bottomleft.data a.d_bottomright.data b.pitch b.transposed_pitch
        b.size b.alpha_pitch
    else
      K.nppiGraphcut_32s8u a.d_terminals.data a.d_left_transposed.data
        a.d_right_transposed.data a.d_top.data a.d_bottom.data b.pitch b.transposed_pitch
        b.size b.alpha_pitch
  model : a.d_gmm.data = (estimateOn K b b.d_image.data b.image_pitch b.size.width
    b.size.height
    (nppiThreshold_8u_C1IR (fullGraphcut K a) 1 NppCmpOp.NPP_CMP_GREATER)).gmm
  label : (a.d_alpha a.current_alpha).data = (estimateOn K b b.d_image.data b.image_pitch
    b.size.width b.size.height
    (nppiThreshold_8u_C1IR (fullGraphcut K a) 1 NppCmpOp.NPP_CMP_GREATER)).alpha
  kept : a.d_alpha b.current_alpha = b.d_alpha b.current_alpha

/-- Modelled from the spec: the bodies of the estimation kernels `GMMInitialize` and
`GMMUpdate` (GrabcutGMM.cu) are not part of the sources, only their prototypes (lines
61-62) and their calls are. Section 4.3 of the specification gives their contract:
`initialize()`/`update()` consume (image, alphaMask) and mutate the model in place. The
kernels of `K` under that contract: the model is the one the kernels of `K` compute, the
alpha plane is consumed and left as it was passed. -/
def Ext.specEstimator (K : Ext) : Ext :=
  { K with
    GMMInitialize := fun n gmm gp img ip alpha ap w h =>
      ⟨(K.GMMInitialize n gmm gp img ip alpha ap w h).gmm, alpha⟩,
    GMMUpdate := fun n gmm gp img ip alpha ap w h =>
      ⟨(K.GMMUpdate n gmm gp img ip alpha ap w h).gmm, alpha⟩ }

/-- Sample kernels whose estimation kernels write into the alpha plane they are given. -/
def sampleExtMark : Ext :=
  { sampleExt with
    GMMInitialize := fun n _ _ img _ alpha _ _ _ =>
      ⟨n :: (img.take 1 ++ alpha.take 1), alpha.map (fun v => v + 2)⟩,
    GMMUpdate := fun _ gmm _ _ _ alpha _ _ _ => ⟨gmm ++ alpha.take 1, alpha⟩ }

/-! ## The pyramid builder in single precision -/

/-- Spacing of the `float` values at an `int` value `x` (24-bit significand): 1 below
`2^24`, doubling at every further power of two, 128 from `2^30` up to `INT_MAX`. -/
def float_ulp (x : Nat) : Nat :=
  if x < 16777216 then 1 else if x < 33554432 then 2 else if x < 67108864 then 4
  else if x < 134217728 then 8 else if x < 268435456 then 16 else if x < 536870912 then 32
  else if x < 1073741824 then 64 else 128

/-- The conversion of an `int` value `x ≥ 0` to `float`, round to nearest with ties to
even; every result is an integer and is given as such. -/
def int_to_float (x : Nat) : Nat :=
  let u := float_ulp x
  let q := x / u
  let r := x % u
  if 2 * r < u then q * u
  else if u < 2 * r then (q + 1) * u
  else if q % 2 = 0 then q * u
  else (q + 1) * u

/-- The expression `(int)ceil(x * 0.5f)` as the source evaluates it: `x` is converted to
`float`, the product by `0.5f` is exact, then the ceiling is taken. -/
def ceilHalf_f32 (x : Nat) : Nat := (int_to_float x + 1) / 2

/-- Body of the loop of `createSmallImage` (lines 502-505), halvings in single
precision. -/
def createSmallImage_body_f32 (K : Ext) (s : SmallImageLocals) : SmallImageLocals :=
  let dst := 1 - s.current
  let img := K.downscale (s.temp_pitch.get dst) (s.temp_width.get dst) (s.temp_height.get dst)
    (s.d_temp.get s.current).data (s.temp_pitch.get s.current) (s.temp_width.get s.current)
    (s.temp_height.get s.current)
  let d_temp := s.d_temp.set dst { s.d_temp.get dst with data := img }
  let current := s.current ^^^ 1
  { temp_width := s.temp_width.set (1 - current) (ceilHalf_f32 (s.temp_width.get current)),
    temp_height := s.temp_height.set (1 - current) (ceilHalf_f32 (s.temp_height.get current)),
    d_temp := d_temp, temp_pitch := s.temp_pitch, current := current }

/-- The loop of `createSmallImage` (lines 500-506), halvings in single precision; `none`
when the fuel does not reach the exit. -/
def createSmallImage_loop_f32 (K : Ext) (max_dim : Nat) :
    Nat → SmallImageLocals → Option SmallImageLocals
  | 0, s =>
    if s.temp_width.get s.current > max_dim ∨ s.temp_height.get s.current > max_dim then none
    else some s
  | fuel + 1, s =>
    if s.temp_width.get s.current > max_dim ∨ s.temp_height.get s.current > max_dim then
      createSmallImage_loop_f32 K max_dim fuel (createSmallImage_body_f32 K s)
    else some s

/-- Locals of `createSmallImage` when its loop is entered (lines 483-498), halvings in
single precision. -/
def createSmallImage_entry_f32 (K : Ext) (e : Engine) : SmallImageLocals × Engine :=
  let w0 := ceilHalf_f32 e.size.width
  let h0 := ceilHalf_f32 e.size.height
  let w1 := ceilHalf_f32 w0
  let h1 := ceilHalf_f32 h0
  let t0 := cudaMallocPitch K (w0 * 4) h0 e.dev
  let t1 := cudaMallocPitch K (w1 * 4) h1 t0.dev
  let m0 := cudaMallocPitch K w0 h0 t1.dev
  let m1 := cudaMallocPitch K w1 h1 m0.dev
  let img := K.downscale t0.pitch w0 h0 e.d_image.data e.image_pitch e.size.width e.size.height
  ({ temp_width := ⟨w0, w1⟩, temp_height := ⟨h0, h1⟩,
     d_temp := ⟨⟨some t0.addr, img⟩, ⟨some t1.addr, []⟩⟩,
     temp_pitch := ⟨t0.pitch, t1.pitch⟩, current := 0 },
   { e with dev := m1.dev,
            d_small_trimap_0 := ⟨some m0.addr, []⟩, d_small_trimap_1 := ⟨some m1.addr, []⟩,
            small_trimap_pitch_0 := m0.pitch, small_trimap_pitch_1 := m1.pitch })

/-- The method `createSmallImage(max_dim)`, halvings in single precision. -/
def createSmallImage_f32 (K : Ext) (max_dim fuel : Nat) (e : Engine) : Option Engine :=
  let entry := createSmallImage_entry_f32 K e
  match createSmallImage_loop_f32 K max_dim fuel entry.1 with
  | none => none
  | some s => some (createSmallImage_exit s entry.2)

/-- The constructor with the halvings of `createSmallImage` in single precision. -/
def cudaSegmentation_f32 (K : Ext) (image : Plane) (_image_pitch : Nat) (trimap : Plane)
    (_trimap_pitch width height fuel : Nat) (dev : Ledger) : Option Engine :=
  createSmallImage_f32 K (MAX (width / 4) (height / 4)) fuel
    (cudaSegmentation_members K image _image_pitch trimap _trimap_pitch width height dev)

/-- Bound under which every conversion to `float` made by the pyramid loop is exact: both
slots of both dimension arrays are at most `2^24`. -/
def ExactRange (s : SmallImageLocals) : Prop :=
  s.temp_width.a0 ≤ 16777216 ∧ s.temp_width.a1 ≤ 16777216 ∧
    s.temp_height.a0 ≤ 16777216 ∧ s.temp_height.a1 ≤ 16777216

end cudaSegmentation

/-! # Frame conversion (`ImageConverter.inl`, lines 112-189) -/

namespace ImageConverter

/-- A `CImg` image: its four dimensions and its planar sample buffer, the sample at
`(x, y, z, c)` being at offset `x + y*width + z*width*height + c*width*height*depth`. -/
structure CImg where
  width : Nat
  height : Nat
  depth : Nat
  spectrum : Nat
  data : List Nat
deriving DecidableEq

/-- Element type of a `cv::Mat`; `unset` is the type of a default-constructed matrix. -/
inductive MatType where
  | unset
  | CV_32FC1
  | CV_8UC3
deriving DecidableEq

/-- A matrix `cv::Mat`: rows, columns, element type and its samples in row order. -/
structure Mat where
  rows : Nat
  cols : Nat
  type : MatType
  data : List Nat
deriving DecidableEq

/-- The members of `ImageConverter` read or written by `getImages`. The two image
containers are lists of `CImg` (empty list: `isEmpty()` holds; `getCImg(0)` is the first
image); `mstate` tells whether the pointer to the mechanical state is non-null. -/
structure Converter where
  depthImage : List CImg
  image : List CImg
  mstate : Bool
  depth : Mat
  color : Mat
  color_1 : Mat
deriving DecidableEq

/-- Lines 127-136: `depth = cv::Mat::zeros(height, width, CV_32FC1)` followed by the
`memcpy` of `height*width` samples of the depth image (samples are copied as they are). -/
def depthOf (depthimg : CImg) : Mat :=
  { rows := depthimg.height, cols := depthimg.width, type := MatType.CV_32FC1,
    data := (List.range (depthimg.height * depthimg.width)).map
      (fun i => depthimg.data.getD i 0) }

/-- Lines 162-170: `color = cv::Mat::zeros(img.height(), img.width(), CV_8UC3)` and, for an
image of spectrum 3, the interleaving of channels 2, 1, 0 of every pixel. -/
def colorOf (img : CImg) : Mat :=
  { rows := img.height, cols := img.width, type := MatType.CV_8UC3,
    data :=
      if img.spectrum = 3 then
        (List.range (img.width * img.height)).flatMap (fun i =>
          [img.data.getD (2 * (img.width * img.height * img.depth) + i) 0,
           img.data.getD (img.width * img.height * img.depth + i) 0,
           img.data.getD i 0])
      else List.replicate (img.height * img.width * 3) 0 }

/-- The library call `Mat::create(rows, cols, type)` made by the assignment of
`cv::Mat::zeros(rows, cols, type)` keeps the buffer of a matrix that already has this size
and element type and holds data; any other matrix receives a new buffer. -/
def Mat.keepsBuffer (m : Mat) (rows cols : Nat) (type : MatType) : Bool :=
  decide (m.rows = rows ∧ m.cols = cols ∧ m.type = type ∧ m.data ≠ [])

/-- The method `getImages()`. The assignment `color_1 = color` (line 159) copies the
header of the matrix: `color_1` shares the buffer of `color`. When `color` keeps its
buffer at line 162, the zeros and the new pixels are written into the shared buffer and
`color_1` shows the new frame as well; when `color` receives a new buffer, `color_1` is
left with the previous frame. -/
def getImages (s : Converter) : Converter :=
  match s.depthImage with
  | [] => s
  | depthimg :: _ =>
    if s.mstate = false then s
    else
      let s1 := { s with depth := depthOf depthimg }
      match s1.image with
      | [] => s1
      | img :: _ =>
        if s1.mstate = false then s1
        else
          { s1 with
            color_1 :=
              if s1.color.keepsBuffer img.height img.width MatType.CV_8UC3 then colorOf img
              else s1.color,
            color := colorOf img }

/-- A converter whose depth frame is ready and whose colour frame is not. -/
def sampleColourMissing : Converter :=
  { depthImage := [⟨2, 1, 1, 1, [7, 9]⟩], image := [], mstate := true,
    depth := ⟨0, 0, MatType.unset, []⟩, color := ⟨1, 1, MatType.CV_8UC3, [1, 2, 3]⟩,
    color_1 := ⟨1, 1, MatType.CV_8UC3, [4, 5, 6]⟩ }

/-- A converter whose two frames are ready, the colour image having the size of the stored
colour frame. -/
def sampleReady : Converter :=
  { sampleColourMissing with image := [⟨1, 1, 1, 3, [30, 20, 10]⟩] }

/-- A converter whose two frames are ready, the colour image being larger than the stored
colour frame. -/
def sampleResized : Converter :=
  { sampleColourMissing with image := [⟨2, 1, 1, 3, [30, 31, 20, 21, 10, 11]⟩] }

end ImageConverter

namespace cudaSegmentation

/-! # Theorems -/

/-! ## Pyramid builder: the loop reaches the least fitting level -/

theorem chainLevel_fst_bound (w h : Nat) (j : Nat) :
    (chainLevel w h j).1 + j ≤ w ∨ (chainLevel w h j).1 ≤ 1 := by
  induction j with
  | zero => left; simp [chainLevel]
  | succ j ih =>
    simp only [chainLevel]
    omega

theorem chainLevel_snd_bound (w h : Nat) (j : Nat) :
    (chainLevel w h j).2 + j ≤ h ∨ (chainLevel w h j).2 ≤ 1 := by
  induction j with
  | zero => left; simp [chainLevel]
  | succ j ih =>
    simp only [chainLevel]
    omega

theorem chainLevel_fits_of_le (w h m j : Nat) (hm : 1 ≤ m) (hw : w ≤ j) (hh : h ≤ j) :
    levelFits m (chainLevel w h j) := by
  have h1 := chainLevel_fst_bound w h j
  have h2 := chainLevel_snd_bound w h j
  unfold levelFits
  omega

theorem createSmallImage_entry_inv (K : Ext) (e : Engine) :
    PyrInv e.size.width e.size.height (createSmallImage_entry K e).1 1 := by
  constructor <;> simp [createSmallImage_entry, Arr2.get, chainLevel, ceilHalf]

theorem createSmallImage_body_inv (K : Ext) (w h : Nat) (s : SmallImageLocals) (n : Nat)
    (hs : PyrInv w h s n) : PyrInv w h (createSmallImage_body K s) (n + 1) := by
  obtain ⟨cur, wc, hc, wn, hn⟩ := hs
  rcases cur with c | c
  · rw [c] at wc hc wn hn
    constructor <;>
      simp_all [createSmallImage_body, Arr2.get, Arr2.set, chainLevel, ceilHalf]
  · rw [c] at wc hc wn hn
    constructor <;>
      simp_all [createSmallImage_body, Arr2.get, Arr2.set, chainLevel, ceilHalf]

theorem createSmallImage_loop_reaches (K : Ext) (w h m : Nat) (d : Nat) :
    ∀ (fuel : Nat) (s : SmallImageLocals) (n : Nat), PyrInv w h s n →
      levelFits m (chainLevel w h (n + d)) →
      (∀ j, n ≤ j → j < n + d → ¬ levelFits m (chainLevel w h j)) → d ≤ fuel →
      ∃ r, createSmallImage_loop K m fuel s = some r ∧ PyrInv w h r (n + d) := by
  induction d with
  | zero =>
    intro fuel s n hs hfit _ _
    have hc : ¬ (s.temp_width.get s.current > m ∨ s.temp_height.get s.current > m) := by
      rw [hs.wc, hs.hc]
      unfold levelFits at hfit
      simp at hfit
      omega
    refine ⟨s, ?_, hs⟩
    cases fuel <;> simp [createSmallImage_loop, hc]
  | succ d ih =>
    intro fuel s n hs hfit hnot hfuel
    have hc : s.temp_width.get s.current > m ∨ s.temp_height.get s.current > m := by
      rw [hs.wc, hs.hc]
      have := hnot n (Nat.le_refl n) (by omega)
      unfold levelFits at this
      omega
    obtain ⟨f, rfl⟩ : ∃ f, fuel = f + 1 := ⟨fuel - 1, by omega⟩
    have hfit2 : levelFits m (chainLevel w h (n + 1 + d)) := by
      have e : n + 1 + d = n + (d + 1) := by omega
      rw [e]; exact hfit
    obtain ⟨r, hr, hinv⟩ := ih f (createSmallImage_body K s) (n + 1)
      (createSmallImage_body_inv K w h s n hs) hfit2
      (fun j h1 h2 => hnot j (by omega) (by omega)) (by omega)
    refine ⟨r, ?_, ?_⟩
    · simp only [createSmallImage_loop, if_pos hc]
      exact hr
    · have e : n + (d + 1) = n + 1 + d := by omega
      rw [e]; exact hinv

theorem ceilHalf_eq_ceil (x : Nat) : ceilHalf x = ⌈(x : ℚ) / 2⌉₊ := by
  unfold ceilHalf
  apply le_antisymm
  · have h := Nat.le_ceil ((x : ℚ) / 2)
    have h2 : (x : ℚ) ≤ ((2 * ⌈(x : ℚ) / 2⌉₊ : ℕ) : ℚ) := by push_cast; linarith
    have h3 : x ≤ 2 * ⌈(x : ℚ) / 2⌉₊ := by exact_mod_cast h2
    omega
  · apply Nat.ceil_le.mpr
    have h1 : x ≤ 2 * ((x + 1) / 2) := by omega
    have h2 : (x : ℚ) ≤ ((2 * ((x + 1) / 2) : ℕ) : ℚ) := by exact_mod_cast h1
    rw [Nat.cast_mul] at h2
    have h3 : ((2 : ℕ) : ℚ) = 2 := by norm_num
    rw [h3] at h2
    linarith

theorem exists_least_fitting_level (w h m : Nat) (hm : 1 ≤ m) :
    ∃ k, 1 ≤ k ∧ k ≤ max w h + 1 ∧ levelFits m (chainLevel w h k) ∧
      ∀ j, 1 ≤ j → j < k → ¬ levelFits m (chainLevel w h j) := by
  classical
  have hex : ∃ j, 1 ≤ j ∧ levelFits m (chainLevel w h j) :=
    ⟨max w h + 1, by omega, chainLevel_fits_of_le _ _ _ _ hm (by omega) (by omega)⟩
  have hk := Nat.find_spec hex
  have hle : Nat.find hex ≤ max w h + 1 :=
    Nat.find_le ⟨by omega, chainLevel_fits_of_le _ _ _ _ hm (by omega) (by omega)⟩
  exact ⟨Nat.find hex, hk.1, hle, hk.2, fun j h1 h2 hfit => Nat.find_min hex h2 ⟨h1, hfit⟩⟩

theorem createSmallImage_returns (K : Ext) (e : Engine) (max_dim fuel : Nat) (hm : 1 ≤ max_dim)
    (hfuel : e.size.width + e.size.height ≤ fuel) :
    ∃ r k, createSmallImage K max_dim fuel e = some r ∧ 1 ≤ k ∧ r.size = e.size ∧
      r.small_size.width = (chainLevel e.size.width e.size.height k).1 ∧
      r.small_size.height = (chainLevel e.size.width e.size.height k).2 := by
  obtain ⟨k, hk1, hle, hfit, hleast⟩ :=
    exists_least_fitting_level e.size.width e.size.height max_dim hm
  have hk : 1 + (k - 1) = k := by omega
  obtain ⟨r, hr, hinv⟩ := createSmallImage_loop_reaches K e.size.width e.size.height max_dim
    (k - 1) fuel (createSmallImage_entry K e).1 1 (createSmallImage_entry_inv K e)
    (by rw [hk]; exact hfit) (fun j h1 h2 => hleast j h1 (by omega)) (by omega)
  rw [hk] at hinv
  refine ⟨createSmallImage_exit r (createSmallImage_entry K e).2, k, ?_, hk1, ?_, ?_, ?_⟩
  · simp [createSmallImage, hr]
  · simp [createSmallImage_exit, createSmallImage_entry]
  · simp [createSmallImage_exit, hinv.wc]
  · simp [createSmallImage_exit, hinv.hc]

theorem cudaSegmentation_returns (K : Ext) (image trimap : Plane)
    (_image_pitch _trimap_pitch width height fuel : Nat) (dev : Ledger)
    (hm : 1 ≤ MAX (width / 4) (height / 4)) (hfuel : width + height ≤ fuel) :
    ∃ e k, cudaSegmentation K image _image_pitch trimap _trimap_pitch width height fuel dev
        = some e ∧ 1 ≤ k ∧ e.size = ⟨width, height⟩ ∧
      e.small_size.width = (chainLevel width height k).1 ∧
      e.small_size.height = (chainLevel width height k).2 := by
  unfold cudaSegmentation
  exact createSmallImage_returns K _ _ fuel hm hfuel

/-- C1: for every bound `max_dim ≥ 1` (and every full size, in particular every size with
width and height at least 1) `createSmallImage(max_dim)` terminates, with any fuel of at
least `width + height`, and sets `small_size` to level `k` of the ceiling-halving chain,
where `k ≥ 1` is the least level whose width and height are both at most `max_dim`. -/
theorem createSmallImage_least_level (K : Ext) (e : Engine) (max_dim : Nat) (hm : 1 ≤ max_dim) :
    ∃ k, 1 ≤ k ∧ levelFits max_dim (chainLevel e.size.width e.size.height k) ∧
      (∀ j, 1 ≤ j → j < k → ¬ levelFits max_dim (chainLevel e.size.width e.size.height j)) ∧
      ∀ fuel, e.size.width + e.size.height ≤ fuel →
        ∃ r, createSmallImage K max_dim fuel e = some r ∧
          (r.small_size.width, r.small_size.height) =
            chainLevel e.size.width e.size.height k := by
  obtain ⟨k, hk1, hle, hfit, hleast⟩ :=
    exists_least_fitting_level e.size.width e.size.height max_dim hm
  refine ⟨k, hk1, hfit, hleast, ?_⟩
  intro fuel hfuel
  have hk : 1 + (k - 1) = k := by omega
  obtain ⟨r, hr, hinv⟩ := createSmallImage_loop_reaches K e.size.width e.size.height max_dim
    (k - 1) fuel (createSmallImage_entry K e).1 1 (createSmallImage_entry_inv K e)
    (by rw [hk]; exact hfit) (fun j h1 h2 => hleast j h1 (by omega)) (by omega)
  refine ⟨createSmallImage_exit r (createSmallImage_entry K e).2, ?_, ?_⟩
  · simp [createSmallImage, hr]
  · rw [hk] at hinv
    simp [createSmallImage_exit, hinv.wc, hinv.hc]

/-- Witness of `createSmallImage_least_level`: the sample engine (an 8 x 8 frame) with
bound 2. -/
theorem createSmallImage_least_level_witness :
    1 ≤ 2 ∧ ∃ k, 1 ≤ k ∧
      levelFits 2 (chainLevel sampleBuilt.size.width sampleBuilt.size.height k) ∧
      (∀ j, 1 ≤ j → j < k →
        ¬ levelFits 2 (chainLevel sampleBuilt.size.width sampleBuilt.size.height j)) ∧
      ∀ fuel, sampleBuilt.size.width + sampleBuilt.size.height ≤ fuel →
        ∃ r, createSmallImage sampleExt 2 fuel sampleBuilt = some r ∧
          (r.small_size.width, r.small_size.height) =
            chainLevel sampleBuilt.size.width sampleBuilt.size.height k :=
  ⟨by decide, createSmallImage_least_level sampleExt sampleBuilt 2 (by decide)⟩

/-! ## Construction on a tiny frame never leaves the pyramid loop -/

theorem chainLevel_fst_pos (w h : Nat) (hw : 1 ≤ w) (j : Nat) : 1 ≤ (chainLevel w h j).1 := by
  induction j with
  | zero => simpa [chainLevel] using hw
  | succ j ih =>
    simp only [chainLevel]
    omega

theorem createSmallImage_loop_zero_bound (K : Ext) (w h : Nat) (hw : 1 ≤ w) :
    ∀ (fuel : Nat) (s : SmallImageLocals) (n : Nat), PyrInv w h s n →
      createSmallImage_loop K 0 fuel s = none := by
  intro fuel
  induction fuel with
  | zero =>
    intro s n hs
    have h1 := chainLevel_fst_pos w h hw n
    have hc : s.temp_width.get s.current > 0 ∨ s.temp_height.get s.current > 0 := by
      rw [hs.wc]; left; omega
    simp only [createSmallImage_loop, if_pos hc]
  | succ f ih =>
    intro s n hs
    have h1 := chainLevel_fst_pos w h hw n
    have hc : s.temp_width.get s.current > 0 ∨ s.temp_height.get s.current > 0 := by
      rw [hs.wc]; left; omega
    simp only [createSmallImage_loop, if_pos hc]
    exact ih _ (n + 1) (createSmallImage_body_inv K w h s n hs)

theorem createSmallImage_zero_bound (K : Ext) (e : Engine) (hw : 1 ≤ e.size.width) (fuel : Nat) :
    createSmallImage K 0 fuel e = none := by
  have h := createSmallImage_loop_zero_bound K e.size.width e.size.height hw fuel
    (createSmallImage_entry K e).1 1 (createSmallImage_entry_inv K e)
  simp [createSmallImage, h]

/-- C2 (the code diverges from the claim): for a 3 x 3 frame the constructor calls
`createSmallImage(MAX(3/4, 3/4))`, that is with bound 0, and the halving loop never
exits: whatever the kernels, the operands and the fuel, no engine is returned. -/
theorem constructor_tiny_frame_never_returns (K : Ext) (image trimap : Plane)
    (_image_pitch _trimap_pitch fuel : Nat) (dev : Ledger) :
    cudaSegmentation K image _image_pitch trimap _trimap_pitch 3 3 fuel dev = none := by
  unfold cudaSegmentation
  have hm : MAX (3 / 4) (3 / 4) = 0 := by decide
  rw [hm]
  apply createSmallImage_zero_bound
  show 1 ≤ 3
  decide

/-! ## The full-resolution loop -/

theorem refine_body_first_pass (K : Ext) (r : Run) (h : r.iteration = 0) :
    (refine_body K r).2 = none ∧ (refine_body K r).1.iteration = 1 := by
  simp [refine_body, MAX_ITERATIONS, h]

theorem refine_loop_first_pass (K : Ext) (r : Run) (h : r.iteration = 0) (fuel : Nat) :
    refine_loop K (fuel + 1) r = some ((refine_body K r).1, LoopExit.CONDITION) := by
  obtain ⟨h2, h1⟩ := refine_body_first_pass K r h
  have h0 : r.iteration < 1 := by omega
  have hb : refine_body K r = ((refine_body K r).1, none) := by
    rw [← h2]
  simp only [refine_loop, if_pos h0]
  rw [hb]
  cases fuel <;> simp [refine_loop, h1]

/-- C3 (as amended): for every engine state and every trace, the full-resolution loop
entered with `iteration = 0` terminates after one pass, with any positive fuel, and it is
left through the loop condition `iteration < 1` becoming false, with `iteration = 1`;
neither the `break` of the converged case nor the `break` of the iteration limit is the
exit taken. -/
theorem refine_loop_exits_by_condition (K : Ext) (e : Engine) (t : List Event) (fuel : Nat) :
    ∃ r, refine_loop K (fuel + 1) ⟨e, 0, t⟩ = some (r, LoopExit.CONDITION) ∧
      r.iteration = 1 := by
  exact ⟨_, refine_loop_first_pass K ⟨e, 0, t⟩ rfl fuel,
    (refine_body_first_pass K ⟨e, 0, t⟩ rfl).2⟩

/-- C3 (counterexample to the claim as stated): on the sample engine the call returns and
the full-resolution loop is left through its loop condition, which is neither of the two
terminal states `CONVERGED` and `ITERATION_LIMIT`. -/
theorem refine_loop_exit_counterexample :
    sampleEngine.isSome = true ∧
      sampleRun.map (fun r => r.2) = some LoopExit.CONDITION ∧
      LoopExit.CONDITION ≠ LoopExit.CONVERGED ∧
      LoopExit.CONDITION ≠ LoopExit.ITERATION_LIMIT := by
  decide

/-! ## The threshold step -/

/-- C5 (counterexample to the claim as stated): the raw value 1 is not greater than 1, yet
the threshold step keeps it, so a plane holding 1 keeps the foreground label 1. -/
theorem threshold_one_counterexample :
    nppiThreshold_8u_C1IR [1] 1 NppCmpOp.NPP_CMP_GREATER = [1] ∧ ¬ (1 > 1) := by
  decide

theorem thresholdPixel_greater (t v : Nat) :
    thresholdPixel t NppCmpOp.NPP_CMP_GREATER v = if v > t then t else v := rfl

theorem threshold_range (p : Plane) (x : Nat)
    (hx : x ∈ nppiThreshold_8u_C1IR p 1 NppCmpOp.NPP_CMP_GREATER) : x = 0 ∨ x = 1 := by
  unfold nppiThreshold_8u_C1IR at hx
  obtain ⟨y, _, rfl⟩ := List.mem_map.mp hx
  rw [thresholdPixel_greater]
  split_ifs <;> omega

theorem updateSegmentation_active_plane (K : Ext) (e : Engine) :
    ∃ p, ((updateSegmentation K e).d_alpha (updateSegmentation K e).current_alpha).data =
      nppiThreshold_8u_C1IR p 1 NppCmpOp.NPP_CMP_GREATER := by
  by_cases hc : e.current_alpha = 0
  · exact ⟨_, by simp [updateSegmentation, Engine.write_d_alpha, Engine.d_alpha,
      Engine.writeEdges, hc]; rfl⟩
  · exact ⟨_, by simp [updateSegmentation, Engine.write_d_alpha, Engine.d_alpha,
      Engine.writeEdges, hc]; rfl⟩

/-- C5 (as amended): for every raw value `v`, the threshold step with threshold 1 and
comparison GREATER yields 1 exactly when `v ≥ 1` and 0 exactly when `v = 0`; hence every
value of a thresholded plane is 0 or 1, and so is every value of the active alpha plane
after `updateSegmentation`. -/
theorem threshold_law (v : Nat) (p : Plane) (K : Ext) (e : Engine) :
    (thresholdPixel 1 NppCmpOp.NPP_CMP_GREATER v = 1 ↔ 1 ≤ v) ∧
      (thresholdPixel 1 NppCmpOp.NPP_CMP_GREATER v = 0 ↔ v = 0) ∧
      (∀ x ∈ nppiThreshold_8u_C1IR p 1 NppCmpOp.NPP_CMP_GREATER, x = 0 ∨ x = 1) ∧
      ∀ x ∈ ((updateSegmentation K e).d_alpha (updateSegmentation K e).current_alpha).data,
        x = 0 ∨ x = 1 := by
  refine ⟨?_, ?_, ?_, ?_⟩
  · rw [thresholdPixel_greater]
    split_ifs <;> omega
  · rw [thresholdPixel_greater]
    split_ifs with h
    · constructor
      · intro h2
        exact absurd h2 (by decide)
      · intro h2
        omega
    · exact Iff.rfl
  · exact fun x hx => threshold_range p x hx
  · intro x hx
    obtain ⟨q, hq⟩ := updateSegmentation_active_plane K e
    rw [hq] at hx
    exact threshold_range q x hx

/-! ## Warm-start update -/

/-- C6: with deterministic kernels, `updateSegmentation` is idempotent: a second call
leaves the whole engine state, in particular the active alpha plane, as the first call
left it; and a call changes neither `current_alpha` nor the appearance model. -/
theorem updateSegmentation_idempotent (K : Ext) (e : Engine) :
    updateSegmentation K (updateSegmentation K e) = updateSegmentation K e ∧
      ((updateSegmentation K (updateSegmentation K e)).d_alpha
          (updateSegmentation K (updateSegmentation K e)).current_alpha).data =
        ((updateSegmentation K e).d_alpha (updateSegmentation K e).current_alpha).data ∧
      (updateSegmentation K e).current_alpha = e.current_alpha ∧
      (updateSegmentation K e).d_gmm = e.d_gmm := by
  have h : updateSegmentation K (updateSegmentation K e) = updateSegmentation K e := by
    by_cases hc : e.current_alpha = 0 <;> by_cases hn : e.m_neighborhood = 8 <;>
      simp [updateSegmentation, Engine.write_d_alpha, Engine.d_alpha, Engine.writeEdges,
        fullGraphcut, hc, hn]
  refine ⟨h, by rw [h], ?_, ?_⟩
  · by_cases hc : e.current_alpha = 0 <;>
      simp [updateSegmentation, Engine.write_d_alpha, Engine.writeEdges, hc]
  · by_cases hc : e.current_alpha = 0 <;>
      simp [updateSegmentation, Engine.write_d_alpha, Engine.writeEdges, hc]

/-! ## Crop segmentation -/

theorem updateSegmentationCrop_full_planes (K : Ext) (e : Engine) :
    (updateSegmentationCrop K e).d_alpha_0 = e.d_alpha_0 ∧
      (updateSegmentationCrop K e).d_alpha_1 = e.d_alpha_1 ∧
      (updateSegmentationCrop K e).current_alpha = 1 := by
  simp [updateSegmentationCrop, Engine.write_d_crop_alpha, Engine.writeCropEdges]

/-- C7 (the code diverges from the claim): on the sample engine,
`computeSegmentationFromTrimap` returns with `current_alpha = 0` and the result in
`d_alpha[0]`; a crop call then leaves both full-resolution planes as they were but sets
`current_alpha` to 1, so the active full-resolution plane is now `d_alpha[1]`, whose
contents differ from the result. -/
theorem crop_call_moves_active_plane :
    sampleRun.isSome = true ∧
      sampleResult.current_alpha = 0 ∧
      (sampleResult.d_alpha sampleResult.current_alpha).data = [1, 0, 1, 1, 1] ∧
      (sampleCropCall sampleResult).current_alpha = 1 ∧
      ((sampleCropCall sampleResult).d_alpha (sampleCropCall sampleResult).current_alpha).data
        = [8, 8, 0, 1] ∧
      (sampleCropCall sampleResult).d_alpha_0 = sampleResult.d_alpha_0 ∧
      (sampleCropCall sampleResult).d_alpha_1 = sampleResult.d_alpha_1 := by
  decide

theorem cudaFree_append (nx : Nat) (base l st : List Nat) (w a : Nat) (hb : a ∉ base)
    (hl : a ∈ l) :
    cudaFree (some a) ⟨nx, base ++ l, st, w⟩ = ⟨nx, base ++ l.erase a, st, w⟩ := by
  simp [cudaFree, hl, List.erase_append_right _ hb]

/-- C8 (the code diverges from the claim): on the sample engine the ledger after a crop
call is not the ledger before it: the addresses 21, 22 (the two crop alpha planes) and 33
(the crop graph-cut state) are still live. A second crop call does not release them
either: `updateImageCrop` overwrites the three members with the fresh addresses 35, 36
and 47, so 21, 22 and 33 stay live while no member the destructor releases refers to them
any more, and the live set grows by three allocations with every crop call. -/
theorem crop_call_leaks :
    sampleBuilt.dev.live
        = [0, 1, 2, 3, 4, 5, 6, 7, 8, 9, 10, 11, 12, 13, 14, 15, 17, 18, 19] ∧
      (sampleCropCall sampleBuilt).dev.live
        = [0, 1, 2, 3, 4, 5, 6, 7, 8, 9, 10, 11, 12, 13, 14, 15, 17, 18, 19, 21, 22, 33] ∧
      (sampleCropCall sampleBuilt).d_crop_alpha_0.ptr = some 21 ∧
      (sampleCropCall sampleBuilt).d_crop_alpha_1.ptr = some 22 ∧
      (sampleCropCall sampleBuilt).crop_pState = some 33 ∧
      (sampleCropCall sampleBuilt).dev ≠ sampleBuilt.dev ∧
      (sampleCropCall (sampleCropCall sampleBuilt)).dev.live
        = [0, 1, 2, 3, 4, 5, 6, 7, 8, 9, 10, 11, 12, 13, 14, 15, 17, 18, 19, 21, 22, 33,
            35, 36, 47] ∧
      (sampleCropCall (sampleCropCall sampleBuilt)).d_crop_alpha_0.ptr = some 35 ∧
      (sampleCropCall (sampleCropCall sampleBuilt)).d_crop_alpha_1.ptr = some 36 ∧
      (sampleCropCall (sampleCropCall sampleBuilt)).crop_pState = some 47 ∧
      some 21 ∉ destructor_frees (sampleCropCall (sampleCropCall sampleBuilt)) ∧
      some 22 ∉ destructor_frees (sampleCropCall (sampleCropCall sampleBuilt)) ∧
      some 33 ∉ destructor_frees (sampleCropCall (sampleCropCall sampleBuilt)) := by
  decide

/-- The ledger after any crop call: on a ledger whose live addresses were all handed out
before, after `updateImageCrop` followed by `updateSegmentationCrop` the live allocations
are those live before the call followed by the two crop alpha planes and the crop
graph-cut state, which the call does not release; no invalid free was issued. -/
theorem crop_call_ledger (K : Ext) (crop_image : Plane)
    (_crop_image_pitch crop_width crop_height : Nat) (e : Engine)
    (hwf : ∀ a ∈ e.dev.live, a < e.dev.next) :
    ∃ a0 a1 st,
      (updateSegmentationCrop K (updateImageCrop K crop_image _crop_image_pitch crop_width
        crop_height e)).d_crop_alpha_0.ptr = some a0 ∧
      (updateSegmentationCrop K (updateImageCrop K crop_image _crop_image_pitch crop_width
        crop_height e)).d_crop_alpha_1.ptr = some a1 ∧
      (updateSegmentationCrop K (updateImageCrop K crop_image _crop_image_pitch crop_width
        crop_height e)).crop_pState = some st ∧
      (updateSegmentationCrop K (updateImageCrop K crop_image _crop_image_pitch crop_width
        crop_height e)).dev.live = e.dev.live ++ [a0, a1, st] ∧
      (updateSegmentationCrop K (updateImageCrop K crop_image _crop_image_pitch crop_width
        crop_height e)).dev.staleFrees = e.dev.staleFrees ∧
      (updateSegmentationCrop K (updateImageCrop K crop_image _crop_image_pitch crop_width
        crop_height e)).dev.wildFrees = e.dev.wildFrees := by
  have hfresh : ∀ i, e.dev.next + i ∉ e.dev.live := fun i hi => by
    have := hwf _ hi
    omega
  have h0 : e.dev.next ∉ e.dev.live := fun hi => by
    have := hwf _ hi
    omega
  refine ⟨e.dev.next + 1, e.dev.next + 2, e.dev.next + 13, ?_⟩
  simp [updateSegmentationCrop, updateImageCrop, Engine.write_d_crop_alpha,
    Engine.writeCropEdges, crop_frees, freeAll, cudaMallocPitch, cudaMalloc,
    cudaFree_append, hfresh, h0, Nat.add_assoc]

/-! ## The state `computeSegmentationFromTrimap` returns -/

theorem createSmallTrimap_entry_inv (K : Ext) (e : Engine) :
    TriInv e.size.width e.size.height e (createSmallTrimap_entry K e) 1 := by
  constructor <;>
    simp [createSmallTrimap_entry, Engine.write_d_small_trimap, Arr2.get, chainLevel, ceilHalf]

theorem createSmallTrimap_body_inv (K : Ext) (w h : Nat) (e : Engine) (s : SmallTrimapLocals)
    (n : Nat) (hs : TriInv w h e s n) : TriInv w h e (createSmallTrimap_body K s) (n + 1) := by
  obtain ⟨idx, wc, wn, small, cur⟩ := hs
  rcases idx with c | c
  · rw [c] at wc wn
    constructor <;>
      simp_all [createSmallTrimap_body, Engine.write_d_small_trimap, Arr2.get, Arr2.set,
        chainLevel, ceilHalf]
  · rw [c] at wc wn
    constructor <;>
      simp_all [createSmallTrimap_body, Engine.write_d_small_trimap, Arr2.get, Arr2.set,
        chainLevel, ceilHalf]

theorem createSmallTrimap_loop_reaches (K : Ext) (w h : Nat) (e : Engine) (d : Nat) :
    ∀ (fuel : Nat) (s : SmallTrimapLocals) (n : Nat), TriInv w h e s n →
      (chainLevel w h (n + d)).1 = e.small_size.width → d ≤ fuel →
      ∃ r, createSmallTrimap_loop K fuel s = some r ∧ r.eng.current_alpha = e.current_alpha := by
  induction d with
  | zero =>
    intro fuel s n hs hfit _
    have hc : ¬ (s.temp_width.get s.eng.small_trimap_idx ≠ s.eng.small_size.width) := by
      rw [hs.wc, hs.small]
      simpa using hfit
    refine ⟨s, ?_, hs.cur⟩
    cases fuel <;> simp only [createSmallTrimap_loop, if_neg hc]
  | succ d ih =>
    intro fuel s n hs hfit hfuel
    by_cases hc : s.temp_width.get s.eng.small_trimap_idx ≠ s.eng.small_size.width
    · obtain ⟨f, rfl⟩ : ∃ f, fuel = f + 1 := ⟨fuel - 1, by omega⟩
      have hfit2 : (chainLevel w h (n + 1 + d)).1 = e.small_size.width := by
        have e1 : n + 1 + d = n + (d + 1) := by omega
        rw [e1]; exact hfit
      obtain ⟨r, hr, hcur⟩ := ih f (createSmallTrimap_body K s) (n + 1)
        (createSmallTrimap_body_inv K w h e s n hs) hfit2 (by omega)
      refine ⟨r, ?_, hcur⟩
      simp only [createSmallTrimap_loop, if_pos hc]
      exact hr
    · refine ⟨s, ?_, hs.cur⟩
      cases fuel <;> simp only [createSmallTrimap_loop, if_neg hc]

theorem createSmallTrimap_returns (K : Ext) (e : Engine) (k fuel : Nat) (hk : 1 ≤ k)
    (hchain : e.small_size.width = (chainLevel e.size.width e.size.height k).1)
    (hfuel : k ≤ fuel) :
    ∃ e1, createSmallTrimap K fuel e = some e1 ∧ e1.current_alpha = e.current_alpha := by
  have hk1 : 1 + (k - 1) = k := by omega
  obtain ⟨r, hr, hcur⟩ := createSmallTrimap_loop_reaches K e.size.width e.size.height e (k - 1)
    fuel (createSmallTrimap_entry K e) 1 (createSmallTrimap_entry_inv K e)
    (by rw [hk1]; exact hchain.symm) (by omega)
  exact ⟨r.eng, by simp [createSmallTrimap, hr], hcur⟩

theorem estimate_model_current_alpha (K : Ext) (e : Engine) (img : Plane) (ip w h : Nat) :
    (estimate_model K e img ip w h).current_alpha = e.current_alpha := by
  simp [estimate_model, Engine.write_d_alpha]

theorem estimate_model_frame (K : Ext) (e : Engine) (img : Plane) (ip w h : Nat) :
    destructor_frees (estimate_model K e img ip w h) = destructor_frees e ∧
      (estimate_model K e img ip w h).dev = e.dev := by
  constructor
  · by_cases c : e.current_alpha = 0 <;>
      simp [estimate_model, Engine.write_d_alpha, destructor_frees, c]
  · simp [estimate_model, Engine.write_d_alpha]

theorem estimate_model_graph (K : Ext) (e : Engine) (img : Plane) (ip w h : Nat) :
    fullGraphcut K (estimate_model K e img ip w h) = fullGraphcut K e := by
  simp [estimate_model, Engine.write_d_alpha, fullGraphcut]

theorem estimate_model_alpha (K : Ext) (hK : K.estimatorKeepsAlpha) (e : Engine) (img : Plane)
    (ip w h : Nat) :
    (estimate_model K e img ip w h).d_alpha_0 = e.d_alpha_0 ∧
      (estimate_model K e img ip w h).d_alpha_1 = e.d_alpha_1 := by
  by_cases c : e.current_alpha = 0 <;>
    simp [estimate_model, Engine.write_d_alpha, Engine.d_alpha, c, (hK _ _ _ _ _ _ _ _ _).1,
      (hK _ _ _ _ _ _ _ _ _).2]

theorem seed_body_facts (K : Ext) (r : Run) :
    (seed_body K r).iteration = r.iteration ∧
      (seed_body K r).eng.current_alpha = 1 - r.eng.current_alpha ∧
      (seed_body K r).trace = r.trace ++ [Event.GMMInitialize r.eng.current_alpha,
        Event.GMMUpdate r.eng.current_alpha, Event.GMMDataTerm, Event.EdgeCues,
        Event.Graphcut (1 - r.eng.current_alpha), Event.Threshold (1 - r.eng.current_alpha),
        Event.Flip (1 - r.eng.current_alpha)] := by
  simp [seed_body, estimate_model_current_alpha, Engine.write_d_alpha, Engine.writeEdges]

theorem seed_upsample_facts (K : Ext) (r : Run) :
    (seed_upsample K r).iteration = r.iteration ∧
      (seed_upsample K r).eng.current_alpha = 1 - r.eng.current_alpha ∧
      (seed_upsample K r).trace = r.trace ++
        [Event.UpsampleAlpha (1 - r.eng.current_alpha) r.eng.current_alpha,
          Event.Flip (1 - r.eng.current_alpha)] := by
  simp [seed_upsample, Engine.write_d_alpha]

theorem full_model_facts (K : Ext) (r : Run) :
    (full_model K r).iteration = r.iteration ∧
      (full_model K r).eng.current_alpha = r.eng.current_alpha ∧
      (full_model K r).trace = r.trace ++ [Event.GMMInitialize r.eng.current_alpha,
        Event.GMMUpdate r.eng.current_alpha] := by
  simp [full_model, estimate_model_current_alpha]

theorem seed_phase_facts (K : Ext) (e1 : Engine) (hc : e1.current_alpha = 0) :
    (seed_phase K e1).iteration = 0 ∧ (seed_phase K e1).eng.current_alpha = 1 ∧
      (seed_phase K e1).trace.filterMap Event.flipTo = [1, 0, 1] := by
  simp [seed_phase, full_model_facts, seed_upsample_facts, seed_body_facts,
    Engine.write_d_alpha, hc, Event.flipTo]

theorem seed_phase_iteration (K : Ext) (e1 : Engine) : (seed_phase K e1).iteration = 0 := by
  simp [seed_phase, full_model_facts, seed_upsample_facts, seed_body_facts]

theorem full_pass_current_alpha (K : Ext) (e : Engine) :
    (full_pass K e).current_alpha = 1 ^^^ e.current_alpha := by
  simp [full_pass, Engine.write_d_alpha, Engine.writeEdges]

theorem full_pass_frame (K : Ext) (e : Engine) :
    destructor_frees (full_pass K e) = destructor_frees e ∧ (full_pass K e).dev = e.dev := by
  constructor
  · by_cases c : 1 ^^^ e.current_alpha = 0 <;>
      simp [full_pass, Engine.write_d_alpha, Engine.writeEdges, destructor_frees, c]
  · simp [full_pass, Engine.write_d_alpha, Engine.writeEdges]

theorem full_pass_plane (K : Ext) (e : Engine) (hc : e.current_alpha = 1) :
    (full_pass K e).d_alpha_0.data =
      nppiThreshold_8u_C1IR (fullGraphcut K (full_pass K e)) 1 NppCmpOp.NPP_CMP_GREATER := by
  simp [full_pass, hc, Engine.write_d_alpha, Engine.d_alpha, Engine.writeEdges, fullGraphcut]

theorem refine_body_eng (K : Ext) (r : Run) (hi : r.iteration = 0) :
    (refine_body K r).1.eng = estimate_model K (full_pass K r.eng) (full_pass K r.eng).d_image.data
      (full_pass K r.eng).image_pitch (full_pass K r.eng).size.width
      (full_pass K r.eng).size.height := by
  simp [refine_body, MAX_ITERATIONS, hi]

theorem refine_body_trace (K : Ext) (r : Run) (hi : r.iteration = 0) :
    (refine_body K r).1.trace = r.trace ++ [Event.GMMDataTerm, Event.EdgeCues,
      Event.Flip (1 ^^^ r.eng.current_alpha),
      (if r.eng.m_neighborhood = 8 then Event.Graphcut8 (1 ^^^ r.eng.current_alpha)
        else Event.Graphcut (1 ^^^ r.eng.current_alpha)),
      Event.Threshold (1 ^^^ r.eng.current_alpha),
      Event.GMMInitialize (1 ^^^ r.eng.current_alpha),
      Event.GMMUpdate (1 ^^^ r.eng.current_alpha)] := by
  simp [refine_body, MAX_ITERATIONS, hi, full_pass_current_alpha]

theorem refine_body_result (K : Ext) (r : Run) (hi : r.iteration = 0)
    (hc : r.eng.current_alpha = 1) :
    (refine_body K r).1.eng.current_alpha = 0 ∧
      (refine_body K r).1.trace = r.trace ++ [Event.GMMDataTerm, Event.EdgeCues, Event.Flip 0,
        (if r.eng.m_neighborhood = 8 then Event.Graphcut8 0 else Event.Graphcut 0),
        Event.Threshold 0, Event.GMMInitialize 0, Event.GMMUpdate 0] ∧
      (K.estimatorKeepsAlpha → (refine_body K r).1.eng.d_alpha_0.data =
        nppiThreshold_8u_C1IR (fullGraphcut K (refine_body K r).1.eng) 1
          NppCmpOp.NPP_CMP_GREATER) := by
  refine ⟨?_, ?_, ?_⟩
  · rw [refine_body_eng K r hi, estimate_model_current_alpha, full_pass_current_alpha, hc]
    rfl
  · rw [refine_body_trace K r hi, hc]
    rfl
  · intro hK
    rw [refine_body_eng K r hi, estimate_model_graph, (estimate_model_alpha K hK _ _ _ _ _).1]
    exact full_pass_plane K r.eng hc

theorem specEstimator_keeps_alpha (K : Ext) : K.specEstimator.estimatorKeepsAlpha :=
  fun _ _ _ _ _ _ _ _ _ => ⟨rfl, rfl⟩

theorem first_pass_facts (K : Ext) (e1 : Engine) (hc : e1.current_alpha = 0) :
    (refine_body K (seed_phase K e1)).1.eng.current_alpha = 0 ∧
      (refine_body K (seed_phase K e1)).1.trace.filterMap Event.flipTo = [1, 0, 1, 0] ∧
      ((refine_body K (seed_phase K e1)).1.trace.filterMap Event.labelWrite).getLast? = some 0 ∧
      (K.estimatorKeepsAlpha → (refine_body K (seed_phase K e1)).1.eng.d_alpha_0.data =
        nppiThreshold_8u_C1IR (fullGraphcut K (refine_body K (seed_phase K e1)).1.eng) 1
          NppCmpOp.NPP_CMP_GREATER) := by
  obtain ⟨hi, hc1, ht⟩ := seed_phase_facts K e1 hc
  obtain ⟨h1, h2, h3⟩ := refine_body_result K (seed_phase K e1) hi hc1
  refine ⟨h1, ?_, ?_, h3⟩
  · rw [h2, List.filterMap_append, ht]
    split_ifs <;> simp [Event.flipTo]
  · rw [h2, List.filterMap_append]
    split_ifs <;> simp [Event.labelWrite]

theorem active_plane_of_contract (K : Ext) (e : Engine) (k fuel : Nat)
    (hk : 1 ≤ k)
    (hchain : e.small_size.width = (chainLevel e.size.width e.size.height k).1)
    (hfuel : k ≤ fuel) :
    ∃ r x, computeSegmentationFromTrimap K fuel e = some (r, x) ∧
      r.eng.current_alpha = 0 ∧
      r.trace.filterMap Event.flipTo = [1, 0, 1, 0] ∧
      (r.trace.filterMap Event.labelWrite).getLast? = some r.eng.current_alpha ∧
      (K.estimatorKeepsAlpha →
        (r.eng.d_alpha r.eng.current_alpha).data =
          nppiThreshold_8u_C1IR (fullGraphcut K r.eng) 1 NppCmpOp.NPP_CMP_GREATER ∧
        r.eng.d_alpha_0.data =
          nppiThreshold_8u_C1IR (fullGraphcut K r.eng) 1 NppCmpOp.NPP_CMP_GREATER) := by
  obtain ⟨e1, he1, hc⟩ := createSmallTrimap_returns K { e with current_alpha := 0 } k fuel hk
    hchain hfuel
  have hc0 : e1.current_alpha = 0 := hc
  obtain ⟨f, rfl⟩ : ∃ f, fuel = f + 1 := ⟨fuel - 1, by omega⟩
  obtain ⟨h1, h2, h3, h4⟩ := first_pass_facts K e1 hc0
  refine ⟨(refine_body K (seed_phase K e1)).1, LoopExit.CONDITION, ?_, h1, h2, ?_, ?_⟩
  · simp only [computeSegmentationFromTrimap, seeding, he1]
    exact refine_loop_first_pass K _ (seed_phase_facts K e1 hc0).1 f
  · rw [h1]; exact h3
  · intro hK
    refine ⟨?_, h4 hK⟩
    rw [h1]
    exact h4 hK

theorem sampleExt_keeps_alpha : sampleExt.estimatorKeepsAlpha :=
  fun _ _ _ _ _ _ _ _ _ => ⟨rfl, rfl⟩

/-- C4: for every engine state whose `small_size.width` is the width of some level
`k ≥ 1` of the halving chain of `size` (as it is after construction), whatever
`current_alpha` was before, `computeSegmentationFromTrimap` returns with any fuel of at
least `k`; it performs four index flips starting from 0 (to 1, 0, 1, 0), returns with
`current_alpha = 0`, and the last plane written by a min cut or a threshold is plane 0,
the plane `current_alpha` indexes. For any estimation kernels, that plane holds on return
what the re-estimation of the model leaves of the thresholded min cut it is given
(`FullResolutionPass`); with the estimation kernels of the specification
(`Ext.specEstimator`, section 4.3), `d_alpha[0]` holds on return the thresholded min cut of
the graph stored in the engine. -/
theorem computeSegmentationFromTrimap_active_plane (K : Ext) (e : Engine) (k fuel : Nat)
    (hk : 1 ≤ k)
    (hchain : e.small_size.width = (chainLevel e.size.width e.size.height k).1)
    (hfuel : k ≤ fuel) :
    (∃ e1 r x, createSmallTrimap K fuel { e with current_alpha := 0 } = some e1 ∧
      computeSegmentationFromTrimap K fuel e = some (r, x) ∧
      r.eng.current_alpha = 0 ∧
      r.trace.filterMap Event.flipTo = [1, 0, 1, 0] ∧
      (r.trace.filterMap Event.labelWrite).getLast? = some r.eng.current_alpha ∧
      FullResolutionPass K (seed_phase K e1).eng r.eng) ∧
    (∃ r x, computeSegmentationFromTrimap K.specEstimator fuel e = some (r, x) ∧
      r.eng.current_alpha = 0 ∧
      r.trace.filterMap Event.flipTo = [1, 0, 1, 0] ∧
      (r.trace.filterMap Event.labelWrite).getLast? = some r.eng.current_alpha ∧
      (r.eng.d_alpha r.eng.current_alpha).data =
        nppiThreshold_8u_C1IR (fullGraphcut K.specEstimator r.eng) 1
          NppCmpOp.NPP_CMP_GREATER ∧
      r.eng.d_alpha_0.data =
        nppiThreshold_8u_C1IR (fullGraphcut K.specEstimator r.eng) 1
          NppCmpOp.NPP_CMP_GREATER) := by
  constructor
  · obtain ⟨e1, he1, hc⟩ := createSmallTrimap_returns K { e with current_alpha := 0 } k fuel
      hk hchain hfuel
    have hc0 : e1.current_alpha = 0 := hc
    obtain ⟨f, rfl⟩ : ∃ f, fuel = f + 1 := ⟨fuel - 1, by omega⟩
    obtain ⟨h1, h2, h3, _⟩ := first_pass_facts K e1 hc0
    obtain ⟨hi, hc1, _⟩ := seed_phase_facts K e1 hc0
    have pass : ∀ r : Run, r.iteration = 0 → r.eng.current_alpha = 1 →
        FullResolutionPass K r.eng (refine_body K r).1.eng := by
      intro r hr hr1
      have h11 : (1 : Nat) ^^^ 1 = 0 := rfl
      have he : (refine_body K r).1.eng = estimate_model K (full_pass K r.eng)
          (full_pass K r.eng).d_image.data (full_pass K r.eng).image_pitch
          (full_pass K r.eng).size.width (full_pass K r.eng).size.height := by
        simp [refine_body, MAX_ITERATIONS, hr]
      rw [he]
      constructor <;>
        simp [full_pass, estimate_model, estimateOn, Engine.write_d_alpha, Engine.d_alpha,
          Engine.writeEdges, Engine.readEdges, fullGraphcut, hr1, h11]
    have hp := pass (seed_phase K e1) hi hc1
    refine ⟨e1, (refine_body K (seed_phase K e1)).1, LoopExit.CONDITION, he1, ?_, h1, h2, ?_,
      hp⟩
    · simp only [computeSegmentationFromTrimap, seeding, he1]
      exact refine_loop_first_pass K _ hi f
    · rw [h1]; exact h3
  · obtain ⟨r, x, hr, h1, h2, h3, h4⟩ := active_plane_of_contract K.specEstimator e k fuel hk
      hchain hfuel
    exact ⟨r, x, hr, h1, h2, h3, (h4 (specEstimator_keeps_alpha K)).1,
      (h4 (specEstimator_keeps_alpha K)).2⟩

/-- Witness of `computeSegmentationFromTrimap_active_plane`: the sample engine after a
crop call, where `current_alpha` is 1, with kernels whose `GMMInitialize` writes into the
alpha plane. The last conjunct lists the alpha planes, the model, the index and the
counter on return: with these kernels plane 0 holds the thresholded cut `[1, 0, 1, 1, 1]`
as the re-estimation marks it, with the estimation kernels of the specification it holds
the thresholded cut itself. -/
theorem computeSegmentationFromTrimap_active_plane_witness :
    (sampleCropCall sampleBuilt).current_alpha = 1 ∧ 1 ≤ 2 ∧
      (sampleCropCall sampleBuilt).small_size.width =
        (chainLevel (sampleCropCall sampleBuilt).size.width
          (sampleCropCall sampleBuilt).size.height 2).1 ∧ 2 ≤ 4 ∧
    ((∃ e1 r x, createSmallTrimap sampleExtMark 4 { (sampleCropCall sampleBuilt) with current_alpha := 0 } = some e1 ∧
      computeSegmentationFromTrimap sampleExtMark 4 (sampleCropCall sampleBuilt) = some (r, x) ∧
      r.eng.current_alpha = 0 ∧
      r.trace.filterMap Event.flipTo = [1, 0, 1, 0] ∧
      (r.trace.filterMap Event.labelWrite).getLast? = some r.eng.current_alpha ∧
      FullResolutionPass sampleExtMark (seed_phase sampleExtMark e1).eng r.eng) ∧
    (∃ r x, computeSegmentationFromTrimap sampleExtMark.specEstimator 4 (sampleCropCall sampleBuilt) = some (r, x) ∧
      r.eng.current_alpha = 0 ∧
      r.trace.filterMap Event.flipTo = [1, 0, 1, 0] ∧
      (r.trace.filterMap Event.labelWrite).getLast? = some r.eng.current_alpha ∧
      (r.eng.d_alpha r.eng.current_alpha).data =
        nppiThreshold_8u_C1IR (fullGraphcut sampleExtMark.specEstimator r.eng) 1
          NppCmpOp.NPP_CMP_GREATER ∧
      r.eng.d_alpha_0.data =
        nppiThreshold_8u_C1IR (fullGraphcut sampleExtMark.specEstimator r.eng) 1
          NppCmpOp.NPP_CMP_GREATER)) ∧
    ((computeSegmentationFromTrimap sampleExtMark 4 (sampleCropCall sampleBuilt)).map
        (fun p => [p.1.eng.d_alpha_0.data, p.1.eng.d_alpha_1.data, p.1.eng.d_gmm.data,
          [p.1.eng.current_alpha, p.1.iteration]])
        = some [[3, 2, 3, 3, 3], [10, 10, 2, 3], [4, 10, 1, 3], [0, 1]] ∧
      (computeSegmentationFromTrimap sampleExtMark.specEstimator 4
          (sampleCropCall sampleBuilt)).map
        (fun p => [p.1.eng.d_alpha_0.data, p.1.eng.d_alpha_1.data, p.1.eng.d_gmm.data,
          [p.1.eng.current_alpha, p.1.iteration]])
        = some [[1, 0, 1, 1, 1], [8, 8, 0, 1], [4, 10, 1, 1], [0, 1]]) :=
  ⟨by decide, by decide, by decide, by decide,
    computeSegmentationFromTrimap_active_plane sampleExtMark (sampleCropCall sampleBuilt) 2 4
      (by decide) (by decide) (by decide),
    by decide⟩

/-- The statement of `crop_call_ledger` on a device that already holds the live addresses
1 and 3. -/
theorem crop_call_ledger_sample :
    (∀ a ∈ sampleBusy.dev.live, a < sampleBusy.dev.next) ∧
    ∃ a0 a1 st,
      (updateSegmentationCrop sampleExt (updateImageCrop sampleExt [5, 6] 16 4 4
        sampleBusy)).d_crop_alpha_0.ptr = some a0 ∧
      (updateSegmentationCrop sampleExt (updateImageCrop sampleExt [5, 6] 16 4 4
        sampleBusy)).d_crop_alpha_1.ptr = some a1 ∧
      (updateSegmentationCrop sampleExt (updateImageCrop sampleExt [5, 6] 16 4 4
        sampleBusy)).crop_pState = some st ∧
      (updateSegmentationCrop sampleExt (updateImageCrop sampleExt [5, 6] 16 4 4
        sampleBusy)).dev.live = sampleBusy.dev.live ++ [a0, a1, st] ∧
      (updateSegmentationCrop sampleExt (updateImageCrop sampleExt [5, 6] 16 4 4
        sampleBusy)).dev.staleFrees = sampleBusy.dev.staleFrees ∧
      (updateSegmentationCrop sampleExt (updateImageCrop sampleExt [5, 6] 16 4 4
        sampleBusy)).dev.wildFrees = sampleBusy.dev.wildFrees :=
  ⟨by decide, crop_call_ledger sampleExt [5, 6] 16 4 4 sampleBusy (by decide)⟩

/-! ## Buffer-set symmetry and double release -/

theorem cudaFree_none (L : Ledger) :
    cudaFree none L = { L with wildFrees := L.wildFrees + 1 } := rfl

theorem createSmallImage_loop_ptrs (K : Ext) (m : Nat) :
    ∀ (fuel : Nat) (s r : SmallImageLocals), createSmallImage_loop K m fuel s = some r →
      (s.current = 0 ∨ s.current = 1) →
      r.d_temp.a0.ptr = s.d_temp.a0.ptr ∧ r.d_temp.a1.ptr = s.d_temp.a1.ptr ∧
        (r.current = 0 ∨ r.current = 1) := by
  intro fuel
  induction fuel with
  | zero =>
    intro s r h hc
    simp only [createSmallImage_loop] at h
    split_ifs at h
    cases h
    exact ⟨rfl, rfl, hc⟩
  | succ f ih =>
    intro s r h hc
    simp only [createSmallImage_loop] at h
    split_ifs at h
    · obtain ⟨h0, h1, h2⟩ := ih _ r h (by
        rcases hc with c | c <;> simp [createSmallImage_body, c])
      refine ⟨?_, ?_, h2⟩
      · rw [h0]
        rcases hc with c | c <;> simp [createSmallImage_body, Arr2.set, Arr2.get, c]
      · rw [h1]
        rcases hc with c | c <;> simp [createSmallImage_body, Arr2.set, Arr2.get, c]
    · cases h
      exact ⟨rfl, rfl, hc⟩

theorem createSmallImage_eq_some (K : Ext) (m fuel : Nat) (e r : Engine)
    (h : createSmallImage K m fuel e = some r) :
    ∃ s, createSmallImage_loop K m fuel (createSmallImage_entry K e).1 = some s ∧
      r = createSmallImage_exit s (createSmallImage_entry K e).2 := by
  unfold createSmallImage at h
  cases hl : createSmallImage_loop K m fuel (createSmallImage_entry K e).1 with
  | none => simp [hl] at h
  | some s =>
    simp [hl] at h
    exact ⟨s, rfl, h.symm⟩

theorem construct_destroy_ledger (K : Ext) (image trimap : Plane)
    (_image_pitch _trimap_pitch width height fuel : Nat) (dev : Ledger) (e : Engine)
    (hwf : ∀ a ∈ dev.live, a < dev.next)
    (he : cudaSegmentation K image _image_pitch trimap _trimap_pitch width height fuel dev
      = some e) :
    e.d_small_trimap_0.ptr = some (dev.next + 18) ∧
      e.d_small_trimap_1.ptr = some (dev.next + 19) ∧
      destructor e = ⟨dev.next + 20, dev.live ++ [dev.next + 18, dev.next + 19],
        dev.staleFrees, dev.wildFrees + 14⟩ := by
  have hfresh : ∀ i, dev.next + i ∉ dev.live := fun i hi => by
    have := hwf _ hi
    omega
  have h0 : dev.next ∉ dev.live := fun hi => by
    have := hwf _ hi
    omega
  unfold cudaSegmentation at he
  obtain ⟨s, hs, rfl⟩ := createSmallImage_eq_some K _ fuel _ e he
  obtain ⟨p0, p1, hc⟩ := createSmallImage_loop_ptrs K _ fuel _ s hs (Or.inl rfl)
  simp only [createSmallImage_entry] at p0 p1
  rcases hc with c | c
  · simp [destructor, destructor_frees, freeAll, createSmallImage_exit,
      createSmallImage_entry, cudaSegmentation_members, Engine.unset, Buf.unset, Arr2.get, c,
      p0, p1, cudaMallocPitch, cudaMalloc, cudaFree_append, cudaFree_none, hfresh, h0,
      Nat.add_assoc]
  · simp [destructor, destructor_frees, freeAll, createSmallImage_exit,
      createSmallImage_entry, cudaSegmentation_members, Engine.unset, Buf.unset, Arr2.get, c,
      p0, p1, cudaMallocPitch, cudaMalloc, cudaFree_append, cudaFree_none, hfresh, h0,
      Nat.add_assoc]

theorem createSmallTrimap_loop_frame (K : Ext) :
    ∀ (fuel : Nat) (s r : SmallTrimapLocals), createSmallTrimap_loop K fuel s = some r →
      destructor_frees r.eng = destructor_frees s.eng ∧ r.eng.dev = s.eng.dev ∧
        r.eng.current_alpha = s.eng.current_alpha := by
  intro fuel
  induction fuel with
  | zero =>
    intro s r h
    simp only [createSmallTrimap_loop] at h
    split_ifs at h
    cases h
    exact ⟨rfl, rfl, rfl⟩
  | succ f ih =>
    intro s r h
    simp only [createSmallTrimap_loop] at h
    split_ifs at h
    · obtain ⟨h1, h2, h3⟩ := ih _ r h
      rw [h1, h2, h3]
      by_cases c : 1 - s.eng.small_trimap_idx = 0 <;>
        simp [createSmallTrimap_body, Engine.write_d_small_trimap, destructor_frees, c]
    · cases h
      exact ⟨rfl, rfl, rfl⟩

theorem seed_body_frame (K : Ext) (r : Run) :
    destructor_frees (seed_body K r).eng = destructor_frees r.eng ∧
      (seed_body K r).eng.dev = r.eng.dev := by
  obtain ⟨h1, h2⟩ := estimate_model_frame K r.eng r.eng.d_small_image.data r.eng.small_pitch
    r.eng.small_size.width r.eng.small_size.height
  constructor
  · rw [← h1]
    by_cases c : 1 - r.eng.current_alpha = 0 <;>
      simp [seed_body, estimate_model_current_alpha, Engine.write_d_alpha, Engine.writeEdges,
        destructor_frees, c]
  · rw [← h2]
    simp [seed_body, Engine.write_d_alpha, Engine.writeEdges]

theorem seed_upsample_frame (K : Ext) (r : Run) :
    destructor_frees (seed_upsample K r).eng = destructor_frees r.eng ∧
      (seed_upsample K r).eng.dev = r.eng.dev := by
  constructor
  · by_cases c : 1 - r.eng.current_alpha = 0 <;>
      simp [seed_upsample, Engine.write_d_alpha, destructor_frees, c]
  · simp [seed_upsample, Engine.write_d_alpha]

theorem seed_phase_frame (K : Ext) (e1 : Engine) :
    destructor_frees (seed_phase K e1).eng = destructor_frees e1 ∧
      (seed_phase K e1).eng.dev = e1.dev := by
  simp only [seed_phase, full_model, Function.iterate_succ, Function.iterate_zero,
    Function.comp_apply, id_eq]
  constructor
  · rw [(estimate_model_frame K _ _ _ _ _).1, (seed_upsample_frame K _).1,
      (seed_body_frame K _).1, (seed_body_frame K _).1]
    simp [Engine.write_d_alpha, destructor_frees]
  · rw [(estimate_model_frame K _ _ _ _ _).2, (seed_upsample_frame K _).2,
      (seed_body_frame K _).2, (seed_body_frame K _).2]
    simp [Engine.write_d_alpha]

theorem refine_body_frame (K : Ext) (r : Run) (hi : r.iteration = 0) :
    destructor_frees (refine_body K r).1.eng = destructor_frees r.eng ∧
      (refine_body K r).1.eng.dev = r.eng.dev := by
  rw [refine_body_eng K r hi, (estimate_model_frame K _ _ _ _ _).1,
    (estimate_model_frame K _ _ _ _ _).2]
  exact full_pass_frame K r.eng

theorem computeSegmentationFromTrimap_frame (K : Ext) (fuel : Nat) (e : Engine) (r : Run)
    (x : LoopExit) (h : computeSegmentationFromTrimap K fuel e = some (r, x)) :
    destructor r.eng = destructor e := by
  unfold computeSegmentationFromTrimap seeding createSmallTrimap at h
  cases hl : createSmallTrimap_loop K fuel
      (createSmallTrimap_entry K { e with current_alpha := 0 }) with
  | none => simp [hl] at h
  | some s =>
    simp only [hl] at h
    obtain ⟨h1, h2, _⟩ := createSmallTrimap_loop_frame K fuel _ s hl
    cases fuel with
    | zero => simp [refine_loop, seed_phase_iteration] at h
    | succ f =>
      rw [refine_loop_first_pass K _ (seed_phase_iteration K s.eng) f] at h
      simp only [Option.some.injEq, Prod.mk.injEq] at h
      obtain ⟨rfl, _⟩ := h
      unfold destructor
      rw [(refine_body_frame K _ (seed_phase_iteration K s.eng)).1,
        (refine_body_frame K _ (seed_phase_iteration K s.eng)).2,
        (seed_phase_frame K s.eng).1, (seed_phase_frame K s.eng).2, h1, h2]
      simp [createSmallTrimap_entry, Engine.write_d_small_trimap, destructor_frees]

theorem construct_segment_destroy_leaks (K : Ext) (image trimap : Plane)
    (_image_pitch _trimap_pitch width height fuel fuel2 : Nat) (dev : Ledger) (e : Engine)
    (r : Run) (x : LoopExit) (hwf : ∀ a ∈ dev.live, a < dev.next)
    (he : cudaSegmentation K image _image_pitch trimap _trimap_pitch width height fuel dev
      = some e)
    (hr : computeSegmentationFromTrimap K fuel2 e = some (r, x)) :
    destructor r.eng = ⟨dev.next + 20, dev.live ++ [dev.next + 18, dev.next + 19],
      dev.staleFrees, dev.wildFrees + 14⟩ := by
  rw [computeSegmentationFromTrimap_frame K fuel2 e r x hr]
  exact (construct_destroy_ledger K image trimap _image_pitch _trimap_pitch width height fuel
    dev e hwf he).2.2

theorem crop_second_release (K : Ext) (crop_image : Plane)
    (_crop_image_pitch crop_width crop_height : Nat) (e : Engine)
    (hwf : ∀ a ∈ e.dev.live, a < e.dev.next) :
    (updateSegmentationCrop K (updateSegmentationCrop K (updateImageCrop K crop_image
      _crop_image_pitch crop_width crop_height e))).dev.staleFrees =
      e.dev.staleFrees ++ [e.dev.next, e.dev.next + 3, e.dev.next + 4, e.dev.next + 7,
        e.dev.next + 5, e.dev.next + 6, e.dev.next + 8, e.dev.next + 9, e.dev.next + 10,
        e.dev.next + 11, e.dev.next + 12] := by
  have hfresh : ∀ i, e.dev.next + i ∉ e.dev.live := fun i hi => by
    have := hwf _ hi
    omega
  have h0 : e.dev.next ∉ e.dev.live := fun hi => by
    have := hwf _ hi
    omega
  simp [updateSegmentationCrop, updateImageCrop, Engine.write_d_crop_alpha,
    Engine.writeCropEdges, crop_frees, freeAll, cudaMallocPitch, cudaMalloc,
    cudaFree_append, hfresh, h0, Nat.add_assoc]
  simp [cudaFree, hfresh, h0]

/-- C9 (the code diverges from the claim): on the sample engine, after construction,
`computeSegmentationFromTrimap` and destruction, the two coarse trimap planes
`d_small_trimap[0..1]` (addresses 18 and 19) are still live, and the destructor has issued
14 frees through crop pointers that never received an allocation. -/
theorem construct_segment_destroy_ledger :
    sampleEngine.isSome = true ∧ sampleRun.isSome = true ∧
      destructor sampleResult = ⟨20, [18, 19], [], 14⟩ ∧
      sampleResult.d_small_trimap_0.ptr = some 18 ∧
      sampleResult.d_small_trimap_1.ptr = some 19 ∧
      (destructor_frees sampleResult).count none = 14 := by
  decide

set_option maxRecDepth 8000 in
/-- C10 (the code diverges from the claim): on the sample engine, construction, one crop
call and destruction free the eleven crop planes released by `updateSegmentationCrop` a
second time; and a second `updateSegmentationCrop` after a single `updateImageCrop` frees
the same eleven planes a second time. -/
theorem crop_planes_freed_twice :
    sampleEngine.isSome = true ∧
      destructor (sampleCropCall sampleBuilt)
        = ⟨34, [18, 19], [20, 23, 24, 27, 25, 26, 28, 29, 30, 31, 32], 0⟩ ∧
      (updateSegmentationCrop sampleExt (sampleCropCall sampleBuilt)).dev
        = ⟨34, [0, 1, 2, 3, 4, 5, 6, 7, 8, 9, 10, 11, 12, 13, 14, 15, 17, 18, 19, 21, 22, 33],
            [20, 23, 24, 27, 25, 26, 28, 29, 30, 31, 32], 0⟩ := by
  decide

/-! ## The calls made by `computeSegmentationFromTrimap`, in order -/

theorem computeSegmentationFromTrimap_eq (K : Ext) (e : Engine) (k fuel : Nat) (hk : 1 ≤ k)
    (hchain : e.small_size.width = (chainLevel e.size.width e.size.height k).1)
    (hfuel : k ≤ fuel) :
    ∃ e1, createSmallTrimap K fuel { e with current_alpha := 0 } = some e1 ∧
      e1.current_alpha = 0 ∧
      computeSegmentationFromTrimap K fuel e =
        some ((refine_body K (seed_phase K e1)).1, LoopExit.CONDITION) := by
  obtain ⟨e1, he1, hc⟩ := createSmallTrimap_returns K { e with current_alpha := 0 } k fuel hk
    hchain hfuel
  obtain ⟨f, rfl⟩ : ∃ f, fuel = f + 1 := ⟨fuel - 1, by omega⟩
  refine ⟨e1, he1, hc, ?_⟩
  simp only [computeSegmentationFromTrimap, seeding, he1]
  exact refine_loop_first_pass K _ (seed_phase_iteration K e1) f

theorem seed_phase_trace (K : Ext) (e1 : Engine) (hc : e1.current_alpha = 0) :
    (seed_phase K e1).trace =
      [Event.CopyTrimap,
        Event.GMMInitialize 0, Event.GMMUpdate 0, Event.GMMDataTerm, Event.EdgeCues,
        Event.Graphcut 1, Event.Threshold 1, Event.Flip 1,
        Event.GMMInitialize 1, Event.GMMUpdate 1, Event.GMMDataTerm, Event.EdgeCues,
        Event.Graphcut 0, Event.Threshold 0, Event.Flip 0,
        Event.UpsampleAlpha 1 0, Event.Flip 1,
        Event.GMMInitialize 1, Event.GMMUpdate 1] := by
  simp [seed_phase, full_model_facts, seed_upsample_facts, seed_body_facts,
    Engine.write_d_alpha, hc]

theorem first_pass_trace (K : Ext) (e1 : Engine) (hc : e1.current_alpha = 0) :
    ∃ cut, (cut = Event.Graphcut8 0 ∨ cut = Event.Graphcut 0) ∧
      (refine_body K (seed_phase K e1)).1.trace =
        [Event.CopyTrimap,
          Event.GMMInitialize 0, Event.GMMUpdate 0, Event.GMMDataTerm, Event.EdgeCues,
          Event.Graphcut 1, Event.Threshold 1, Event.Flip 1,
          Event.GMMInitialize 1, Event.GMMUpdate 1, Event.GMMDataTerm, Event.EdgeCues,
          Event.Graphcut 0, Event.Threshold 0, Event.Flip 0,
          Event.UpsampleAlpha 1 0, Event.Flip 1,
          Event.GMMInitialize 1, Event.GMMUpdate 1] ++
        [Event.GMMDataTerm, Event.EdgeCues, Event.Flip 0, cut, Event.Threshold 0,
          Event.GMMInitialize 0, Event.GMMUpdate 0] := by
  have ht := refine_body_trace K (seed_phase K e1) (seed_phase_iteration K e1)
  have h11 : 1 ^^^ 1 = 0 := rfl
  rw [seed_phase_trace K e1 hc, (seed_phase_facts K e1 hc).2.1, h11] at ht
  by_cases hn : (seed_phase K e1).eng.m_neighborhood = 8
  · rw [if_pos hn] at ht
    exact ⟨Event.Graphcut8 0, Or.inl rfl, ht⟩
  · rw [if_neg hn] at ht
    exact ⟨Event.Graphcut 0, Or.inr rfl, ht⟩

/-- C14: for every engine state whose `small_size.width` is the width of some level
`k ≥ 1` of the halving chain of `size` (as it is after construction),
`computeSegmentationFromTrimap` returns with any fuel of at least `k`, and its seeding
phase is: the coarse trimap `e1`, its copy into `d_alpha[0]` (state `r0`), the body of the
seeding loop exactly twice (states `r1`, `r2`), the upsample (state `r3`), then the
full-resolution model estimated on plane 1 (state `r4`) and the full-resolution pass. Iteration 0 estimates the model on alpha plane 0 and
writes the thresholded min cut to plane 1, then the index is 1; iteration 1 estimates the
model on plane 1 and writes the thresholded min cut to plane 0, then the index is 0; the
upsample reads plane 0, which it leaves as it is, and writes plane 1, then the index is 1.
In each step the plane read is not the plane written. The calls are recorded in the same
order. -/
theorem seeding_two_iterations_no_alias (K : Ext) (e : Engine) (k fuel : Nat) (hk : 1 ≤ k)
    (hchain : e.small_size.width = (chainLevel e.size.width e.size.height k).1)
    (hfuel : k ≤ fuel) :
    ∃ e1 r0 r1 r2 r3 r4 r x t,
      createSmallTrimap K fuel { e with current_alpha := 0 } = some e1 ∧
      r0 = ⟨e1.write_d_alpha 0 (e1.d_small_trimap e1.small_trimap_idx).data, 0,
        [Event.CopyTrimap]⟩ ∧
      r1 = seed_body K r0 ∧ r2 = seed_body K r1 ∧ r3 = seed_upsample K r2 ∧
      r4 = full_model K r3 ∧
      computeSegmentationFromTrimap K fuel e = some (r, x) ∧
      r = (refine_body K r4).1 ∧
      (r0.eng.d_alpha 0).data = (e1.d_small_trimap e1.small_trimap_idx).data ∧
      CoarseIteration K 0 r0.eng r1.eng ∧
      CoarseIteration K 1 r1.eng r2.eng ∧
      UpsampleStep K 0 r2.eng r3.eng ∧
      ModelEstimate K 1 r3.eng r4.eng ∧
      r.trace =
        [Event.CopyTrimap,
          Event.GMMInitialize 0, Event.GMMUpdate 0, Event.GMMDataTerm, Event.EdgeCues,
          Event.Graphcut 1, Event.Threshold 1, Event.Flip 1,
          Event.GMMInitialize 1, Event.GMMUpdate 1, Event.GMMDataTerm, Event.EdgeCues,
          Event.Graphcut 0, Event.Threshold 0, Event.Flip 0,
          Event.UpsampleAlpha 1 0, Event.Flip 1] ++ t := by
  obtain ⟨e1, he1, hc, hrun⟩ := computeSegmentationFromTrimap_eq K e k fuel hk hchain hfuel
  obtain ⟨cut, _, ht⟩ := first_pass_trace K e1 hc
  have h0 : (⟨e1.write_d_alpha 0 (e1.d_small_trimap e1.small_trimap_idx).data, 0,
      [Event.CopyTrimap]⟩ : Run).eng.current_alpha = 0 := by
    simp [Engine.write_d_alpha, hc]
  have iter0 : ∀ r : Run, r.eng.current_alpha = 0 →
      CoarseIteration K 0 r.eng (seed_body K r).eng := by
    intro r hi
    constructor <;>
      simp [seed_body, estimate_model, estimateOn, Engine.write_d_alpha, Engine.d_alpha,
        Engine.writeEdges, Engine.readEdges, Engine.d_small_trimap, Engine.small_trimap_pitch,
        hi]
  have iter1 : ∀ r : Run, r.eng.current_alpha = 1 →
      CoarseIteration K 1 r.eng (seed_body K r).eng := by
    intro r hi
    constructor <;>
      simp [seed_body, estimate_model, estimateOn, Engine.write_d_alpha, Engine.d_alpha,
        Engine.writeEdges, Engine.readEdges, Engine.d_small_trimap, Engine.small_trimap_pitch,
        hi]
  have up0 : ∀ r : Run, r.eng.current_alpha = 0 →
      UpsampleStep K 0 r.eng (seed_upsample K r).eng := by
    intro r hi
    constructor <;> simp [seed_upsample, Engine.write_d_alpha, Engine.d_alpha, hi]
  have est1 : ∀ r : Run, r.eng.current_alpha = 1 →
      ModelEstimate K 1 r.eng (full_model K r).eng := by
    intro r hi
    constructor <;>
      simp [full_model, estimate_model, estimateOn, Engine.write_d_alpha, Engine.d_alpha, hi]
  have hA := iter0 _ h0
  have hB := iter1 _ hA.flip
  have hU := up0 _ hB.flip
  have hE := est1 _ hU.flip
  refine ⟨e1, _, _, _, _, _, _, _, [Event.GMMInitialize 1, Event.GMMUpdate 1, Event.GMMDataTerm,
    Event.EdgeCues, Event.Flip 0, cut, Event.Threshold 0, Event.GMMInitialize 0,
    Event.GMMUpdate 0], he1, rfl, rfl, rfl, rfl, rfl, hrun, rfl, ?_, hA, hB, hU, hE,
    ?_⟩
  · simp [Engine.write_d_alpha, Engine.d_alpha]
  · rw [ht]
    rfl

/-- Witness of `seeding_two_iterations_no_alias`: the sample engine (an 8 x 8 frame, coarse
size 2 x 2, level 2 of the chain) with fuel 4 and kernels whose `GMMInitialize` writes into
the alpha plane. The last conjunct lists the contents of planes 0 and 1 after
iteration 0, after iteration 1 and after the upsample: the coarse trimap `[2, 2, 4, 4]`
copied to plane 0 is marked by the estimator, each thresholded cut `[0, 1, 1, 1]` goes to
the other plane, and the upsample writes plane 1. -/
theorem seeding_two_iterations_no_alias_witness :
    1 ≤ 2 ∧
      sampleBuilt.small_size.width
        = (chainLevel sampleBuilt.size.width sampleBuilt.size.height 2).1 ∧
      2 ≤ 4 ∧
    (∃ e1 r0 r1 r2 r3 r4 r x t,
      createSmallTrimap sampleExtMark 4 { sampleBuilt with current_alpha := 0 } = some e1 ∧
      r0 = ⟨e1.write_d_alpha 0 (e1.d_small_trimap e1.small_trimap_idx).data, 0,
        [Event.CopyTrimap]⟩ ∧
      r1 = seed_body sampleExtMark r0 ∧ r2 = seed_body sampleExtMark r1 ∧ r3 = seed_upsample sampleExtMark r2 ∧
      r4 = full_model sampleExtMark r3 ∧
      computeSegmentationFromTrimap sampleExtMark 4 sampleBuilt = some (r, x) ∧
      r = (refine_body sampleExtMark r4).1 ∧
      (r0.eng.d_alpha 0).data = (e1.d_small_trimap e1.small_trimap_idx).data ∧
      CoarseIteration sampleExtMark 0 r0.eng r1.eng ∧
      CoarseIteration sampleExtMark 1 r1.eng r2.eng ∧
      UpsampleStep sampleExtMark 0 r2.eng r3.eng ∧
      ModelEstimate sampleExtMark 1 r3.eng r4.eng ∧
      r.trace =
        [Event.CopyTrimap,
          Event.GMMInitialize 0, Event.GMMUpdate 0, Event.GMMDataTerm, Event.EdgeCues,
          Event.Graphcut 1, Event.Threshold 1, Event.Flip 1,
          Event.GMMInitialize 1, Event.GMMUpdate 1, Event.GMMDataTerm, Event.EdgeCues,
          Event.Graphcut 0, Event.Threshold 0, Event.Flip 0,
          Event.UpsampleAlpha 1 0, Event.Flip 1] ++ t) ∧
    ((createSmallTrimap sampleExtMark 4 { sampleBuilt with current_alpha := 0 }).map
      (fun e1 =>
        [(seed_body sampleExtMark ⟨e1.write_d_alpha 0
            (e1.d_small_trimap e1.small_trimap_idx).data, 0, [Event.CopyTrimap]⟩).eng.d_alpha_0.data,
         (seed_body sampleExtMark ⟨e1.write_d_alpha 0
            (e1.d_small_trimap e1.small_trimap_idx).data, 0, [Event.CopyTrimap]⟩).eng.d_alpha_1.data,
         ((seed_body sampleExtMark)^[2] ⟨e1.write_d_alpha 0
            (e1.d_small_trimap e1.small_trimap_idx).data, 0, [Event.CopyTrimap]⟩).eng.d_alpha_0.data,
         ((seed_body sampleExtMark)^[2] ⟨e1.write_d_alpha 0
            (e1.d_small_trimap e1.small_trimap_idx).data, 0, [Event.CopyTrimap]⟩).eng.d_alpha_1.data,
         (seed_upsample sampleExtMark ((seed_body sampleExtMark)^[2] ⟨e1.write_d_alpha 0
            (e1.d_small_trimap e1.small_trimap_idx).data, 0,
            [Event.CopyTrimap]⟩)).eng.d_alpha_0.data,
         (seed_upsample sampleExtMark ((seed_body sampleExtMark)^[2] ⟨e1.write_d_alpha 0
            (e1.d_small_trimap e1.small_trimap_idx).data, 0,
            [Event.CopyTrimap]⟩)).eng.d_alpha_1.data])
      = some [[4, 4, 6, 6], [0, 1, 1, 1], [0, 1, 1, 1], [2, 3, 3, 3], [0, 1, 1, 1],
          [8, 8, 0, 1]]) :=
  ⟨by decide, by decide, by decide,
    seeding_two_iterations_no_alias sampleExtMark sampleBuilt 2 4 (by decide) (by decide)
      (by decide),
    by decide⟩

/-- C15: for every engine state whose `small_size.width` is the width of some level
`k ≥ 1` of the halving chain of `size` (as it is after construction),
`computeSegmentationFromTrimap` returns with any fuel of at least `k` after exactly one
full-resolution pass from the state the seeding phase leaves (`seed_phase`, index 1): the
data term and the edge cues are computed on the full-resolution image, the index flips to
0, the thresholded min cut is written to plane 0 and the model is estimated anew on it by
`GMMInitialize` and `GMMUpdate` (`FullResolutionPass`); these calls are made once, in this
order; no call of `SegmentationChanged` and no diagnostic occurs among the calls; the loop
is left through its condition and the iteration counter is 1. -/
theorem single_full_resolution_pass (K : Ext) (e : Engine) (k fuel : Nat) (hk : 1 ≤ k)
    (hchain : e.small_size.width = (chainLevel e.size.width e.size.height k).1)
    (hfuel : k ≤ fuel) :
    ∃ e1 r cut, createSmallTrimap K fuel { e with current_alpha := 0 } = some e1 ∧
      computeSegmentationFromTrimap K fuel e = some (r, LoopExit.CONDITION) ∧
      r.iteration = 1 ∧
      (seed_phase K e1).eng.current_alpha = 1 ∧
      FullResolutionPass K (seed_phase K e1).eng r.eng ∧
      r.eng.current_alpha = 0 ∧
      (cut = Event.Graphcut8 0 ∨ cut = Event.Graphcut 0) ∧
      r.trace =
        [Event.CopyTrimap,
          Event.GMMInitialize 0, Event.GMMUpdate 0, Event.GMMDataTerm, Event.EdgeCues,
          Event.Graphcut 1, Event.Threshold 1, Event.Flip 1,
          Event.GMMInitialize 1, Event.GMMUpdate 1, Event.GMMDataTerm, Event.EdgeCues,
          Event.Graphcut 0, Event.Threshold 0, Event.Flip 0,
          Event.UpsampleAlpha 1 0, Event.Flip 1,
          Event.GMMInitialize 1, Event.GMMUpdate 1] ++
        [Event.GMMDataTerm, Event.EdgeCues, Event.Flip 0, cut, Event.Threshold 0,
          Event.GMMInitialize 0, Event.GMMUpdate 0] ∧
      (∀ ev ∈ r.trace, (∀ a b, ev ≠ Event.SegmentationChanged a b) ∧ ev ≠ Event.Warning) := by
  obtain ⟨e1, he1, hc, hrun⟩ := computeSegmentationFromTrimap_eq K e k fuel hk hchain hfuel
  obtain ⟨cut, hcut, ht⟩ := first_pass_trace K e1 hc
  obtain ⟨hi0, hc1, _⟩ := seed_phase_facts K e1 hc
  have hi := (refine_body_first_pass K (seed_phase K e1) (seed_phase_iteration K e1)).2
  have pass : ∀ r : Run, r.iteration = 0 → r.eng.current_alpha = 1 →
      FullResolutionPass K r.eng (refine_body K r).1.eng := by
    intro r hr hr1
    have h11 : (1 : Nat) ^^^ 1 = 0 := rfl
    have he : (refine_body K r).1.eng = estimate_model K (full_pass K r.eng)
        (full_pass K r.eng).d_image.data (full_pass K r.eng).image_pitch
        (full_pass K r.eng).size.width (full_pass K r.eng).size.height := by
      simp [refine_body, MAX_ITERATIONS, hr]
    rw [he]
    constructor <;>
      simp [full_pass, estimate_model, estimateOn, Engine.write_d_alpha, Engine.d_alpha,
        Engine.writeEdges, Engine.readEdges, fullGraphcut, hr1, h11]
  have hp := pass (seed_phase K e1) hi0 hc1
  have hz : (refine_body K (seed_phase K e1)).1.eng.current_alpha = 0 := by
    rw [hp.flip, hc1]
    rfl
  refine ⟨e1, _, cut, he1, hrun, hi, hc1, hp, hz, hcut, ht, ?_⟩
  rw [ht]
  rcases hcut with rfl | rfl <;> simp

/-- Witness of `single_full_resolution_pass`: the sample engine (an 8 x 8 frame, coarse
size 2 x 2, level 2 of the chain) with fuel 4 and kernels whose `GMMInitialize` writes into
the alpha plane. The last conjunct lists the alpha planes, the model, the
terminals, one edge plane, the index and the counter on return, for these kernels and for
the estimation kernels of the specification. -/
theorem single_full_resolution_pass_witness :
    1 ≤ 2 ∧
      sampleBuilt.small_size.width
        = (chainLevel sampleBuilt.size.width sampleBuilt.size.height 2).1 ∧
      2 ≤ 4 ∧
    (∃ e1 r cut, createSmallTrimap sampleExtMark 4 { sampleBuilt with current_alpha := 0 } = some e1 ∧
      computeSegmentationFromTrimap sampleExtMark 4 sampleBuilt = some (r, LoopExit.CONDITION) ∧
      r.iteration = 1 ∧
      (seed_phase sampleExtMark e1).eng.current_alpha = 1 ∧
      FullResolutionPass sampleExtMark (seed_phase sampleExtMark e1).eng r.eng ∧
      r.eng.current_alpha = 0 ∧
      (cut = Event.Graphcut8 0 ∨ cut = Event.Graphcut 0) ∧
      r.trace =
        [Event.CopyTrimap,
          Event.GMMInitialize 0, Event.GMMUpdate 0, Event.GMMDataTerm, Event.EdgeCues,
          Event.Graphcut 1, Event.Threshold 1, Event.Flip 1,
          Event.GMMInitialize 1, Event.GMMUpdate 1, Event.GMMDataTerm, Event.EdgeCues,
          Event.Graphcut 0, Event.Threshold 0, Event.Flip 0,
          Event.UpsampleAlpha 1 0, Event.Flip 1,
          Event.GMMInitialize 1, Event.GMMUpdate 1] ++
        [Event.GMMDataTerm, Event.EdgeCues, Event.Flip 0, cut, Event.Threshold 0,
          Event.GMMInitialize 0, Event.GMMUpdate 0] ∧
      (∀ ev ∈ r.trace, (∀ a b, ev ≠ Event.SegmentationChanged a b) ∧ ev ≠ Event.Warning)) ∧
    ((computeSegmentationFromTrimap sampleExtMark 4 sampleBuilt).map
        (fun p => [p.1.eng.d_alpha_0.data, p.1.eng.d_alpha_1.data, p.1.eng.d_gmm.data,
          p.1.eng.d_terminals.data, p.1.eng.d_top.data, [p.1.eng.current_alpha, p.1.iteration]])
        = some [[3, 2, 3, 3, 3], [10, 10, 2, 3], [4, 10, 1, 3], [4, 10, 0], [8], [0, 1]] ∧
      (computeSegmentationFromTrimap sampleExtMark.specEstimator 4 sampleBuilt).map
        (fun p => [p.1.eng.d_alpha_0.data, p.1.eng.d_alpha_1.data, p.1.eng.d_gmm.data,
          p.1.eng.d_terminals.data, p.1.eng.d_top.data, [p.1.eng.current_alpha, p.1.iteration]])
        = some [[1, 0, 1, 1, 1], [8, 8, 0, 1], [4, 10, 1, 1], [4, 10, 0], [8], [0, 1]]) :=
  ⟨by decide, by decide, by decide,
    single_full_resolution_pass sampleExtMark sampleBuilt 2 4 (by decide) (by decide)
      (by decide),
    by decide⟩

/-! ## Ping-pong slots of the two pyramid loops -/

theorem PingPong.step (w h : Nat) (tw th : Arr2 Nat) (cur n : Nat)
    (hp : PingPong w h tw th cur n) :
    PingPong w h (tw.set (1 - (cur ^^^ 1)) (ceilHalf (tw.get (cur ^^^ 1))))
      (th.set (1 - (cur ^^^ 1)) (ceilHalf (th.get (cur ^^^ 1)))) (cur ^^^ 1) (n + 1) := by
  obtain ⟨slot, wc, hc, wn, hn⟩ := hp
  have hcur : cur = 0 ∨ cur = 1 := by omega
  rcases hcur with c | c
  · subst c
    have h01 : (0 : Nat) ^^^ 1 = 1 := rfl
    refine ⟨?_, ?_, ?_, ?_, ?_⟩
    · rw [h01]; omega
    all_goals (clear slot; simp_all [Arr2.get, Arr2.set, chainLevel, ceilHalf])
  · subst c
    have h11 : (1 : Nat) ^^^ 1 = 0 := rfl
    refine ⟨?_, ?_, ?_, ?_, ?_⟩
    · rw [h11]; omega
    all_goals (clear slot; simp_all [Arr2.get, Arr2.set, chainLevel, ceilHalf])

theorem createSmallImage_entry_pingpong (K : Ext) (e : Engine) :
    PingPong e.size.width e.size.height (createSmallImage_entry K e).1.temp_width
      (createSmallImage_entry K e).1.temp_height (createSmallImage_entry K e).1.current 1 := by
  constructor <;> simp [createSmallImage_entry, Arr2.get, chainLevel, ceilHalf]

theorem createSmallImage_body_pingpong (K : Ext) (w h : Nat) (s : SmallImageLocals) (n : Nat)
    (hs : PingPong w h s.temp_width s.temp_height s.current n) :
    PingPong w h (createSmallImage_body K s).temp_width (createSmallImage_body K s).temp_height
      (createSmallImage_body K s).current (n + 1) :=
  PingPong.step w h s.temp_width s.temp_height s.current n hs

theorem createSmallTrimap_entry_pingpong (K : Ext) (e : Engine) :
    PingPong e.size.width e.size.height (createSmallTrimap_entry K e).temp_width
      (createSmallTrimap_entry K e).temp_height
      (createSmallTrimap_entry K e).eng.small_trimap_idx 1 := by
  constructor <;>
    simp [createSmallTrimap_entry, Engine.write_d_small_trimap, Arr2.get, chainLevel, ceilHalf]

theorem createSmallTrimap_body_pingpong (K : Ext) (w h : Nat) (s : SmallTrimapLocals) (n : Nat)
    (hs : PingPong w h s.temp_width s.temp_height s.eng.small_trimap_idx n) :
    PingPong w h (createSmallTrimap_body K s).temp_width
      (createSmallTrimap_body K s).temp_height
      (createSmallTrimap_body K s).eng.small_trimap_idx (n + 1) :=
  PingPong.step w h s.temp_width s.temp_height s.eng.small_trimap_idx n hs

theorem createSmallTrimap_body_small_size (K : Ext) (s : SmallTrimapLocals) :
    (createSmallTrimap_body K s).eng.small_size = s.eng.small_size := by
  simp [createSmallTrimap_body, Engine.write_d_small_trimap]

/-! ## The coarse trimap and the coarse image -/

theorem chainLevel_fst_succ_le (w h n : Nat) :
    (chainLevel w h (n + 1)).1 ≤ (chainLevel w h n).1 := by
  simp only [chainLevel]
  omega

theorem chainLevel_snd_succ_le (w h n : Nat) :
    (chainLevel w h (n + 1)).2 ≤ (chainLevel w h n).2 := by
  simp only [chainLevel]
  omega

theorem chainLevel_antitone (w h : Nat) (j d : Nat) :
    (chainLevel w h (j + d)).1 ≤ (chainLevel w h j).1 ∧
      (chainLevel w h (j + d)).2 ≤ (chainLevel w h j).2 := by
  induction d with
  | zero => exact ⟨Nat.le_refl _, Nat.le_refl _⟩
  | succ d ih =>
    have h1 := chainLevel_fst_succ_le w h (j + d)
    have h2 := chainLevel_snd_succ_le w h (j + d)
    have e : j + (d + 1) = j + d + 1 := by omega
    rw [e]
    omega

theorem chainLevel_fst_strict (w h j k : Nat) (hjk : j < k) (hk : 2 ≤ (chainLevel w h k).1) :
    (chainLevel w h k).1 < (chainLevel w h j).1 := by
  obtain ⟨d, rfl⟩ : ∃ d, k = j + 1 + d := ⟨k - (j + 1), by omega⟩
  have h1 := (chainLevel_antitone w h (j + 1) d).1
  have h2 : 2 ≤ (chainLevel w h (j + 1)).1 := by omega
  have h3 : (chainLevel w h (j + 1)).1 < (chainLevel w h j).1 := by
    simp only [chainLevel] at h2 ⊢
    omega
  omega

theorem createSmallTrimap_loop_stops (K : Ext) (w h target : Nat) (d : Nat) :
    ∀ (fuel : Nat) (s : SmallTrimapLocals) (n : Nat),
      PingPong w h s.temp_width s.temp_height s.eng.small_trimap_idx n →
      s.eng.small_size.width = target →
      (chainLevel w h (n + d)).1 = target →
      (∀ j, n ≤ j → j < n + d → (chainLevel w h j).1 ≠ target) → d ≤ fuel →
      ∃ r, createSmallTrimap_loop K fuel s = some r ∧
        PingPong w h r.temp_width r.temp_height r.eng.small_trimap_idx (n + d) := by
  induction d with
  | zero =>
    intro fuel s n hs hsmall hfit _ _
    have hc : ¬ (s.temp_width.get s.eng.small_trimap_idx ≠ s.eng.small_size.width) := by
      rw [hs.wc, hsmall]
      simpa using hfit
    refine ⟨s, ?_, hs⟩
    cases fuel <;> simp only [createSmallTrimap_loop, if_neg hc]
  | succ d ih =>
    intro fuel s n hs hsmall hfit hne hfuel
    have hc : s.temp_width.get s.eng.small_trimap_idx ≠ s.eng.small_size.width := by
      rw [hs.wc, hsmall]
      exact hne n (Nat.le_refl n) (by omega)
    obtain ⟨f, rfl⟩ : ∃ f, fuel = f + 1 := ⟨fuel - 1, by omega⟩
    have e1 : n + 1 + d = n + (d + 1) := by omega
    obtain ⟨r, hr, hinv⟩ := ih f (createSmallTrimap_body K s) (n + 1)
      (createSmallTrimap_body_pingpong K w h s n hs)
      (by rw [createSmallTrimap_body_small_size]; exact hsmall)
      (by rw [e1]; exact hfit) (fun j h1 h2 => hne j (by omega) (by omega)) (by omega)
    refine ⟨r, ?_, ?_⟩
    · simp only [createSmallTrimap_loop, if_pos hc]
      exact hr
    · rw [← e1]; exact hinv

theorem createSmallTrimap_same_level (K : Ext) (e : Engine) (k fuel : Nat) (hk : 1 ≤ k)
    (hw : e.small_size.width = (chainLevel e.size.width e.size.height k).1)
    (h2 : 2 ≤ e.small_size.width) (hfuel : k ≤ fuel) :
    ∃ r, createSmallTrimap_loop K fuel (createSmallTrimap_entry K e) = some r ∧
      r.temp_width.get r.eng.small_trimap_idx = (chainLevel e.size.width e.size.height k).1 ∧
      r.temp_height.get r.eng.small_trimap_idx = (chainLevel e.size.width e.size.height k).2 := by
  have hk1 : 1 + (k - 1) = k := by omega
  obtain ⟨r, hr, hinv⟩ := createSmallTrimap_loop_stops K e.size.width e.size.height
    e.small_size.width (k - 1) fuel (createSmallTrimap_entry K e) 1
    (createSmallTrimap_entry_pingpong K e)
    (by simp [createSmallTrimap_entry, Engine.write_d_small_trimap])
    (by rw [hk1]; exact hw.symm)
    (fun j h1 hj heq => by
      have := chainLevel_fst_strict e.size.width e.size.height j k (by omega) (by omega)
      omega)
    (by omega)
  rw [hk1] at hinv
  exact ⟨r, hr, hinv.wc, hinv.hc⟩

/-- C11 (the code diverges from the claim): for the thin frame 1 x 16 the construction
returns with `small_size = (1, 4)`, two halvings; `createSmallTrimap` terminates, but its
loop compares widths only and is left at once, with `small_trimap_idx = 0` and the level
`(1, 8)` of one halving: the coarse trimap plane handed to the seeding phase is 1 x 8
while the coarse image is 1 x 4. -/
theorem coarse_trimap_stops_early :
    (cudaSegmentation sampleExt [10, 20, 30] 4 [0, 1, 2] 1 1 16 4 emptyLedger).isSome = true ∧
      sampleThin.size = ⟨1, 16⟩ ∧ sampleThin.small_size = ⟨1, 4⟩ ∧
      (createSmallTrimap_loop sampleExt 4 (createSmallTrimap_entry sampleExt sampleThin)).map
        (fun s => (s.eng.small_trimap_idx, s.temp_width.get s.eng.small_trimap_idx,
          s.temp_height.get s.eng.small_trimap_idx)) = some (0, 1, 8) ∧
      (createSmallTrimap sampleExt 4 sampleThin).map
        (fun r => (r.d_small_trimap r.small_trimap_idx).data) = some [1, 8, 0, 1] := by
  decide

/-! ## The pitch recorded for the image plane -/

theorem createSmallImage_keeps_pitches (K : Ext) (m fuel : Nat) (e r : Engine)
    (h : createSmallImage K m fuel e = some r) :
    r.image_pitch = e.image_pitch ∧ r.alpha_pitch = e.alpha_pitch ∧ r.pitch = e.pitch ∧
      r.transposed_pitch = e.transposed_pitch := by
  obtain ⟨s, _, rfl⟩ := createSmallImage_eq_some K m fuel e r h
  simp [createSmallImage_exit, createSmallImage_entry]

theorem sampleEngine_eq :
    cudaSegmentation sampleExt [10, 20, 30] 32 [0, 1, 2] 8 8 8 4 emptyLedger
      = some sampleBuilt := by
  have h : sampleEngine.isSome = true := by decide
  show sampleEngine = some (sampleEngine.getD (Engine.unset emptyLedger))
  cases hs : sampleEngine with
  | none => rw [hs] at h; cases h
  | some v => rfl

/-- C12 (counterexample to the claim as stated): the sample engine is constructed with the
caller pitch 32 for an 8 x 8 frame, for whose rows of 32 bytes the allocator grants the
pitch 512; the engine records 32. Likewise the crop call passes the pitch 16 for a 4 x 4
crop, the allocator grants 512, and the engine records 16. -/
theorem image_pitch_counterexample :
    sampleEngine.isSome = true ∧
      sampleBuilt.image_pitch = 32 ∧
      (cudaMallocPitch sampleExt (8 * 4) 8 emptyLedger).pitch = 512 ∧
      (sampleCropCall sampleBuilt).crop_image_pitch = 16 ∧
      (cudaMallocPitch sampleExt (4 * 4) 4 sampleBuilt.dev).pitch = 512 := by
  decide

/-- C12 (as amended): for every caller-supplied pitch, after the constructor the image
pitch recorded in the engine is the caller-supplied `_image_pitch`, whatever pitch the
allocator granted for the image plane, and `updateImage` keeps it; likewise after
`updateImageCrop` the recorded `crop_image_pitch` is the caller-supplied
`_crop_image_pitch`. The pitches recorded for the alpha, graph and transposed planes are
the ones the allocator granted. -/
theorem image_pitch_is_caller_pitch (K : Ext) (image trimap : Plane)
    (_image_pitch _trimap_pitch width height fuel : Nat) (dev : Ledger) (e : Engine)
    (he : cudaSegmentation K image _image_pitch trimap _trimap_pitch width height fuel dev
      = some e)
    (img crop_image : Plane) (_crop_image_pitch crop_width crop_height : Nat) (e2 : Engine) :
    e.image_pitch = _image_pitch ∧
      (updateImage img e).image_pitch = _image_pitch ∧
      (updateImageCrop K crop_image _crop_image_pitch crop_width crop_height e2).crop_image_pitch
        = _crop_image_pitch ∧
      (updateImageCrop K crop_image _crop_image_pitch crop_width crop_height e2).image_pitch
        = e2.image_pitch ∧
      e.alpha_pitch = K.grantedPitch width height ∧
      e.pitch = K.grantedPitch (width * 4) height ∧
      e.transposed_pitch = K.grantedPitch (height * 4) width := by
  obtain ⟨h1, h2, h3, h4⟩ := createSmallImage_keeps_pitches K _ fuel _ e he
  refine ⟨?_, ?_, ?_, ?_, ?_, ?_, ?_⟩
  · rw [h1]; simp [cudaSegmentation_members]
  · show e.image_pitch = _image_pitch
    rw [h1]; simp [cudaSegmentation_members]
  · simp [updateImageCrop]
  · simp [updateImageCrop]
  · rw [h2]; simp [cudaSegmentation_members, cudaMallocPitch]
  · rw [h3]; simp [cudaSegmentation_members, cudaMallocPitch]
  · rw [h4]; simp [cudaSegmentation_members, cudaMallocPitch]

/-- Witness of `image_pitch_is_caller_pitch`: the sample construction. -/
theorem image_pitch_is_caller_pitch_witness :
    cudaSegmentation sampleExt [10, 20, 30] 32 [0, 1, 2] 8 8 8 4 emptyLedger = some sampleBuilt ∧
      sampleBuilt.image_pitch = 32 ∧
      (updateImage [7] sampleBuilt).image_pitch = 32 ∧
      (updateImageCrop sampleExt [5, 6] 16 4 4 sampleBuilt).crop_image_pitch = 16 ∧
      (updateImageCrop sampleExt [5, 6] 16 4 4 sampleBuilt).image_pitch
        = sampleBuilt.image_pitch ∧
      sampleBuilt.alpha_pitch = sampleExt.grantedPitch 8 8 ∧
      sampleBuilt.pitch = sampleExt.grantedPitch (8 * 4) 8 ∧
      sampleBuilt.transposed_pitch = sampleExt.grantedPitch (8 * 4) 8 :=
  ⟨sampleEngine_eq, image_pitch_is_caller_pitch sampleExt [10, 20, 30] [0, 1, 2] 32 8 8 8 4
    emptyLedger sampleBuilt sampleEngine_eq [7] [5, 6] 16 4 4 sampleBuilt⟩

/-! ## Every pyramid level fits the buffer it is written to -/

theorem MAX_eq_max (a b : Nat) : MAX a b = max a b := by
  unfold MAX
  split_ifs <;> omega

theorem ceil_quarter (x : Nat) : ⌈(x : ℚ) / 4⌉₊ = ((x + 1) / 2 + 1) / 2 := by
  apply le_antisymm
  · apply Nat.ceil_le.mpr
    have h1 : x ≤ 4 * (((x + 1) / 2 + 1) / 2) := by omega
    have h2 : (x : ℚ) ≤ ((4 * (((x + 1) / 2 + 1) / 2) : ℕ) : ℚ) := by exact_mod_cast h1
    rw [Nat.cast_mul] at h2
    have h3 : ((4 : ℕ) : ℚ) = 4 := by norm_num
    rw [h3] at h2
    linarith
  · have h := Nat.le_ceil ((x : ℚ) / 4)
    have h2 : (x : ℚ) ≤ ((4 * ⌈(x : ℚ) / 4⌉₊ : ℕ) : ℚ) := by push_cast; linarith
    have h3 : x ≤ 4 * ⌈(x : ℚ) / 4⌉₊ := by exact_mod_cast h2
    omega

theorem ceil_eighth (x : Nat) : ⌈(x : ℚ) / 8⌉₊ = (((x + 1) / 2 + 1) / 2 + 1) / 2 := by
  apply le_antisymm
  · apply Nat.ceil_le.mpr
    have h1 : x ≤ 8 * ((((x + 1) / 2 + 1) / 2 + 1) / 2) := by omega
    have h2 : (x : ℚ) ≤ ((8 * ((((x + 1) / 2 + 1) / 2 + 1) / 2) : ℕ) : ℚ) := by
      exact_mod_cast h1
    rw [Nat.cast_mul] at h2
    have h3 : ((8 : ℕ) : ℚ) = 8 := by norm_num
    rw [h3] at h2
    linarith
  · have h := Nat.le_ceil ((x : ℚ) / 8)
    have h2 : (x : ℚ) ≤ ((8 * ⌈(x : ℚ) / 8⌉₊ : ℕ) : ℚ) := by push_cast; linarith
    have h3 : x ≤ 8 * ⌈(x : ℚ) / 8⌉₊ := by exact_mod_cast h2
    omega

theorem createSmallImage_loop_continue (K : Ext) (w h m : Nat) (s : SmallImageLocals) (n f : Nat)
    (hp : PingPong w h s.temp_width s.temp_height s.current n)
    (hn : ¬ levelFits m (chainLevel w h n)) :
    createSmallImage_loop K m (f + 1) s = createSmallImage_loop K m f (createSmallImage_body K s) := by
  have hc : s.temp_width.get s.current > m ∨ s.temp_height.get s.current > m := by
    rw [hp.wc, hp.hc]
    unfold levelFits at hn
    omega
  simp only [createSmallImage_loop, if_pos hc]

theorem createSmallImage_loop_exit (K : Ext) (w h m : Nat) (s : SmallImageLocals) (n f : Nat)
    (hp : PingPong w h s.temp_width s.temp_height s.current n)
    (hn : levelFits m (chainLevel w h n)) :
    createSmallImage_loop K m f s = some s := by
  have hc : ¬ (s.temp_width.get s.current > m ∨ s.temp_height.get s.current > m) := by
    rw [hp.wc, hp.hc]
    unfold levelFits at hn
    omega
  cases f <;> simp only [createSmallImage_loop, if_neg hc]

theorem createSmallImage_exit_small_size (s : SmallImageLocals) (e : Engine) :
    (createSmallImage_exit s e).small_size =
      ⟨s.temp_width.get s.current, s.temp_height.get s.current⟩ := by
  simp [createSmallImage_exit]

theorem cudaSegmentation_members_size (K : Ext) (image trimap : Plane)
    (_image_pitch _trimap_pitch width height : Nat) (dev : Ledger) :
    (cudaSegmentation_members K image _image_pitch trimap _trimap_pitch width height dev).size
      = ⟨width, height⟩ := by
  simp [cudaSegmentation_members]

/-- The closed form of the coarse size in exact arithmetic: one pass of the loop when 4
divides `max(width, height)`, two passes otherwise. -/
theorem coarse_size_closed_form_exact (K : Ext) (image trimap : Plane)
    (_image_pitch _trimap_pitch width height fuel : Nat) (dev : Ledger)
    (hM : 4 ≤ max width height) (hfuel : 2 ≤ fuel) :
    (4 ∣ max width height →
      createSmallImage_loop K (MAX (width / 4) (height / 4)) fuel
          (createSmallImage_entry K (cudaSegmentation_members K image _image_pitch trimap
            _trimap_pitch width height dev)).1
        = some ((createSmallImage_body K)^[1] (createSmallImage_entry K
            (cudaSegmentation_members K image _image_pitch trimap _trimap_pitch width height
              dev)).1) ∧
      ∃ e, cudaSegmentation K image _image_pitch trimap _trimap_pitch width height fuel dev
          = some e ∧
        e.small_size = ⟨⌈(width : ℚ) / 4⌉₊, ⌈(height : ℚ) / 4⌉₊⟩) ∧
    (¬ 4 ∣ max width height →
      createSmallImage_loop K (MAX (width / 4) (height / 4)) fuel
          (createSmallImage_entry K (cudaSegmentation_members K image _image_pitch trimap
            _trimap_pitch width height dev)).1
        = some ((createSmallImage_body K)^[2] (createSmallImage_entry K
            (cudaSegmentation_members K image _image_pitch trimap _trimap_pitch width height
              dev)).1) ∧
      ∃ e, cudaSegmentation K image _image_pitch trimap _trimap_pitch width height fuel dev
          = some e ∧
        e.small_size = ⟨⌈(width : ℚ) / 8⌉₊, ⌈(height : ℚ) / 8⌉₊⟩) := by
  have hp0 : PingPong width height
      (createSmallImage_entry K (cudaSegmentation_members K image _image_pitch trimap
        _trimap_pitch width height dev)).1.temp_width
      (createSmallImage_entry K (cudaSegmentation_members K image _image_pitch trimap
        _trimap_pitch width height dev)).1.temp_height
      (createSmallImage_entry K (cudaSegmentation_members K image _image_pitch trimap
        _trimap_pitch width height dev)).1.current 1 :=
    createSmallImage_entry_pingpong K (cudaSegmentation_members K image _image_pitch trimap
      _trimap_pitch width height dev)
  have hp1 := createSmallImage_body_pingpong K width height _ 1 hp0
  have hp2 := createSmallImage_body_pingpong K width height _ 2 hp1
  obtain ⟨f, rfl⟩ : ∃ f, fuel = f + 2 := ⟨fuel - 2, by omega⟩
  have hn1 : ¬ levelFits (MAX (width / 4) (height / 4)) (chainLevel width height 1) := by
    rw [MAX_eq_max]
    simp only [levelFits, chainLevel]
    omega
  constructor
  · intro hdiv
    have hf2 : levelFits (MAX (width / 4) (height / 4)) (chainLevel width height 2) := by
      rw [MAX_eq_max]
      simp only [levelFits, chainLevel]
      omega
    have hloop := (createSmallImage_loop_continue K width height _ _ 1 (f + 1) hp0 hn1).trans
      (createSmallImage_loop_exit K width height _ _ 2 (f + 1) hp1 hf2)
    refine ⟨hloop, ?_⟩
    simp only [cudaSegmentation, createSmallImage, hloop]
    refine ⟨_, rfl, ?_⟩
    rw [createSmallImage_exit_small_size, hp1.wc, hp1.hc, ceil_quarter, ceil_quarter]
    simp [chainLevel]
  · intro hdiv
    have hn2 : ¬ levelFits (MAX (width / 4) (height / 4)) (chainLevel width height 2) := by
      rw [MAX_eq_max]
      simp only [levelFits, chainLevel]
      omega
    have hf3 : levelFits (MAX (width / 4) (height / 4)) (chainLevel width height 3) := by
      rw [MAX_eq_max]
      simp only [levelFits, chainLevel]
      omega
    have hloop := ((createSmallImage_loop_continue K width height _ _ 1 (f + 1) hp0 hn1).trans
      (createSmallImage_loop_continue K width height _ _ 2 f hp1 hn2)).trans
      (createSmallImage_loop_exit K width height _ _ 3 f hp2 hf3)
    refine ⟨hloop, ?_⟩
    simp only [cudaSegmentation, createSmallImage, hloop]
    refine ⟨_, rfl, ?_⟩
    rw [createSmallImage_exit_small_size, hp2.wc, hp2.hc, ceil_eighth, ceil_eighth]
    simp [chainLevel]

/-! ## The coarse size with the halvings in single precision -/

theorem int_to_float_eq (x : Nat) (h : x ≤ 16777216) : int_to_float x = x := by
  by_cases hx : x < 16777216
  · simp [int_to_float, float_ulp, hx, Nat.mod_one]
  · have hx2 : x = 16777216 := by omega
    subst hx2
    decide

theorem ceilHalf_f32_eq (x : Nat) (h : x ≤ 16777216) : ceilHalf_f32 x = ceilHalf x := by
  simp [ceilHalf_f32, ceilHalf, int_to_float_eq x h]

theorem ceilHalf_le_bound (x : Nat) (h : x ≤ 16777216) : ceilHalf x ≤ 16777216 := by
  unfold ceilHalf
  omega

theorem ExactRange.get_width (s : SmallImageLocals) (hs : ExactRange s) (i : Nat) :
    s.temp_width.get i ≤ 16777216 := by
  unfold Arr2.get
  split_ifs
  · exact hs.1
  · exact hs.2.1

theorem ExactRange.get_height (s : SmallImageLocals) (hs : ExactRange s) (i : Nat) :
    s.temp_height.get i ≤ 16777216 := by
  unfold Arr2.get
  split_ifs
  · exact hs.2.2.1
  · exact hs.2.2.2

theorem createSmallImage_body_f32_eq (K : Ext) (s : SmallImageLocals) (hs : ExactRange s) :
    createSmallImage_body_f32 K s = createSmallImage_body K s := by
  simp only [createSmallImage_body_f32, createSmallImage_body,
    ceilHalf_f32_eq _ (hs.get_width s _), ceilHalf_f32_eq _ (hs.get_height s _)]

theorem createSmallImage_body_exact (K : Ext) (s : SmallImageLocals) (hs : ExactRange s) :
    ExactRange (createSmallImage_body K s) := by
  have hw := ceilHalf_le_bound _ (hs.get_width s (s.current ^^^ 1))
  have hh := ceilHalf_le_bound _ (hs.get_height s (s.current ^^^ 1))
  obtain ⟨h1, h2, h3, h4⟩ := hs
  unfold ExactRange createSmallImage_body Arr2.set
  refine ⟨?_, ?_, ?_, ?_⟩ <;> (simp only []; split_ifs <;> assumption)

theorem createSmallImage_loop_f32_eq (K : Ext) (m : Nat) :
    ∀ (fuel : Nat) (s : SmallImageLocals), ExactRange s →
      createSmallImage_loop_f32 K m fuel s = createSmallImage_loop K m fuel s := by
  intro fuel
  induction fuel with
  | zero =>
    intro s _
    simp only [createSmallImage_loop_f32, createSmallImage_loop]
  | succ f ih =>
    intro s hs
    simp only [createSmallImage_loop_f32, createSmallImage_loop]
    rw [createSmallImage_body_f32_eq K s hs, ih _ (createSmallImage_body_exact K s hs)]

theorem createSmallImage_iterate_f32_eq (K : Ext) :
    ∀ (n : Nat) (s : SmallImageLocals), ExactRange s →
      (createSmallImage_body_f32 K)^[n] s = (createSmallImage_body K)^[n] s := by
  intro n
  induction n with
  | zero => intro s _; rfl
  | succ n ih =>
    intro s hs
    rw [Function.iterate_succ_apply, Function.iterate_succ_apply,
      createSmallImage_body_f32_eq K s hs, ih _ (createSmallImage_body_exact K s hs)]

theorem createSmallImage_entry_f32_eq (K : Ext) (e : Engine) (hw : e.size.width ≤ 16777216)
    (hh : e.size.height ≤ 16777216) :
    createSmallImage_entry_f32 K e = createSmallImage_entry K e := by
  simp only [createSmallImage_entry_f32, createSmallImage_entry, ceilHalf_f32_eq _ hw,
    ceilHalf_f32_eq _ hh, ceilHalf_f32_eq _ (ceilHalf_le_bound _ hw),
    ceilHalf_f32_eq _ (ceilHalf_le_bound _ hh)]

theorem createSmallImage_entry_exact (K : Ext) (e : Engine) (hw : e.size.width ≤ 16777216)
    (hh : e.size.height ≤ 16777216) : ExactRange (createSmallImage_entry K e).1 :=
  ⟨ceilHalf_le_bound _ hw, ceilHalf_le_bound _ (ceilHalf_le_bound _ hw),
    ceilHalf_le_bound _ hh, ceilHalf_le_bound _ (ceilHalf_le_bound _ hh)⟩

theorem createSmallImage_f32_eq (K : Ext) (m fuel : Nat) (e : Engine)
    (hw : e.size.width ≤ 16777216) (hh : e.size.height ≤ 16777216) :
    createSmallImage_f32 K m fuel e = createSmallImage K m fuel e := by
  simp only [createSmallImage_f32, createSmallImage, createSmallImage_entry_f32_eq K e hw hh,
    createSmallImage_loop_f32_eq K m fuel _ (createSmallImage_entry_exact K e hw hh)]

/-- C18 (counterexample to the claim as stated): for the frame 16777217 x 1 the bound is
`MAX(16777217/4, 1/4) = 4194304` and 4 does not divide `max(width, height)`, so the claim
gives three halvings and `small_size = (2097153, 1)`. The conversion of 16777217 to
`float` yields 16777216, the first halving is 8388608 and the second 4194304, which fits:
the loop is left after one pass, two halvings, with `small_size = (4194304, 1)`. -/
theorem coarse_size_float_counterexample :
    4 ≤ max 16777217 1 ∧ ¬ 4 ∣ max 16777217 1 ∧
      MAX (16777217 / 4) (1 / 4) = 4194304 ∧
      int_to_float 16777217 = 16777216 ∧
      ceilHalf_f32 16777217 = 8388608 ∧
      (createSmallImage_loop_f32 sampleExt (MAX (16777217 / 4) (1 / 4)) 4
          (createSmallImage_entry_f32 sampleExt (cudaSegmentation_members sampleExt [10, 20, 30]
            4 [0, 1, 2] 1 16777217 1 emptyLedger)).1).map
        (fun s => [s.current, s.temp_width.get s.current, s.temp_height.get s.current])
        = some [1, 4194304, 1] ∧
      (cudaSegmentation_f32 sampleExt [10, 20, 30] 4 [0, 1, 2] 1 16777217 1 4 emptyLedger).map
        (fun e => e.small_size) = some ⟨4194304, 1⟩ ∧
      (⟨⌈(16777217 : ℚ) / 8⌉₊, ⌈(1 : ℚ) / 8⌉₊⟩ : NppiSize) = ⟨2097153, 1⟩ := by
  refine ⟨by decide, by decide, by decide, by decide, by decide, by decide, by decide, ?_⟩
  have h1 := ceil_eighth 16777217
  have h2 := ceil_eighth 1
  norm_num at h1 h2
  rw [h1, h2]

/-- C18 (as amended): for every frame with `max(width, height) ≥ 4` and width and height
at most `2^24 = 16777216`, at construction `createSmallImage(MAX(width/4, height/4))`,
with its halvings `(int)ceil(x * 0.5f)` evaluated in single precision, leaves its loop
after exactly one pass, that is after two halvings, when `max(width, height)` is divisible
by 4, and then `small_size = (ceil(width/4), ceil(height/4))`; otherwise it leaves its
loop after exactly two passes, three halvings, and
`small_size = (ceil(width/8), ceil(height/8))`. Any fuel of at least 2 suffices. -/
theorem coarse_size_closed_form (K : Ext) (image trimap : Plane)
    (_image_pitch _trimap_pitch width height fuel : Nat) (dev : Ledger)
    (hM : 4 ≤ max width height) (hw : width ≤ 16777216) (hh : height ≤ 16777216)
    (hfuel : 2 ≤ fuel) :
    (4 ∣ max width height →
      createSmallImage_loop_f32 K (MAX (width / 4) (height / 4)) fuel
          (createSmallImage_entry_f32 K (cudaSegmentation_members K image _image_pitch trimap
            _trimap_pitch width height dev)).1
        = some ((createSmallImage_body_f32 K)^[1] (createSmallImage_entry_f32 K
            (cudaSegmentation_members K image _image_pitch trimap _trimap_pitch width height
              dev)).1) ∧
      ∃ e, cudaSegmentation_f32 K image _image_pitch trimap _trimap_pitch width height fuel dev
          = some e ∧
        e.small_size = ⟨⌈(width : ℚ) / 4⌉₊, ⌈(height : ℚ) / 4⌉₊⟩) ∧
    (¬ 4 ∣ max width height →
      createSmallImage_loop_f32 K (MAX (width / 4) (height / 4)) fuel
          (createSmallImage_entry_f32 K (cudaSegmentation_members K image _image_pitch trimap
            _trimap_pitch width height dev)).1
        = some ((createSmallImage_body_f32 K)^[2] (createSmallImage_entry_f32 K
            (cudaSegmentation_members K image _image_pitch trimap _trimap_pitch width height
              dev)).1) ∧
      ∃ e, cudaSegmentation_f32 K image _image_pitch trimap _trimap_pitch width height fuel dev
          = some e ∧
        e.small_size = ⟨⌈(width : ℚ) / 8⌉₊, ⌈(height : ℚ) / 8⌉₊⟩) := by
  have hsw : (cudaSegmentation_members K image _image_pitch trimap _trimap_pitch width height
      dev).size.width ≤ 16777216 := by
    rw [cudaSegmentation_members_size]; exact hw
  have hsh : (cudaSegmentation_members K image _image_pitch trimap _trimap_pitch width height
      dev).size.height ≤ 16777216 := by
    rw [cudaSegmentation_members_size]; exact hh
  have hx := createSmallImage_entry_exact K _ hsw hsh
  have hc : cudaSegmentation_f32 K image _image_pitch trimap _trimap_pitch width height fuel dev
      = cudaSegmentation K image _image_pitch trimap _trimap_pitch width height fuel dev := by
    unfold cudaSegmentation_f32 cudaSegmentation
    exact createSmallImage_f32_eq K _ fuel _ hsw hsh
  rw [hc, createSmallImage_entry_f32_eq K _ hsw hsh,
    createSmallImage_loop_f32_eq K _ fuel _ hx, createSmallImage_iterate_f32_eq K 1 _ hx,
    createSmallImage_iterate_f32_eq K 2 _ hx]
  exact coarse_size_closed_form_exact K image trimap _image_pitch _trimap_pitch width height
    fuel dev hM hfuel

/-- Witness of `coarse_size_closed_form`: an 8 x 8 frame (two halvings, coarse size
2 x 2) and a 6 x 5 frame (three halvings, coarse size 1 x 1), both with fuel 4. -/
theorem coarse_size_closed_form_witness :
    (4 ≤ max 8 8 ∧ 8 ≤ 16777216 ∧ 8 ≤ 16777216 ∧ 2 ≤ 4 ∧ 4 ∣ max 8 8 ∧
      createSmallImage_loop_f32 sampleExt (MAX (8 / 4) (8 / 4)) 4
          (createSmallImage_entry_f32 sampleExt (cudaSegmentation_members sampleExt [10, 20, 30] 32 [0, 1, 2]
            8 8 8 emptyLedger)).1
        = some ((createSmallImage_body_f32 sampleExt)^[1] (createSmallImage_entry_f32 sampleExt
            (cudaSegmentation_members sampleExt [10, 20, 30] 32 [0, 1, 2] 8 8 8
              emptyLedger)).1) ∧
      ∃ e, cudaSegmentation_f32 sampleExt [10, 20, 30] 32 [0, 1, 2] 8 8 8 4 emptyLedger
          = some e ∧
        e.small_size = ⟨⌈(8 : ℚ) / 4⌉₊, ⌈(8 : ℚ) / 4⌉₊⟩) ∧
    (4 ≤ max 6 5 ∧ 6 ≤ 16777216 ∧ 5 ≤ 16777216 ∧ 2 ≤ 4 ∧ ¬ 4 ∣ max 6 5 ∧
      createSmallImage_loop_f32 sampleExt (MAX (6 / 4) (5 / 4)) 4
          (createSmallImage_entry_f32 sampleExt (cudaSegmentation_members sampleExt [10, 20, 30] 24 [0, 1, 2]
            6 6 5 emptyLedger)).1
        = some ((createSmallImage_body_f32 sampleExt)^[2] (createSmallImage_entry_f32 sampleExt
            (cudaSegmentation_members sampleExt [10, 20, 30] 24 [0, 1, 2] 6 6 5
              emptyLedger)).1) ∧
      ∃ e, cudaSegmentation_f32 sampleExt [10, 20, 30] 24 [0, 1, 2] 6 6 5 4 emptyLedger
          = some e ∧
        e.small_size = ⟨⌈(6 : ℚ) / 8⌉₊, ⌈(5 : ℚ) / 8⌉₊⟩) :=
  ⟨⟨by decide, by decide, by decide, by decide, by decide,
      (coarse_size_closed_form sampleExt [10, 20, 30] [0, 1, 2] 32 8 8 8 4 emptyLedger
        (by decide) (by decide) (by decide) (by decide)).1 (by decide)⟩,
    ⟨by decide, by decide, by decide, by decide, by decide,
      (coarse_size_closed_form sampleExt [10, 20, 30] [0, 1, 2] 24 6 6 5 4 emptyLedger
        (by decide) (by decide) (by decide) (by decide)).2 (by decide)⟩⟩

/-! ## The coarse image is the pyramid of the image given at construction -/

theorem createSmallImage_entry_data (K : Ext) (e : Engine) :
    PyrData K e.d_image.data e.image_pitch e.size.width e.size.height
      (createSmallImage_entry K e).1 1 := by
  refine ⟨createSmallImage_entry_pingpong K e, Nat.le_refl 1, ?_, ?_, ?_⟩
  · simp [createSmallImage_entry, Arr2.get, pyramidLevel, pyramidPitch, chainLevel, ceilHalf,
      cudaMallocPitch]
  · simp [createSmallImage_entry, cudaMallocPitch]
  · simp [createSmallImage_entry, cudaMallocPitch]

theorem createSmallImage_body_data (K : Ext) (image : Plane) (ip w h : Nat) (s : SmallImageLocals)
    (n : Nat) (hs : PyrData K image ip w h s n) :
    PyrData K image ip w h (createSmallImage_body K s) (n + 1) := by
  obtain ⟨dims, pos, data, p0, p1⟩ := hs
  refine ⟨createSmallImage_body_pingpong K w h s n dims, by omega, ?_, ?_, ?_⟩
  · have hn0 : n ≠ 0 := by omega
    have hslot := dims.slot
    have hcur : s.current = 0 ∨ s.current = 1 := by omega
    rcases hcur with c | c
    · have hodd : n % 2 = 1 := by omega
      have hev : (n + 1) % 2 = 0 := by omega
      have hwc := dims.wc
      have hhc := dims.hc
      have hwn := dims.wn
      have hhn := dims.hn
      rw [c] at hwc hhc hwn hhn data
      simp only [Arr2.get] at hwc hhc hwn hhn data
      simp [createSmallImage_body, Arr2.get, Arr2.set, c, pyramidLevel, pyramidPitch, hn0, hodd,
        hev, p0, p1, ← data, ← hwc, ← hhc]
      simp at hwn hhn
      rw [hwn, hhn]
    · have hev : n % 2 = 0 := by omega
      have hodd : (n + 1) % 2 = 1 := by omega
      have hwc := dims.wc
      have hhc := dims.hc
      have hwn := dims.wn
      have hhn := dims.hn
      rw [c] at hwc hhc hwn hhn data
      simp only [Arr2.get] at hwc hhc hwn hhn data
      simp [createSmallImage_body, Arr2.get, Arr2.set, c, pyramidLevel, pyramidPitch, hn0, hodd,
        hev, p0, p1, ← data, ← hwc, ← hhc]
      simp at hwn hhn
      rw [hwn, hhn]
  · simpa [createSmallImage_body] using p0
  · simpa [createSmallImage_body] using p1

theorem createSmallImage_loop_data (K : Ext) (image : Plane) (ip w h m : Nat) :
    ∀ (fuel : Nat) (s r : SmallImageLocals) (n : Nat), PyrData K image ip w h s n →
      createSmallImage_loop K m fuel s = some r → ∃ k, n ≤ k ∧ PyrData K image ip w h r k := by
  intro fuel
  induction fuel with
  | zero =>
    intro s r n hs hl
    simp only [createSmallImage_loop] at hl
    split_ifs at hl
    cases hl
    exact ⟨n, Nat.le_refl n, hs⟩
  | succ f ih =>
    intro s r n hs hl
    simp only [createSmallImage_loop] at hl
    split_ifs at hl
    · obtain ⟨k, hk, hr⟩ := ih _ r (n + 1) (createSmallImage_body_data K image ip w h s n hs) hl
      exact ⟨k, by omega, hr⟩
    · cases hl
      exact ⟨n, Nat.le_refl n, hs⟩

theorem cudaSegmentation_coarse_image (K : Ext) (image trimap : Plane)
    (_image_pitch _trimap_pitch width height fuel : Nat) (dev : Ledger) (e : Engine)
    (he : cudaSegmentation K image _image_pitch trimap _trimap_pitch width height fuel dev
      = some e) :
    ∃ k, 1 ≤ k ∧ e.d_small_image.data = pyramidLevel K image _image_pitch width height k ∧
      e.small_size = ⟨(chainLevel width height k).1, (chainLevel width height k).2⟩ ∧
      e.size = ⟨width, height⟩ := by
  unfold cudaSegmentation at he
  obtain ⟨s, hs, rfl⟩ := createSmallImage_eq_some K _ fuel _ e he
  have h0 : PyrData K image _image_pitch width height
      (createSmallImage_entry K (cudaSegmentation_members K image _image_pitch trimap
        _trimap_pitch width height dev)).1 1 :=
    createSmallImage_entry_data K (cudaSegmentation_members K image _image_pitch trimap
      _trimap_pitch width height dev)
  obtain ⟨k, hk, hr⟩ := createSmallImage_loop_data K image _image_pitch width height _ fuel _ s 1
    h0 hs
  refine ⟨k, hk, ?_, ?_, ?_⟩
  · rw [← hr.data]
    simp [createSmallImage_exit]
  · rw [createSmallImage_exit_small_size, hr.dims.wc, hr.dims.hc]
  · simp [createSmallImage_exit, createSmallImage_entry, cudaSegmentation_members]

theorem createSmallTrimap_loop_small_image (K : Ext) :
    ∀ (fuel : Nat) (s r : SmallTrimapLocals), createSmallTrimap_loop K fuel s = some r →
      r.eng.d_small_image = s.eng.d_small_image := by
  intro fuel
  induction fuel with
  | zero =>
    intro s r h
    simp only [createSmallTrimap_loop] at h
    split_ifs at h
    cases h
    rfl
  | succ f ih =>
    intro s r h
    simp only [createSmallTrimap_loop] at h
    split_ifs at h
    · rw [ih _ r h]
      simp [createSmallTrimap_body, Engine.write_d_small_trimap]
    · cases h
      rfl

theorem estimate_model_small_image (K : Ext) (e : Engine) (img : Plane) (ip w h : Nat) :
    (estimate_model K e img ip w h).d_small_image = e.d_small_image := by
  simp [estimate_model, Engine.write_d_alpha]

theorem seed_body_small_image (K : Ext) (r : Run) :
    (seed_body K r).eng.d_small_image = r.eng.d_small_image := by
  simp [seed_body, estimate_model_small_image, Engine.write_d_alpha, Engine.writeEdges]

theorem seed_phase_small_image (K : Ext) (e1 : Engine) :
    (seed_phase K e1).eng.d_small_image = e1.d_small_image := by
  simp [seed_phase, full_model, seed_upsample, estimate_model_small_image,
    seed_body_small_image, Engine.write_d_alpha]

theorem refine_body_small_image (K : Ext) (r : Run) (hi : r.iteration = 0) :
    (refine_body K r).1.eng.d_small_image = r.eng.d_small_image := by
  rw [refine_body_eng K r hi, estimate_model_small_image]
  simp [full_pass, Engine.write_d_alpha, Engine.writeEdges]

theorem computeSegmentationFromTrimap_small_image (K : Ext) (fuel : Nat) (e : Engine) (r : Run)
    (x : LoopExit) (h : computeSegmentationFromTrimap K fuel e = some (r, x)) :
    r.eng.d_small_image = e.d_small_image := by
  unfold computeSegmentationFromTrimap seeding createSmallTrimap at h
  cases hl : createSmallTrimap_loop K fuel
      (createSmallTrimap_entry K { e with current_alpha := 0 }) with
  | none => simp [hl] at h
  | some s =>
    simp only [hl] at h
    have h1 := createSmallTrimap_loop_small_image K fuel _ s hl
    cases fuel with
    | zero => simp [refine_loop, seed_phase_iteration] at h
    | succ f =>
      rw [refine_loop_first_pass K _ (seed_phase_iteration K s.eng) f] at h
      simp only [Option.some.injEq, Prod.mk.injEq] at h
      obtain ⟨rfl, _⟩ := h
      rw [refine_body_small_image K _ (seed_phase_iteration K s.eng),
        seed_phase_small_image, h1]
      simp [createSmallTrimap_entry, Engine.write_d_small_trimap]

theorem sampleKeepBuilt_eq :
    cudaSegmentation sampleExtKeep [10, 20, 30] 32 [0, 1, 2] 8 8 8 4 emptyLedger
      = some sampleKeepBuilt := by
  have h : (cudaSegmentation sampleExtKeep [10, 20, 30] 32 [0, 1, 2] 8 8 8 4
      emptyLedger).isSome = true := by decide
  unfold sampleKeepBuilt
  revert h
  generalize cudaSegmentation sampleExtKeep [10, 20, 30] 32 [0, 1, 2] 8 8 8 4 emptyLedger = o
  intro h
  cases o with
  | none => cases h
  | some v => rfl

/-- C16 (counterexample to the claim as stated): the engine is constructed from the image
`[10, 20, 30]` with a downscale that keeps the first pixel; after `updateImage [77, 78]`
the full-resolution image is `[77, 78]`, whose pyramid at the coarse level is
`[77, 2, 2]`, but `d_small_image` still is `[10, 2, 2]`, the pyramid of the construction
image, and it is what `computeSegmentationFromTrimap` works on and leaves. -/
theorem coarse_image_stale_counterexample :
    (cudaSegmentation sampleExtKeep [10, 20, 30] 32 [0, 1, 2] 8 8 8 4 emptyLedger).isSome
        = true ∧
      sampleKeepBuilt.small_size = ⟨2, 2⟩ ∧
      (updateImage [77, 78] sampleKeepBuilt).d_image.data = [77, 78] ∧
      (updateImage [77, 78] sampleKeepBuilt).d_small_image.data = [10, 2, 2] ∧
      pyramidLevel sampleExtKeep [77, 78] 32 8 8 2 = [77, 2, 2] ∧
      pyramidLevel sampleExtKeep [10, 20, 30] 32 8 8 2 = [10, 2, 2] ∧
      (computeSegmentationFromTrimap sampleExtKeep 4 (updateImage [77, 78] sampleKeepBuilt)).map
        (fun r => r.1.eng.d_small_image.data) = some [10, 2, 2] := by
  decide

/-- C16 (as amended): after construction the coarse image `d_small_image` is a level
`k ≥ 1` of the pyramid downscale of the image given at construction, of size `small_size`;
every public operation (`updateImage`, `updateTrimap`, `updateTrimapCrop`,
`updateImageCrop`, `updateSegmentation`, `updateSegmentationCrop`,
`computeSegmentationFromTrimap`) leaves `d_small_image` as it finds it; so after
`updateImage(img)` a following `computeSegmentationFromTrimap` returns (with any fuel of
at least `k`) having worked on the coarse image of the construction image, which it
leaves in place, while `d_image` holds `img`. -/
theorem coarse_image_of_construction (K : Ext) (image trimap : Plane)
    (_image_pitch _trimap_pitch width height fuel : Nat) (dev : Ledger) (e : Engine)
    (he : cudaSegmentation K image _image_pitch trimap _trimap_pitch width height fuel dev
      = some e) :
    (∃ k, 1 ≤ k ∧ e.d_small_image.data = pyramidLevel K image _image_pitch width height k ∧
      e.small_size = ⟨(chainLevel width height k).1, (chainLevel width height k).2⟩ ∧
      ∀ img fuel2, k ≤ fuel2 →
        ∃ r x, computeSegmentationFromTrimap K fuel2 (updateImage img e) = some (r, x) ∧
          (updateImage img e).d_image.data = img ∧
          (updateImage img e).d_small_image = e.d_small_image ∧
          r.eng.d_small_image = e.d_small_image) ∧
    (∀ (e2 : Engine) (img tri ctri : Plane) (p cw ch : Nat),
      (updateImage img e2).d_small_image = e2.d_small_image ∧
      (updateTrimap tri e2).d_small_image = e2.d_small_image ∧
      (updateTrimapCrop tri ctri p e2).d_small_image = e2.d_small_image ∧
      (updateImageCrop K img p cw ch e2).d_small_image = e2.d_small_image ∧
      (updateSegmentation K e2).d_small_image = e2.d_small_image ∧
      (updateSegmentationCrop K e2).d_small_image = e2.d_small_image ∧
      ∀ fuel2 r x, computeSegmentationFromTrimap K fuel2 e2 = some (r, x) →
        r.eng.d_small_image = e2.d_small_image) := by
  obtain ⟨k, hk, hdata, hsmall, hsize⟩ := cudaSegmentation_coarse_image K image trimap
    _image_pitch _trimap_pitch width height fuel dev e he
  refine ⟨⟨k, hk, hdata, hsmall, ?_⟩, ?_⟩
  · intro img fuel2 hf
    have hchain : (updateImage img e).small_size.width
        = (chainLevel (updateImage img e).size.width (updateImage img e).size.height k).1 := by
      show e.small_size.width = (chainLevel e.size.width e.size.height k).1
      rw [hsmall, hsize]
    obtain ⟨e1, _, _, hrun⟩ := computeSegmentationFromTrimap_eq K (updateImage img e) k fuel2
      hk hchain hf
    exact ⟨_, _, hrun, rfl, rfl,
      computeSegmentationFromTrimap_small_image K fuel2 (updateImage img e) _ _ hrun⟩
  · intro e2 img tri ctri p cw ch
    refine ⟨rfl, rfl, rfl, ?_, ?_, ?_, ?_⟩
    · simp [updateImageCrop]
    · simp [updateSegmentation, Engine.write_d_alpha, Engine.writeEdges]
    · simp [updateSegmentationCrop, Engine.write_d_crop_alpha, Engine.writeCropEdges]
    · intro fuel2 r x h
      exact computeSegmentationFromTrimap_small_image K fuel2 e2 r x h

/-- Witness of `coarse_image_of_construction`: the 8 x 8 frame constructed with
`sampleExtKeep`. -/
theorem coarse_image_of_construction_witness :
    cudaSegmentation sampleExtKeep [10, 20, 30] 32 [0, 1, 2] 8 8 8 4 emptyLedger
        = some sampleKeepBuilt ∧
    (∃ k, 1 ≤ k ∧ sampleKeepBuilt.d_small_image.data = pyramidLevel sampleExtKeep [10, 20, 30] 32 8 8 k ∧
      sampleKeepBuilt.small_size = ⟨(chainLevel 8 8 k).1, (chainLevel 8 8 k).2⟩ ∧
      ∀ img fuel2, k ≤ fuel2 →
        ∃ r x, computeSegmentationFromTrimap sampleExtKeep fuel2 (updateImage img sampleKeepBuilt) = some (r, x) ∧
          (updateImage img sampleKeepBuilt).d_image.data = img ∧
          (updateImage img sampleKeepBuilt).d_small_image = sampleKeepBuilt.d_small_image ∧
          r.eng.d_small_image = sampleKeepBuilt.d_small_image) ∧
    (∀ (e2 : Engine) (img tri ctri : Plane) (p cw ch : Nat),
      (updateImage img e2).d_small_image = e2.d_small_image ∧
      (updateTrimap tri e2).d_small_image = e2.d_small_image ∧
      (updateTrimapCrop tri ctri p e2).d_small_image = e2.d_small_image ∧
      (updateImageCrop sampleExtKeep img p cw ch e2).d_small_image = e2.d_small_image ∧
      (updateSegmentation sampleExtKeep e2).d_small_image = e2.d_small_image ∧
      (updateSegmentationCrop sampleExtKeep e2).d_small_image = e2.d_small_image ∧
      ∀ fuel2 r x, computeSegmentationFromTrimap sampleExtKeep fuel2 e2 = some (r, x) →
        r.eng.d_small_image = e2.d_small_image) :=
  ⟨sampleKeepBuilt_eq, coarse_image_of_construction sampleExtKeep [10, 20, 30] [0, 1, 2] 32 8
    8 8 4 emptyLedger sampleKeepBuilt sampleKeepBuilt_eq⟩

end cudaSegmentation

namespace ImageConverter

/-! ## `getImages` when a frame is not ready -/

/-- C13 (counterexample to the claim as stated): with a depth frame ready, the mechanical
state present and the colour image empty, `getImages` has already replaced the stored
depth frame when it returns at the colour check. -/
theorem getImages_colour_missing_counterexample :
    sampleColourMissing.image = [] ∧
      (getImages sampleColourMissing).depth = ⟨1, 2, MatType.CV_32FC1, [7, 9]⟩ ∧
      (getImages sampleColourMissing).depth ≠ sampleColourMissing.depth := by
  decide

/-- C13 (as amended): for every converter state, if the depth image is empty, or the
colour image is empty, or the mechanical state is missing, then the stored colour frame
and previous colour frame are unchanged by `getImages`; the stored depth frame (and the
whole state) is unchanged when the depth image is empty or the mechanical state is
missing; when only the colour image is empty the depth frame is the new depth frame. -/
theorem getImages_not_ready (s : Converter)
    (h : s.depthImage = [] ∨ s.image = [] ∨ s.mstate = false) :
    (getImages s).color = s.color ∧ (getImages s).color_1 = s.color_1 ∧
      (s.depthImage = [] ∨ s.mstate = false → getImages s = s) ∧
      (∀ d rest, s.depthImage = d :: rest → s.mstate = true → (getImages s).depth = depthOf d) := by
  obtain ⟨di, im, ms, dp, co, c1⟩ := s
  cases di with
  | nil => simp [getImages]
  | cons d rest =>
    cases ms with
    | false => simp [getImages]
    | true =>
      cases im with
      | nil => simp [getImages]
      | cons i rest2 => simp at h

/-- Witness of `getImages_not_ready`: the colour frame is missing. -/
theorem getImages_not_ready_witness :
    (sampleColourMissing.depthImage = [] ∨ sampleColourMissing.image = [] ∨
        sampleColourMissing.mstate = false) ∧
      (getImages sampleColourMissing).color = sampleColourMissing.color ∧
      (getImages sampleColourMissing).color_1 = sampleColourMissing.color_1 ∧
      (sampleColourMissing.depthImage = [] ∨ sampleColourMissing.mstate = false →
        getImages sampleColourMissing = sampleColourMissing) ∧
      (∀ d rest, sampleColourMissing.depthImage = d :: rest →
        sampleColourMissing.mstate = true →
        (getImages sampleColourMissing).depth = depthOf d) :=
  ⟨by decide, getImages_not_ready sampleColourMissing (by decide)⟩

/-- With both frames ready the depth and colour frames are replaced. The previous-colour
frame shares the buffer of the colour frame: when the new colour frame has the size of the
stored one it shows the new frame, when the size changes it keeps the previous frame. -/
theorem getImages_ready :
    (getImages sampleReady).depth = ⟨1, 2, MatType.CV_32FC1, [7, 9]⟩ ∧
      (getImages sampleReady).color = ⟨1, 1, MatType.CV_8UC3, [10, 20, 30]⟩ ∧
      (getImages sampleReady).color_1 = ⟨1, 1, MatType.CV_8UC3, [10, 20, 30]⟩ ∧
      (getImages sampleResized).color = ⟨1, 2, MatType.CV_8UC3, [10, 20, 30, 11, 21, 31]⟩ ∧
      (getImages sampleResized).color_1 = sampleResized.color := by
  decide

end ImageConverter
